import Mathlib

/-!
Verification of the gedcom Go package (decoder, scanner and encoder).

The development is a shallow embedding of the source files of the
repository:

* the rune-level scanner (file with `Scanner.Next`, states `stateBegin`
  through `stateValue`, the `swallowCr` helper and the malformed-NOTE
  recovery),
* the hierarchical decoder (file with `Decoder.Decode`, the
  `makeXxxParser` closures and the `refs` table), and
* the encoder (file with `Encoder.Encode`, `tagWithText`,
  `textOneLine` and friends).

Go heap pointers are modelled with arenas: every record that the Go
code allocates with `new`/`&T{}` lives in a typed arena inside the
decoder state, and every Go pointer is the index of the record in its
arena.  Two Go pointers are the same object exactly when the indices
are equal, so object identity is preserved by the embedding.  Closures
of the parser stack become first-order context values carrying the
arena index they mutate.  Strings that the encoder measures and slices
with Go `len`/`[:]` (which are byte based) are converted to UTF-8 byte
lists at the point of writing, exactly as the Go runtime would.
-/

namespace Gedcom

/-- Update the element at position i of a list in place, as assignment
through a Go pointer into a slice element does. -/
def updAt (i : Nat) (f : α → α) : List α → List α
  | [] => []
  | x :: xs =>
    match i with
    | 0 => f x :: xs
    | n + 1 => x :: updAt n f xs

/-- Character class used by the scanner: space, tab, CR and LF
(`isSpace` in the source). -/
def isSpaceChar (c : Char) : Bool :=
  c = ' ' || c = '\t' || c = '\r' || c = '\n'

/-- Character class used by the scanner for tags and xrefs
(`isAlphaNumeric` in the source): ASCII digits, letters and the
underscore. -/
def isAlphaNum (c : Char) : Bool :=
  (('0' ≤ c && c ≤ '9') || ('a' ≤ c && c ≤ 'z') || ('A' ≤ c && c ≤ 'Z') || c = '_')

/-- Character class for decimal digits (`isNumeric` in the source). -/
def isDigitChar (c : Char) : Bool :=
  '0' ≤ c && c ≤ '9'

/-- Numeric value of a digit buffer, as `strconv.ParseInt` computes it
for a string of decimal digits. -/
def digitsToNat (buf : List Char) : Nat :=
  buf.foldl (fun acc c => acc * 10 + (c.toNat - 48)) 0

/-- One scanned GEDCOM line, mirroring the `Line` struct of the
scanner source (fields `Level`, `Tag`, `Value`, `Xref`, `LineNumber`
and `Offset`). -/
structure GLine where
  Level : Nat
  Tag : String
  Value : String
  Xref : String
  LineNumber : Nat
  Offset : Nat
  deriving Repr, DecidableEq

/-- The different messages a `ScanErr` can carry, one constructor per
error construction site in `Scanner.Next`. -/
inductive ScanErrKind where
  /-- io.ErrUnexpectedEOF raised when input ends in a state other than
  stateEnd and stateBegin. -/
  | unexpectedEOF
  /-- found non-whitespace before level. -/
  | beforeLevel
  /-- parse level failed inside strconv.ParseInt. -/
  | parseLevel
  /-- level contained non-numerics. -/
  | levelNonNumeric
  /-- tag contained non-alphanumeric (stateSeekTag and stateTag). -/
  | tagNonAlphaNum
  /-- tag or xref contained non-alphanumeric (stateSeekTagOrXref). -/
  | tagOrXrefNonAlphaNum
  /-- xref contained non-alphanumeric (stateXref). -/
  | xrefNonAlphaNum
  deriving Repr, DecidableEq

/-- A scan error, mirroring `ScanErr` with its `LineNumber` and
`Offset` fields. -/
structure ScanError where
  kind : ScanErrKind
  lineNumber : Nat
  offset : Nat
  deriving Repr, DecidableEq

/-- The states of the scanning state machine (`stateBegin` ..
`stateValue`).  `stateEnd` and `stateError` never persist across an
iteration of the read loop, so they do not appear: reaching them is
modelled by returning. -/
inductive ScanState where
  | begin
  | level
  | seekTagOrXref
  | seekTag
  | tag
  | xref
  | seekValue
  | value
  deriving Repr, DecidableEq

/-- The mutable fields of `Scanner` that survive between reads of a
single line: the machine state, the current line number, the byte
offset inside the line, the parsed level, the token buffer and the
captured tag, value and xref. -/
structure ScanSt where
  state : ScanState
  line : Nat
  offset : Nat
  level : Nat
  buf : List Char
  tagv : String
  xrefv : String
  deriving Repr, DecidableEq

/-- The scanner state at the start of scanning line number n, as
`Scanner.Next` resets it (the line counter has already been
incremented). -/
def freshScan (n : Nat) : ScanSt :=
  { state := .begin, line := n, offset := 0, level := 0, buf := [], tagv := "", xrefv := "" }

/-- Largest level value `strconv.ParseInt(_, 10, 64)` accepts. -/
def maxInt64 : Nat := 9223372036854775807

/-- The peek of the malformed-NOTE recovery: the value just ended on
a NOTE line, and the next rune exists and is not a digit. -/
def noteFoldable (tagv : String) (rest : List Char) : Bool :=
  tagv = "NOTE" &&
    match rest with
    | c2 :: _ => !(isDigitChar c2)
    | [] => false

/-- Outcome of consuming one rune in `Scanner.Next`: keep looping
with a new scanner state, return a completed line, or stop with a
scan error.  The remaining input is carried because `swallowCr` may
also consume the LF of a CR LF pair. -/
inductive StepRes where
  | cont (st : ScanSt) (rest : List Char)
  | emit (l : GLine) (rest : List Char)
  | fail (e : ScanError)
  deriving Repr, DecidableEq

/-- One iteration of the read loop of `Scanner.Next`: the offset
update, the state switch, and for terminators the `swallowCr` and the
malformed-NOTE peek. -/
def scanStep (st : ScanSt) (c : Char) (cs : List Char) : StepRes :=
  let o := st.offset + c.utf8Size
  match st.state with
  | .begin =>
    if isDigitChar c then .cont { st with state := .level, offset := o, buf := st.buf ++ [c] } cs
    else if isSpaceChar c then .cont { st with offset := o } cs
    else .fail ⟨.beforeLevel, st.line, o⟩
  | .level =>
    if isDigitChar c then .cont { st with offset := o, buf := st.buf ++ [c] } cs
    else if c = ' ' then
      if digitsToNat st.buf ≤ maxInt64 then
        .cont { st with state := .seekTagOrXref, offset := o,
                        level := digitsToNat st.buf, buf := [] } cs
      else .fail ⟨.parseLevel, st.line, o⟩
    else .fail ⟨.levelNonNumeric, st.line, o⟩
  | .seekTag =>
    if isAlphaNum c then .cont { st with state := .tag, offset := o, buf := st.buf ++ [c] } cs
    else if c = ' ' then .cont { st with offset := o } cs
    else .fail ⟨.tagNonAlphaNum, st.line, o⟩
  | .seekTagOrXref =>
    if isAlphaNum c then .cont { st with state := .tag, offset := o, buf := st.buf ++ [c] } cs
    else if c = '@' then .cont { st with state := .xref, offset := o } cs
    else if c = ' ' then .cont { st with offset := o } cs
    else .fail ⟨.tagOrXrefNonAlphaNum, st.line, o⟩
  | .tag =>
    if isAlphaNum c then .cont { st with offset := o, buf := st.buf ++ [c] } cs
    else if c = '\n' ∨ c = '\r' then
      match c, cs with
      | '\r', '\n' :: cs2 => .emit ⟨st.level, ⟨st.buf⟩, "", st.xrefv, st.line, o + 1⟩ cs2
      | _, _ => .emit ⟨st.level, ⟨st.buf⟩, "", st.xrefv, st.line, o⟩ cs
    else if c = ' ' then
      .cont { st with state := .seekValue, offset := o, tagv := ⟨st.buf⟩, buf := [] } cs
    else .fail ⟨.tagNonAlphaNum, st.line, o⟩
  | .xref =>
    if isAlphaNum c then .cont { st with offset := o, buf := st.buf ++ [c] } cs
    else if c = '@' then .cont { st with offset := o } cs
    else if c = ' ' then
      .cont { st with state := .seekTag, offset := o, xrefv := ⟨st.buf⟩, buf := [] } cs
    else .fail ⟨.xrefNonAlphaNum, st.line, o⟩
  | .seekValue =>
    if c = '\n' ∨ c = '\r' then
      match c, cs with
      | '\r', '\n' :: cs2 => .emit ⟨st.level, st.tagv, "", st.xrefv, st.line, o + 1⟩ cs2
      | _, _ => .emit ⟨st.level, st.tagv, "", st.xrefv, st.line, o⟩ cs
    else if c = ' ' then .cont { st with offset := o } cs
    else .cont { st with state := .value, offset := o, buf := st.buf ++ [c] } cs
  | .value =>
    if c = '\n' ∨ c = '\r' then
      -- line end; the malformed NOTE recovery peeks at the next rune
      -- and keeps consuming the value when it is not a digit.
      match c, cs with
      | '\r', '\n' :: cs2 =>
        if noteFoldable st.tagv cs2 then
          .cont { st with offset := o + 1, buf := st.buf ++ ['\n'] } cs2
        else .emit ⟨st.level, st.tagv, ⟨st.buf⟩, st.xrefv, st.line, o + 1⟩ cs2
      | _, _ =>
        if noteFoldable st.tagv cs then
          .cont { st with offset := o, buf := st.buf ++ ['\n'] } cs
        else .emit ⟨st.level, st.tagv, ⟨st.buf⟩, st.xrefv, st.line, o⟩ cs
    else .cont { st with offset := o, buf := st.buf ++ [c] } cs

/-- The scanning loop of `Scanner.Next`, fused over successive lines:
running it on the whole input produces either the list of scanned
lines or the first scan error, exactly as repeatedly calling `Next`
and `Line` does.  The accumulator holds the lines scanned so far in
reverse.  The fuel only serves the termination argument: every
iteration consumes at least one input character, so one unit of fuel
per character plus one is always enough and the fuel-exhaustion case
is unreachable from the entry points. -/
def scanRunF (st : ScanSt) (acc : List GLine) : Nat → List Char → Except ScanError (List GLine)
  | 0, _ => .ok acc.reverse
  | _ + 1, [] =>
    -- EOF: any state other than stateEnd and stateBegin is an
    -- unexpected end of input (stateEnd never persists into the loop).
    if st.state = .begin then .ok acc.reverse
    else .error ⟨.unexpectedEOF, st.line, st.offset⟩
  | fuel + 1, c :: cs =>
    match scanStep st c cs with
    | .cont st2 rest => scanRunF st2 acc fuel rest
    | .emit l rest => scanRunF (freshScan (st.line + 1)) (l :: acc) fuel rest
    | .fail e => .error e

/-- Scan a whole character stream into lines, as the decoder loop
does: the first `Next` call increments the line counter to 1. -/
def scanChars (cs : List Char) : Except ScanError (List GLine) :=
  scanRunF (freshScan 1) [] (cs.length + 1) cs

/-- Scan a string. -/
def scanString (s : String) : Except ScanError (List GLine) :=
  scanChars s.data

instance {ε α : Type} [DecidableEq ε] [DecidableEq α] : DecidableEq (Except ε α) := fun a b =>
  match a, b with
  | .ok x, .ok y => decidable_of_iff (x = y) (by simp)
  | .error x, .error y => decidable_of_iff (x = y) (by simp)
  | .ok _, .error _ => isFalse (by simp)
  | .error _, .ok _ => isFalse (by simp)

/-!
## Record types

The data structures of the record graph, taken from the `types.go`
declarations that the decoder and encoder in the sources manipulate.
Go pointers are arena indices (`Nat`, or `Option Nat` where the code
compares against nil); Go slices of pointers are lists of indices;
slices of by-value structs whose elements the parsers mutate through
element pointers (`UserDefinedTag`, `AddressDetail`) also live in
arenas, which matches the Go aliasing because a parent never appends
to such a slice while a child handler still holds a pointer into it.
-/

/-- ChangeRecord: fields Date, Time and Note of a CHAN structure. -/
structure ChangeRecord where
  Date : String := ""
  Time : String := ""
  Note : List Nat := []
  deriving Repr, DecidableEq

/-- UserDefinedTag: an unrecognized tag preserved with its tag, value,
xref and level plus recursively preserved children. -/
structure UserDefinedTag where
  Tag : String := ""
  Value : String := ""
  Xref : String := ""
  Level : Nat := 0
  UserDefined : List Nat := []
  deriving Repr, DecidableEq

/-- UserReferenceRecord (REFN): number and type. -/
structure UserReferenceRecord where
  Number : String := ""
  «Type» : String := ""
  deriving Repr, DecidableEq

/-- NoteRecord: accumulated note text plus source citations. -/
structure NoteRecord where
  Note : String := ""
  Citation : List Nat := []
  deriving Repr, DecidableEq

/-- VariantNameRecord (FONE and ROMN under NAME). -/
structure VariantNameRecord where
  Name : String := ""
  «Type» : String := ""
  NamePieceNpfx : String := ""
  NamePieceGiven : String := ""
  NamePieceNick : String := ""
  NamePieceSpfx : String := ""
  NamePieceSurname : String := ""
  NamePieceSuffix : String := ""
  Citation : List Nat := []
  Note : List Nat := []
  deriving Repr, DecidableEq

/-- NameRecord.  The two fields written NamePieceNpfx and
NamePieceSpfx here are NamePiecePrefix and NamePieceSurnamePrefix in
the Go source. -/
structure NameRecord where
  Name : String := ""
  «Type» : String := ""
  NamePieceNpfx : String := ""
  NamePieceGiven : String := ""
  NamePieceNick : String := ""
  NamePieceSpfx : String := ""
  NamePieceSurname : String := ""
  NamePieceSuffix : String := ""
  Phonetic : List Nat := []
  Romanized : List Nat := []
  Citation : List Nat := []
  Note : List Nat := []
  UserDefined : List Nat := []
  deriving Repr, DecidableEq

/-- DataRecord: the DATA substructure of a citation. -/
structure DataRecord where
  Date : String := ""
  Text : List String := []
  UserDefined : List Nat := []
  deriving Repr, DecidableEq

/-- CitationRecord: a source citation. -/
structure CitationRecord where
  Source : Option Nat := none
  Page : String := ""
  Data : DataRecord := {}
  Quay : String := ""
  Media : List Nat := []
  Note : List Nat := []
  UserDefined : List Nat := []
  deriving Repr, DecidableEq

/-- VariantPlaceNameRecord (FONE and ROMN under PLAC). -/
structure VariantPlaceNameRecord where
  Name : String := ""
  «Type» : String := ""
  deriving Repr, DecidableEq

/-- PlaceRecord, embedded by value inside an event. -/
structure PlaceRecord where
  Name : String := ""
  Phonetic : List Nat := []
  Romanized : List Nat := []
  Latitude : String := ""
  Longitude : String := ""
  Citation : List Nat := []
  Note : List Nat := []
  deriving Repr, DecidableEq

/-- AddressDetail: one ADDR structure. -/
structure AddressDetail where
  Full : String := ""
  Line1 : String := ""
  Line2 : String := ""
  Line3 : String := ""
  City : String := ""
  State : String := ""
  PostalCode : String := ""
  Country : String := ""
  deriving Repr, DecidableEq

/-- AddressRecord: list of address details plus phone, email, fax and
web fields. -/
structure AddressRecord where
  Address : List Nat := []
  Phone : List String := []
  Email : List String := []
  Fax : List String := []
  WWW : List String := []
  deriving Repr, DecidableEq

/-- EventRecord: an event or attribute. -/
structure EventRecord where
  Tag : String := ""
  Value : String := ""
  «Type» : String := ""
  Date : String := ""
  Place : PlaceRecord := {}
  Address : AddressRecord := {}
  ResponsibleAgency : String := ""
  ReligiousAffiliation : String := ""
  Cause : String := ""
  RestrictionNotice : String := ""
  ChildInFamily : Option Nat := none
  AdoptedByParent : String := ""
  Citation : List Nat := []
  Media : List Nat := []
  Note : List Nat := []
  UserDefined : List Nat := []
  deriving Repr, DecidableEq

/-- FamilyLinkRecord (FAMC and FAMS). -/
structure FamilyLinkRecord where
  Family : Option Nat := none
  «Type» : String := ""
  Note : List Nat := []
  deriving Repr, DecidableEq

/-- FileRecord: one FILE structure of a media record. -/
structure FileRecord where
  Name : String := ""
  Format : String := ""
  FormatType : String := ""
  Title : String := ""
  UserDefined : List Nat := []
  deriving Repr, DecidableEq

/-- MediaRecord (OBJE). -/
structure MediaRecord where
  Xref : String := ""
  File : List Nat := []
  UserReference : List Nat := []
  AutomatedRecordId : String := ""
  Change : ChangeRecord := {}
  Note : List Nat := []
  Citation : List Nat := []
  UserDefined : List Nat := []
  Title : String := ""
  deriving Repr, DecidableEq

/-- AssociationRecord (ASSO). -/
structure AssociationRecord where
  Xref : String := ""
  Relation : String := ""
  Citation : List Nat := []
  Note : List Nat := []
  deriving Repr, DecidableEq

/-- IndividualRecord (INDI). -/
structure IndividualRecord where
  Xref : String := ""
  Name : List Nat := []
  Sex : String := ""
  Event : List Nat := []
  Attribute : List Nat := []
  Parents : List Nat := []
  Family : List Nat := []
  Submitter : List Nat := []
  Association : List Nat := []
  PermanentRecordFileNumber : String := ""
  AncestralFileNumber : String := ""
  UserReference : List Nat := []
  AutomatedRecordId : String := ""
  Change : ChangeRecord := {}
  Note : List Nat := []
  Citation : List Nat := []
  Media : List Nat := []
  UserDefined : List Nat := []
  deriving Repr, DecidableEq

/-- FamilyRecord (FAM). -/
structure FamilyRecord where
  Xref : String := ""
  Husband : Option Nat := none
  Wife : Option Nat := none
  Child : List Nat := []
  Event : List Nat := []
  NumberOfChildren : String := ""
  UserReference : List Nat := []
  AutomatedRecordId : String := ""
  Change : ChangeRecord := {}
  Note : List Nat := []
  Citation : List Nat := []
  Media : List Nat := []
  UserDefined : List Nat := []
  deriving Repr, DecidableEq

/-- SourceEventRecord (EVEN under SOUR.DATA). -/
structure SourceEventRecord where
  Kind : String := ""
  Date : String := ""
  Place : String := ""
  deriving Repr, DecidableEq

/-- SourceDataRecord (DATA under SOUR). -/
structure SourceDataRecord where
  Event : List Nat := []
  deriving Repr, DecidableEq

/-- SourceCallNumberRecord (CALN). -/
structure SourceCallNumberRecord where
  CallNumber : String := ""
  MediaType : String := ""
  deriving Repr, DecidableEq

/-- SourceRepositoryRecord (REPO under SOUR). -/
structure SourceRepositoryRecord where
  Repository : Option Nat := none
  Note : List Nat := []
  CallNumber : List Nat := []
  deriving Repr, DecidableEq

/-- SourceRecord (SOUR). -/
structure SourceRecord where
  Xref : String := ""
  Title : String := ""
  Data : Option SourceDataRecord := none
  Originator : String := ""
  FiledBy : String := ""
  PublicationFacts : String := ""
  Text : String := ""
  Repository : Option SourceRepositoryRecord := none
  UserReference : List Nat := []
  AutomatedRecordId : String := ""
  Change : ChangeRecord := {}
  Note : List Nat := []
  Media : List Nat := []
  UserDefined : List Nat := []
  deriving Repr, DecidableEq

/-- RepositoryRecord (REPO). -/
structure RepositoryRecord where
  Xref : String := ""
  Name : String := ""
  Address : AddressRecord := {}
  Note : List Nat := []
  UserReference : List Nat := []
  AutomatedRecordId : String := ""
  Change : ChangeRecord := {}
  UserDefined : List Nat := []
  deriving Repr, DecidableEq

/-- SubmitterRecord (SUBM).  The decoder only ever creates these; the
fields beyond Xref are only read by the encoder. -/
structure SubmitterRecord where
  Xref : String := ""
  Name : String := ""
  Address : Option AddressRecord := none
  Media : List Nat := []
  Language : List String := []
  SubmitterRecordFileID : String := ""
  AutomatedRecordId : String := ""
  Note : List Nat := []
  Change : Option ChangeRecord := none
  deriving Repr, DecidableEq

/-- SubmissionRecord (SUBN). -/
structure SubmissionRecord where
  Xref : String := ""
  deriving Repr, DecidableEq

/-- SystemRecord: the SOUR system structure of the header. -/
structure SystemRecord where
  Xref : String := ""
  Version : String := ""
  ProductName : String := ""
  BusinessName : String := ""
  Address : AddressRecord := {}
  SourceName : String := ""
  SourceDate : String := ""
  SourceCopyright : String := ""
  UserDefined : List Nat := []
  deriving Repr, DecidableEq

/-- Header (HEAD). -/
structure Header where
  SourceSystem : SystemRecord := {}
  Destination : String := ""
  Date : String := ""
  Time : String := ""
  Submitter : Option Nat := none
  Submission : Option Nat := none
  Filename : String := ""
  Copyright : String := ""
  Version : String := ""
  Form : String := ""
  CharacterSet : String := ""
  CharacterSetVersion : String := ""
  Language : String := ""
  Note : String := ""
  UserDefined : List Nat := []
  deriving Repr, DecidableEq

/-- The record kinds that can be registered in the refs table: the
lookup `d.refs[xref].(*T)` succeeds only when both the key and the
dynamic type match. -/
inductive RefKind where
  | ind
  | fam
  | src
  | subm
  | subn
  | repo
  | media
  deriving Repr, DecidableEq

/-- Strings that the text-accumulating parser can point at
(`makeTextParser` receives a Go pointer to a string field; this type
names each such field). -/
inductive TextTarget where
  | sourceTitle (i : Nat)
  | sourceOriginator (i : Nat)
  | sourceText (i : Nat)
  | headerNote
  | systemCopyright
  | fileTitle (i : Nat)
  | dataText (ci : Nat) (k : Nat)
  deriving Repr, DecidableEq

/-- The ChangeRecord fields that `makeChangeParser` can point at. -/
inductive ChangeTarget where
  | individual (i : Nat)
  | family (i : Nat)
  | source (i : Nat)
  | media (i : Nat)
  | repository (i : Nat)
  deriving Repr, DecidableEq

/-- The AddressRecord fields that `tryAddressTags` can point at. -/
inductive AddrTarget where
  | event (i : Nat)
  | repo (i : Nat)
  | system
  deriving Repr, DecidableEq

/-- One non-root parser closure of the decoder: which `makeXxxParser`
created it and which records it captured. -/
inductive CtxKind where
  | header
  | headerTime
  | headerVersion
  | headerCharSet
  | system
  | corp
  | dataSource
  | individual (i : Nat)
  | name (i : Nat)
  | variantName (i : Nat)
  | source (i : Nat)
  | sourceData (i : Nat)
  | sourceEvent (i : Nat)
  | sourceRepository (i : Nat)
  | sourceCallNumber (i : Nat)
  | citation (i : Nat)
  | note (i : Nat)
  | text (t : TextTarget)
  | publicationFacts (i : Nat)
  | data (i : Nat)
  | event (parentTag : String) (i : Nat)
  | eventAdopt (i : Nat)
  | place (i : Nat)
  | placeMap (i : Nat)
  | variantPlaceName (i : Nat)
  | familyLink (i : Nat)
  | family (i : Nat)
  | media (i : Nat)
  | mediaFile (i : Nat)
  | mediaFileFormat (i : Nat)
  | userReference (i : Nat)
  | addressDetail (i : Nat)
  | change (t : ChangeTarget)
  | changeTime (t : ChangeTarget)
  | repository (i : Nat)
  | association (i : Nat)
  | userDefined (i : Nat)
  deriving Repr, DecidableEq

/-- A non-root parser together with the nesting level it was pushed at
(the `minLevel` argument of every `makeXxxParser`). -/
structure NCtx where
  kind : CtxKind
  minLevel : Nat
  deriving Repr, DecidableEq

/-- An entry of the parser stack: the root parser or a non-root
parser.  `makeRootParser` is only ever installed at the bottom of the
stack by `Decode`, and `pushParser` is only ever called on the result
of one of the other `makeXxxParser` functions, which the type records. -/
inductive Ctx where
  | root
  | n (c : NCtx)
  deriving Repr, DecidableEq

/-- The decoder state: one arena per Go record type, the reference
table, the fields of the `Gedcom` struct under construction, and the
list of lines passed to `unhandledTag` (the optional diagnostic
logger). -/
structure DState where
  individuals : List IndividualRecord := []
  families : List FamilyRecord := []
  sources : List SourceRecord := []
  submitters : List SubmitterRecord := []
  submissions : List SubmissionRecord := []
  repositories : List RepositoryRecord := []
  medias : List MediaRecord := []
  names : List NameRecord := []
  variantNames : List VariantNameRecord := []
  notes : List NoteRecord := []
  citations : List CitationRecord := []
  events : List EventRecord := []
  familyLinks : List FamilyLinkRecord := []
  userRefs : List UserReferenceRecord := []
  sourceEvents : List SourceEventRecord := []
  callNumbers : List SourceCallNumberRecord := []
  fileRecords : List FileRecord := []
  addressDetails : List AddressDetail := []
  variantPlaceNames : List VariantPlaceNameRecord := []
  associations : List AssociationRecord := []
  userDefs : List UserDefinedTag := []
  refs : List (String × RefKind × Nat) := []
  header : Option Header := none
  gFamily : List Nat := []
  gIndividual : List Nat := []
  gMedia : List Nat := []
  gRepository : List Nat := []
  gSource : List Nat := []
  gSubmitter : List Nat := []
  gUserDefined : List Nat := []
  unhandled : List GLine := []
  deriving Repr, DecidableEq

/-- strings.Trim(value, "@"): remove every leading and trailing at
sign (`stripXref` in the source). -/
def stripXref (v : String) : String :=
  ⟨((v.data.dropWhile (· = '@')).reverse.dropWhile (· = '@')).reverse⟩

/-- Overwriting insertion into the reference table (Go map
assignment). -/
def refsInsert (x : String) (v : RefKind × Nat) : List (String × RefKind × Nat) → List (String × RefKind × Nat)
  | [] => [(x, v)]
  | (y, w) :: rest => if y = x then (x, v) :: rest else (y, w) :: refsInsert x v rest

/-- Reference table lookup (Go map read). -/
def refsLookup (x : String) : List (String × RefKind × Nat) → Option (RefKind × Nat)
  | [] => none
  | (y, w) :: rest => if y = x then some w else refsLookup x rest

/-! Arena allocation helpers: Go `&T{...}` becomes appending to the
arena of T and returning the index of the new record. -/

/-- Allocate an IndividualRecord. -/
def allocInd (r : IndividualRecord) (st : DState) : Nat × DState :=
  (st.individuals.length, { st with individuals := st.individuals ++ [r] })

/-- Allocate a FamilyRecord. -/
def allocFam (r : FamilyRecord) (st : DState) : Nat × DState :=
  (st.families.length, { st with families := st.families ++ [r] })

/-- Allocate a SourceRecord. -/
def allocSource (r : SourceRecord) (st : DState) : Nat × DState :=
  (st.sources.length, { st with sources := st.sources ++ [r] })

/-- Allocate a SubmitterRecord. -/
def allocSubm (r : SubmitterRecord) (st : DState) : Nat × DState :=
  (st.submitters.length, { st with submitters := st.submitters ++ [r] })

/-- Allocate a SubmissionRecord. -/
def allocSubn (r : SubmissionRecord) (st : DState) : Nat × DState :=
  (st.submissions.length, { st with submissions := st.submissions ++ [r] })

/-- Allocate a RepositoryRecord. -/
def allocRepo (r : RepositoryRecord) (st : DState) : Nat × DState :=
  (st.repositories.length, { st with repositories := st.repositories ++ [r] })

/-- Allocate a MediaRecord. -/
def allocMedia (r : MediaRecord) (st : DState) : Nat × DState :=
  (st.medias.length, { st with medias := st.medias ++ [r] })

/-- Allocate a NameRecord. -/
def allocName (r : NameRecord) (st : DState) : Nat × DState :=
  (st.names.length, { st with names := st.names ++ [r] })

/-- Allocate a VariantNameRecord. -/
def allocVariantName (r : VariantNameRecord) (st : DState) : Nat × DState :=
  (st.variantNames.length, { st with variantNames := st.variantNames ++ [r] })

/-- Allocate a NoteRecord. -/
def allocNote (r : NoteRecord) (st : DState) : Nat × DState :=
  (st.notes.length, { st with notes := st.notes ++ [r] })

/-- Allocate a CitationRecord. -/
def allocCitation (r : CitationRecord) (st : DState) : Nat × DState :=
  (st.citations.length, { st with citations := st.citations ++ [r] })

/-- Allocate an EventRecord. -/
def allocEvent (r : EventRecord) (st : DState) : Nat × DState :=
  (st.events.length, { st with events := st.events ++ [r] })

/-- Allocate a FamilyLinkRecord. -/
def allocFamilyLink (r : FamilyLinkRecord) (st : DState) : Nat × DState :=
  (st.familyLinks.length, { st with familyLinks := st.familyLinks ++ [r] })

/-- Allocate a UserReferenceRecord. -/
def allocUserRef (r : UserReferenceRecord) (st : DState) : Nat × DState :=
  (st.userRefs.length, { st with userRefs := st.userRefs ++ [r] })

/-- Allocate a SourceEventRecord. -/
def allocSourceEvent (r : SourceEventRecord) (st : DState) : Nat × DState :=
  (st.sourceEvents.length, { st with sourceEvents := st.sourceEvents ++ [r] })

/-- Allocate a SourceCallNumberRecord. -/
def allocCallNumber (r : SourceCallNumberRecord) (st : DState) : Nat × DState :=
  (st.callNumbers.length, { st with callNumbers := st.callNumbers ++ [r] })

/-- Allocate a FileRecord. -/
def allocFile (r : FileRecord) (st : DState) : Nat × DState :=
  (st.fileRecords.length, { st with fileRecords := st.fileRecords ++ [r] })

/-- Allocate an AddressDetail. -/
def allocAddressDetail (r : AddressDetail) (st : DState) : Nat × DState :=
  (st.addressDetails.length, { st with addressDetails := st.addressDetails ++ [r] })

/-- Allocate a VariantPlaceNameRecord. -/
def allocVariantPlaceName (r : VariantPlaceNameRecord) (st : DState) : Nat × DState :=
  (st.variantPlaceNames.length, { st with variantPlaceNames := st.variantPlaceNames ++ [r] })

/-- Allocate an AssociationRecord. -/
def allocAssociation (r : AssociationRecord) (st : DState) : Nat × DState :=
  (st.associations.length, { st with associations := st.associations ++ [r] })

/-- Allocate a UserDefinedTag. -/
def allocUserDef (r : UserDefinedTag) (st : DState) : Nat × DState :=
  (st.userDefs.length, { st with userDefs := st.userDefs ++ [r] })

/-! Mutation helpers: assignment through a Go pointer becomes an
in-place update of the arena element. -/

/-- Mutate an IndividualRecord in place. -/
def modInd (i : Nat) (f : IndividualRecord → IndividualRecord) (st : DState) : DState :=
  { st with individuals := updAt i f st.individuals }

/-- Mutate a FamilyRecord in place. -/
def modFam (i : Nat) (f : FamilyRecord → FamilyRecord) (st : DState) : DState :=
  { st with families := updAt i f st.families }

/-- Mutate a SourceRecord in place. -/
def modSource (i : Nat) (f : SourceRecord → SourceRecord) (st : DState) : DState :=
  { st with sources := updAt i f st.sources }

/-- Mutate a RepositoryRecord in place. -/
def modRepo (i : Nat) (f : RepositoryRecord → RepositoryRecord) (st : DState) : DState :=
  { st with repositories := updAt i f st.repositories }

/-- Mutate a MediaRecord in place. -/
def modMedia (i : Nat) (f : MediaRecord → MediaRecord) (st : DState) : DState :=
  { st with medias := updAt i f st.medias }

/-- Mutate a NameRecord in place. -/
def modName (i : Nat) (f : NameRecord → NameRecord) (st : DState) : DState :=
  { st with names := updAt i f st.names }

/-- Mutate a VariantNameRecord in place. -/
def modVariantName (i : Nat) (f : VariantNameRecord → VariantNameRecord) (st : DState) : DState :=
  { st with variantNames := updAt i f st.variantNames }

/-- Mutate a NoteRecord in place. -/
def modNote (i : Nat) (f : NoteRecord → NoteRecord) (st : DState) : DState :=
  { st with notes := updAt i f st.notes }

/-- Mutate a CitationRecord in place. -/
def modCitation (i : Nat) (f : CitationRecord → CitationRecord) (st : DState) : DState :=
  { st with citations := updAt i f st.citations }

/-- Mutate an EventRecord in place. -/
def modEvent (i : Nat) (f : EventRecord → EventRecord) (st : DState) : DState :=
  { st with events := updAt i f st.events }

/-- Mutate a FamilyLinkRecord in place. -/
def modFamilyLink (i : Nat) (f : FamilyLinkRecord → FamilyLinkRecord) (st : DState) : DState :=
  { st with familyLinks := updAt i f st.familyLinks }

/-- Mutate a UserReferenceRecord in place. -/
def modUserRef (i : Nat) (f : UserReferenceRecord → UserReferenceRecord) (st : DState) : DState :=
  { st with userRefs := updAt i f st.userRefs }

/-- Mutate a SourceEventRecord in place. -/
def modSourceEvent (i : Nat) (f : SourceEventRecord → SourceEventRecord) (st : DState) : DState :=
  { st with sourceEvents := updAt i f st.sourceEvents }

/-- Mutate a SourceCallNumberRecord in place. -/
def modCallNumber (i : Nat) (f : SourceCallNumberRecord → SourceCallNumberRecord) (st : DState) : DState :=
  { st with callNumbers := updAt i f st.callNumbers }

/-- Mutate a FileRecord in place. -/
def modFile (i : Nat) (f : FileRecord → FileRecord) (st : DState) : DState :=
  { st with fileRecords := updAt i f st.fileRecords }

/-- Mutate an AddressDetail in place. -/
def modAddressDetail (i : Nat) (f : AddressDetail → AddressDetail) (st : DState) : DState :=
  { st with addressDetails := updAt i f st.addressDetails }

/-- Mutate a VariantPlaceNameRecord in place. -/
def modVariantPlaceName (i : Nat) (f : VariantPlaceNameRecord → VariantPlaceNameRecord) (st : DState) : DState :=
  { st with variantPlaceNames := updAt i f st.variantPlaceNames }

/-- Mutate an AssociationRecord in place. -/
def modAssociation (i : Nat) (f : AssociationRecord → AssociationRecord) (st : DState) : DState :=
  { st with associations := updAt i f st.associations }

/-- Mutate a UserDefinedTag in place. -/
def modUserDef (i : Nat) (f : UserDefinedTag → UserDefinedTag) (st : DState) : DState :=
  { st with userDefs := updAt i f st.userDefs }

/-- Mutate the header (held by pointer in the Gedcom struct) in
place. -/
def modHeader (f : Header → Header) (st : DState) : DState :=
  { st with header := st.header.map f }

/-- Mutate the string a text parser points at. -/
def modText (t : TextTarget) (f : String → String) (st : DState) : DState :=
  match t with
  | .sourceTitle i => modSource i (fun s => { s with Title := f s.Title }) st
  | .sourceOriginator i => modSource i (fun s => { s with Originator := f s.Originator }) st
  | .sourceText i => modSource i (fun s => { s with Text := f s.Text }) st
  | .headerNote => modHeader (fun h => { h with Note := f h.Note }) st
  | .systemCopyright =>
    modHeader (fun h =>
      { h with SourceSystem := { h.SourceSystem with SourceCopyright := f h.SourceSystem.SourceCopyright } }) st
  | .fileTitle i => modFile i (fun r => { r with Title := f r.Title }) st
  | .dataText ci k =>
    modCitation ci (fun c => { c with Data := { c.Data with Text := updAt k f c.Data.Text } }) st

/-- Mutate the ChangeRecord a change parser points at. -/
def modChange (t : ChangeTarget) (f : ChangeRecord → ChangeRecord) (st : DState) : DState :=
  match t with
  | .individual i => modInd i (fun r => { r with Change := f r.Change }) st
  | .family i => modFam i (fun r => { r with Change := f r.Change }) st
  | .source i => modSource i (fun r => { r with Change := f r.Change }) st
  | .media i => modMedia i (fun r => { r with Change := f r.Change }) st
  | .repository i => modRepo i (fun r => { r with Change := f r.Change }) st

/-- Mutate the AddressRecord an address context points at. -/
def modAddr (t : AddrTarget) (f : AddressRecord → AddressRecord) (st : DState) : DState :=
  match t with
  | .event i => modEvent i (fun r => { r with Address := f r.Address }) st
  | .repo i => modRepo i (fun r => { r with Address := f r.Address }) st
  | .system =>
    modHeader (fun h => { h with SourceSystem := { h.SourceSystem with Address := f h.SourceSystem.Address } }) st

/-! The reference-table accessors `Decoder.individual` and friends:
an empty xref yields a fresh unregistered record, otherwise the table
entry is reused when its dynamic type matches, and created (and the
table entry overwritten) when it does not. -/

/-- Decoder.individual. -/
def dIndividual (x : String) (st : DState) : Nat × DState :=
  if x = "" then allocInd {} st
  else
    match refsLookup x st.refs with
    | some (.ind, i) => (i, st)
    | _ =>
      let (i, st) := allocInd { Xref := x } st
      (i, { st with refs := refsInsert x (.ind, i) st.refs })

/-- Decoder.family. -/
def dFamily (x : String) (st : DState) : Nat × DState :=
  if x = "" then allocFam {} st
  else
    match refsLookup x st.refs with
    | some (.fam, i) => (i, st)
    | _ =>
      let (i, st) := allocFam { Xref := x } st
      (i, { st with refs := refsInsert x (.fam, i) st.refs })

/-- Decoder.source. -/
def dSource (x : String) (st : DState) : Nat × DState :=
  if x = "" then allocSource {} st
  else
    match refsLookup x st.refs with
    | some (.src, i) => (i, st)
    | _ =>
      let (i, st) := allocSource { Xref := x } st
      (i, { st with refs := refsInsert x (.src, i) st.refs })

/-- Decoder.submitter. -/
def dSubmitter (x : String) (st : DState) : Nat × DState :=
  if x = "" then allocSubm {} st
  else
    match refsLookup x st.refs with
    | some (.subm, i) => (i, st)
    | _ =>
      let (i, st) := allocSubm { Xref := x } st
      (i, { st with refs := refsInsert x (.subm, i) st.refs })

/-- Decoder.submission. -/
def dSubmission (x : String) (st : DState) : Nat × DState :=
  if x = "" then allocSubn {} st
  else
    match refsLookup x st.refs with
    | some (.subn, i) => (i, st)
    | _ =>
      let (i, st) := allocSubn { Xref := x } st
      (i, { st with refs := refsInsert x (.subn, i) st.refs })

/-- Decoder.repository. -/
def dRepository (x : String) (st : DState) : Nat × DState :=
  if x = "" then allocRepo {} st
  else
    match refsLookup x st.refs with
    | some (.repo, i) => (i, st)
    | _ =>
      let (i, st) := allocRepo { Xref := x } st
      (i, { st with refs := refsInsert x (.repo, i) st.refs })

/-- Decoder.media. -/
def dMedia (x : String) (st : DState) : Nat × DState :=
  if x = "" then allocMedia {} st
  else
    match refsLookup x st.refs with
    | some (.media, i) => (i, st)
    | _ =>
      let (i, st) := allocMedia { Xref := x } st
      (i, { st with refs := refsInsert x (.media, i) st.refs })

/-- Decoder.unhandledTag: record the line passed to the diagnostic
logger (a no-op on the record graph). -/
def dUnhandled (l : GLine) (st : DState) : DState :=
  { st with unhandled := st.unhandled ++ [l] }

/-!
## The parser handlers

One definition per `makeXxxParser` closure.  Each takes the line to
handle and returns the parser to push (if any) together with the new
decoder state.  The uniform prelude of every non-root closure, `if
level <= minLevel then return d.popParser(...)`, is factored into the
dispatcher `lineStep` below; a handler body therefore corresponds to
the code after that check.
-/

/-- Event tags recognized under an individual. -/
def indiEventTags : List String :=
  ["BIRT", "CHR", "DEAT", "BURI", "CREM", "ADOP", "BAPM", "BARM", "BASM", "BLES",
   "CHRA", "CONF", "FCOM", "ORDN", "NATU", "EMIG", "IMMI", "CENS", "PROB", "WILL",
   "GRAD", "RETI", "EVEN"]

/-- Attribute tags recognized under an individual. -/
def indiAttrTags : List String :=
  ["CAST", "DSCR", "EDUC", "IDNO", "NATI", "NCHI", "NMR", "OCCU", "PROP", "RELI",
   "RESI", "SSN", "TITL", "FACT"]

/-- Event tags recognized under a family. -/
def famEventTags : List String :=
  ["ANUL", "CENS", "DIV", "DIVF", "ENGA", "MARR", "MARB", "MARC", "MARL", "MARS",
   "EVEN", "RESI"]

/-- The capture of an unrecognized line as a UserDefinedTag node plus
the push of its own nested unknown-tag handler; this exact sequence
appears in each context that preserves unknown tags, differing only in
which list the new index is appended to. -/
def captureUserDef (l : GLine) (app : Nat → DState → DState) (st : DState) : Option NCtx × DState :=
  let (k, st) := allocUserDef { Tag := l.Tag, Value := l.Value, Xref := l.Xref, Level := l.Level } st
  (some ⟨.userDefined k, l.Level⟩, app k st)

/-- tryAddressTags: the shared address recognizer. Returns none when
the tag is not an address tag. -/
def tryAddressTags (t : AddrTarget) (l : GLine) (st : DState) : Option (Option NCtx × DState) :=
  if l.Tag = "ADDR" then
    let (di, st) := allocAddressDetail { Full := l.Value } st
    some (some ⟨.addressDetail di, l.Level⟩, modAddr t (fun a => { a with Address := a.Address ++ [di] }) st)
  else if l.Tag = "PHON" then
    some (none, modAddr t (fun a => { a with Phone := a.Phone ++ [l.Value] }) st)
  else if l.Tag = "EMAIL" then
    some (none, modAddr t (fun a => { a with Email := a.Email ++ [l.Value] }) st)
  else if l.Tag = "FAX" then
    some (none, modAddr t (fun a => { a with Fax := a.Fax ++ [l.Value] }) st)
  else if l.Tag = "WWW" ∨ l.Tag = "URL" then
    some (none, modAddr t (fun a => { a with WWW := a.WWW ++ [l.Value] }) st)
  else none

/-- makeAddressDetailParser. -/
def addressDetailHandle (i : Nat) (l : GLine) (st : DState) : Option NCtx × DState :=
  if l.Tag = "CONT" then (none, modAddressDetail i (fun a => { a with Full := a.Full ++ "\n" ++ l.Value }) st)
  else if l.Tag = "CONC" then (none, modAddressDetail i (fun a => { a with Full := a.Full ++ l.Value }) st)
  else if l.Tag = "ADR1" then (none, modAddressDetail i (fun a => { a with Line1 := l.Value }) st)
  else if l.Tag = "ADR2" then (none, modAddressDetail i (fun a => { a with Line2 := l.Value }) st)
  else if l.Tag = "ADR3" then (none, modAddressDetail i (fun a => { a with Line3 := l.Value }) st)
  else if l.Tag = "CITY" then (none, modAddressDetail i (fun a => { a with City := l.Value }) st)
  else if l.Tag = "STAE" then (none, modAddressDetail i (fun a => { a with State := l.Value }) st)
  else if l.Tag = "POST" then (none, modAddressDetail i (fun a => { a with PostalCode := l.Value }) st)
  else if l.Tag = "CTRY" then (none, modAddressDetail i (fun a => { a with Country := l.Value }) st)
  else (none, st)

/-- makeNoteParser. -/
def noteHandle (i : Nat) (l : GLine) (st : DState) : Option NCtx × DState :=
  if l.Tag = "CONT" then (none, modNote i (fun n => { n with Note := n.Note ++ "\n" ++ l.Value }) st)
  else if l.Tag = "CONC" then (none, modNote i (fun n => { n with Note := n.Note ++ l.Value }) st)
  else if l.Tag = "SOUR" then
    let (si, st) := dSource (stripXref l.Value) st
    let (ci, st) := allocCitation { Source := some si } st
    (some ⟨.citation ci, l.Level⟩, modNote i (fun n => { n with Citation := n.Citation ++ [ci] }) st)
  else (none, dUnhandled l st)

/-- makeTextParser. -/
def textHandle (t : TextTarget) (l : GLine) (st : DState) : Option NCtx × DState :=
  if l.Tag = "CONT" then (none, modText t (fun s => s ++ "\n" ++ l.Value) st)
  else if l.Tag = "CONC" then (none, modText t (fun s => s ++ l.Value) st)
  else (none, dUnhandled l st)

/-- makePublicationFactsParser. -/
def publicationFactsHandle (i : Nat) (l : GLine) (st : DState) : Option NCtx × DState :=
  if l.Tag = "CONT" then
    (none, modSource i (fun s => { s with PublicationFacts := s.PublicationFacts ++ "\n" ++ l.Value }) st)
  else if l.Tag = "CONC" then
    (none, modSource i (fun s => { s with PublicationFacts := s.PublicationFacts ++ l.Value }) st)
  else if l.Tag = "DATE" ∨ l.Tag = "PLAC" then
    (none, modSource i (fun s =>
      let pre := if s.PublicationFacts ≠ "" then s.PublicationFacts ++ ", " else s.PublicationFacts
      { s with PublicationFacts := pre ++ l.Value }) st)
  else (none, dUnhandled l st)

/-- makeCitationParser. -/
def citationHandle (i : Nat) (l : GLine) (st : DState) : Option NCtx × DState :=
  if l.Tag = "PAGE" then (none, modCitation i (fun c => { c with Page := l.Value }) st)
  else if l.Tag = "QUAY" then (none, modCitation i (fun c => { c with Quay := l.Value }) st)
  else if l.Tag = "NOTE" then
    let (ni, st) := allocNote { Note := l.Value } st
    (some ⟨.note ni, l.Level⟩, modCitation i (fun c => { c with Note := c.Note ++ [ni] }) st)
  else if l.Tag = "DATA" then
    (some ⟨.data i, l.Level⟩, st)
  else
    captureUserDef l (fun k => modCitation i (fun c => { c with UserDefined := c.UserDefined ++ [k] })) st

/-- makeDataParser (the DATA substructure of a citation). -/
def dataHandle (ci : Nat) (l : GLine) (st : DState) : Option NCtx × DState :=
  if l.Tag = "DATE" then (none, modCitation ci (fun c => { c with Data := { c.Data with Date := l.Value } }) st)
  else if l.Tag = "TEXT" then
    let k := ((st.citations.get? ci).getD {}).Data.Text.length
    let st := modCitation ci (fun c => { c with Data := { c.Data with Text := c.Data.Text ++ [l.Value] } }) st
    (some ⟨.text (.dataText ci k), l.Level⟩, st)
  else
    captureUserDef l (fun k =>
      modCitation ci (fun c => { c with Data := { c.Data with UserDefined := c.Data.UserDefined ++ [k] } })) st

/-- makeUserReferenceParser. -/
def userReferenceHandle (i : Nat) (l : GLine) (st : DState) : Option NCtx × DState :=
  if l.Tag = "TYPE" then (none, modUserRef i (fun r => { r with «Type» := l.Value }) st)
  else (none, dUnhandled l st)

/-- makeChangeParser. -/
def changeHandle (t : ChangeTarget) (l : GLine) (st : DState) : Option NCtx × DState :=
  if l.Tag = "DATE" then
    (some ⟨.changeTime t, l.Level⟩, modChange t (fun c => { c with Date := l.Value }) st)
  else if l.Tag = "NOTE" then
    let (ni, st) := allocNote { Note := l.Value } st
    (some ⟨.note ni, l.Level⟩, modChange t (fun c => { c with Note := c.Note ++ [ni] }) st)
  else (none, dUnhandled l st)

/-- makeChangeTimeParser. -/
def changeTimeHandle (t : ChangeTarget) (l : GLine) (st : DState) : Option NCtx × DState :=
  if l.Tag = "TIME" then (none, modChange t (fun c => { c with Time := l.Value }) st)
  else (none, dUnhandled l st)

/-- makeVariantNameParser. -/
def variantNameHandle (i : Nat) (l : GLine) (st : DState) : Option NCtx × DState :=
  if l.Tag = "TYPE" then (none, modVariantName i (fun n => { n with «Type» := l.Value }) st)
  else if l.Tag = "NPFX" then (none, modVariantName i (fun n => { n with NamePieceNpfx := l.Value }) st)
  else if l.Tag = "GIVN" then (none, modVariantName i (fun n => { n with NamePieceGiven := l.Value }) st)
  else if l.Tag = "NICK" then (none, modVariantName i (fun n => { n with NamePieceNick := l.Value }) st)
  else if l.Tag = "SPFX" then (none, modVariantName i (fun n => { n with NamePieceSpfx := l.Value }) st)
  else if l.Tag = "SURN" then (none, modVariantName i (fun n => { n with NamePieceSurname := l.Value }) st)
  else if l.Tag = "NSFX" then (none, modVariantName i (fun n => { n with NamePieceSuffix := l.Value }) st)
  else if l.Tag = "SOUR" then
    let (si, st) := dSource (stripXref l.Value) st
    let (ci, st) := allocCitation { Source := some si } st
    (some ⟨.citation ci, l.Level⟩, modVariantName i (fun n => { n with Citation := n.Citation ++ [ci] }) st)
  else if l.Tag = "NOTE" then
    let (ni, st) := allocNote { Note := l.Value } st
    (some ⟨.note ni, l.Level⟩, modVariantName i (fun n => { n with Note := n.Note ++ [ni] }) st)
  else (none, dUnhandled l st)

/-- makeNameParser. -/
def nameHandle (i : Nat) (l : GLine) (st : DState) : Option NCtx × DState :=
  if l.Tag = "TYPE" then (none, modName i (fun n => { n with «Type» := l.Value }) st)
  else if l.Tag = "NPFX" then (none, modName i (fun n => { n with NamePieceNpfx := l.Value }) st)
  else if l.Tag = "GIVN" then (none, modName i (fun n => { n with NamePieceGiven := l.Value }) st)
  else if l.Tag = "NICK" then (none, modName i (fun n => { n with NamePieceNick := l.Value }) st)
  else if l.Tag = "SPFX" then (none, modName i (fun n => { n with NamePieceSpfx := l.Value }) st)
  else if l.Tag = "SURN" then (none, modName i (fun n => { n with NamePieceSurname := l.Value }) st)
  else if l.Tag = "NSFX" then (none, modName i (fun n => { n with NamePieceSuffix := l.Value }) st)
  else if l.Tag = "FONE" then
    let (vi, st) := allocVariantName { Name := l.Value } st
    (some ⟨.variantName vi, l.Level⟩, modName i (fun n => { n with Phonetic := n.Phonetic ++ [vi] }) st)
  else if l.Tag = "ROMN" then
    let (vi, st) := allocVariantName { Name := l.Value } st
    (some ⟨.variantName vi, l.Level⟩, modName i (fun n => { n with Romanized := n.Romanized ++ [vi] }) st)
  else if l.Tag = "SOUR" then
    let (si, st) := dSource (stripXref l.Value) st
    let (ci, st) := allocCitation { Source := some si } st
    (some ⟨.citation ci, l.Level⟩, modName i (fun n => { n with Citation := n.Citation ++ [ci] }) st)
  else if l.Tag = "NOTE" then
    let (ni, st) := allocNote { Note := l.Value } st
    (some ⟨.note ni, l.Level⟩, modName i (fun n => { n with Note := n.Note ++ [ni] }) st)
  else (none, dUnhandled l st)

/-- makeSourceEventParser. -/
def sourceEventHandle (i : Nat) (l : GLine) (st : DState) : Option NCtx × DState :=
  if l.Tag = "DATE" then (none, modSourceEvent i (fun s => { s with Date := l.Value }) st)
  else if l.Tag = "PLAC" then (none, modSourceEvent i (fun s => { s with Place := l.Value }) st)
  else (none, dUnhandled l st)

/-- makeSourceDataParser. -/
def sourceDataHandle (i : Nat) (l : GLine) (st : DState) : Option NCtx × DState :=
  if l.Tag = "EVEN" then
    let (ei, st) := allocSourceEvent { Kind := l.Value } st
    (some ⟨.sourceEvent ei, l.Level⟩,
      modSource i (fun s => { s with Data := s.Data.map (fun d => { d with Event := d.Event ++ [ei] }) }) st)
  else (none, dUnhandled l st)

/-- makeSourceCallNumberParser. -/
def sourceCallNumberHandle (i : Nat) (l : GLine) (st : DState) : Option NCtx × DState :=
  if l.Tag = "MEDI" then (none, modCallNumber i (fun s => { s with MediaType := l.Value }) st)
  else (none, dUnhandled l st)

/-- makeSourceRepositoryParser. -/
def sourceRepositoryHandle (i : Nat) (l : GLine) (st : DState) : Option NCtx × DState :=
  if l.Tag = "NOTE" then
    let (ni, st) := allocNote { Note := l.Value } st
    (some ⟨.note ni, l.Level⟩,
      modSource i (fun s => { s with Repository := s.Repository.map (fun r => { r with Note := r.Note ++ [ni] }) }) st)
  else if l.Tag = "CALN" then
    let (ci, st) := allocCallNumber { CallNumber := l.Value } st
    (some ⟨.sourceCallNumber ci, l.Level⟩,
      modSource i (fun s =>
        { s with Repository := s.Repository.map (fun r => { r with CallNumber := r.CallNumber ++ [ci] }) }) st)
  else (none, dUnhandled l st)

/-- makeSourceParser. -/
def sourceHandle (i : Nat) (l : GLine) (st : DState) : Option NCtx × DState :=
  if l.Tag = "DATA" then
    let st := modSource i (fun s => if s.Data = none then { s with Data := some {} } else s) st
    (some ⟨.sourceData i, l.Level⟩, st)
  else if l.Tag = "TITL" then
    (some ⟨.text (.sourceTitle i), l.Level⟩, modSource i (fun s => { s with Title := l.Value }) st)
  else if l.Tag = "ABBR" then
    (none, modSource i (fun s => { s with FiledBy := l.Value }) st)
  else if l.Tag = "AUTH" then
    (some ⟨.text (.sourceOriginator i), l.Level⟩, modSource i (fun s => { s with Originator := l.Value }) st)
  else if l.Tag = "PUBL" then
    (some ⟨.publicationFacts i, l.Level⟩, modSource i (fun s => { s with PublicationFacts := l.Value }) st)
  else if l.Tag = "TEXT" then
    (some ⟨.text (.sourceText i), l.Level⟩, modSource i (fun s => { s with Text := l.Value }) st)
  else if l.Tag = "REPO" then
    let (ri, st) := dRepository (stripXref l.Value) st
    (some ⟨.sourceRepository i, l.Level⟩,
      modSource i (fun s => { s with Repository := some { Repository := some ri } }) st)
  else if l.Tag = "REFN" then
    let (ui, st) := allocUserRef { Number := l.Value } st
    (some ⟨.userReference ui, l.Level⟩, modSource i (fun s => { s with UserReference := s.UserReference ++ [ui] }) st)
  else if l.Tag = "RIN" then
    (none, modSource i (fun s => { s with AutomatedRecordId := l.Value }) st)
  else if l.Tag = "CHAN" then
    (some ⟨.change (.source i), l.Level⟩, st)
  else if l.Tag = "NOTE" then
    let (ni, st) := allocNote { Note := l.Value } st
    (some ⟨.note ni, l.Level⟩, modSource i (fun s => { s with Note := s.Note ++ [ni] }) st)
  else if l.Tag = "OBJE" then
    let (mi, st) := allocMedia { Xref := stripXref l.Value } st
    (some ⟨.media mi, l.Level⟩, modSource i (fun s => { s with Media := s.Media ++ [mi] }) st)
  else
    captureUserDef l (fun k => modSource i (fun s => { s with UserDefined := s.UserDefined ++ [k] })) st

/-- makeEventAdoptParser. -/
def eventAdoptHandle (i : Nat) (l : GLine) (st : DState) : Option NCtx × DState :=
  if l.Tag = "ADOP" then (none, modEvent i (fun e => { e with AdoptedByParent := l.Value }) st)
  else (none, dUnhandled l st)

/-- makeVariantPlaceNameRecordParser. -/
def variantPlaceNameHandle (i : Nat) (l : GLine) (st : DState) : Option NCtx × DState :=
  if l.Tag = "TYPE" then (none, modVariantPlaceName i (fun r => { r with «Type» := l.Value }) st)
  else (none, dUnhandled l st)

/-- makePlaceMapParser. -/
def placeMapHandle (i : Nat) (l : GLine) (st : DState) : Option NCtx × DState :=
  if l.Tag = "LATI" then (none, modEvent i (fun e => { e with Place := { e.Place with Latitude := l.Value } }) st)
  else if l.Tag = "LONG" then (none, modEvent i (fun e => { e with Place := { e.Place with Longitude := l.Value } }) st)
  else (none, dUnhandled l st)

/-- makePlaceParser (the place lives by value inside event i). -/
def placeHandle (i : Nat) (l : GLine) (st : DState) : Option NCtx × DState :=
  if l.Tag = "FONE" then
    let (vi, st) := allocVariantPlaceName { Name := l.Value } st
    (some ⟨.variantPlaceName vi, l.Level⟩,
      modEvent i (fun e => { e with Place := { e.Place with Phonetic := e.Place.Phonetic ++ [vi] } }) st)
  else if l.Tag = "ROMN" then
    let (vi, st) := allocVariantPlaceName { Name := l.Value } st
    (some ⟨.variantPlaceName vi, l.Level⟩,
      modEvent i (fun e => { e with Place := { e.Place with Romanized := e.Place.Romanized ++ [vi] } }) st)
  else if l.Tag = "MAP" then
    (some ⟨.placeMap i, l.Level⟩, st)
  else if l.Tag = "SOUR" then
    let (si, st) := dSource (stripXref l.Value) st
    let (ci, st) := allocCitation { Source := some si } st
    (some ⟨.citation ci, l.Level⟩,
      modEvent i (fun e => { e with Place := { e.Place with Citation := e.Place.Citation ++ [ci] } }) st)
  else if l.Tag = "NOTE" then
    let (ni, st) := allocNote { Note := l.Value } st
    (some ⟨.note ni, l.Level⟩,
      modEvent i (fun e => { e with Place := { e.Place with Note := e.Place.Note ++ [ni] } }) st)
  else (none, dUnhandled l st)

/-- makeEventParser, including the BIRT, CHR and ADOP special cases
that dispatch on the tag of the parent event. -/
def eventHandle (parentTag : String) (i : Nat) (l : GLine) (st : DState) : Option NCtx × DState :=
  if (parentTag = "BIRT" ∨ parentTag = "CHR") ∧ l.Tag = "FAMC" then
    let (fi, st) := dFamily (stripXref l.Value) st
    (none, modEvent i (fun e => { e with ChildInFamily := some fi }) st)
  else if parentTag = "ADOP" ∧ l.Tag = "FAMC" then
    let (fi, st) := dFamily (stripXref l.Value) st
    (some ⟨.eventAdopt i, l.Level⟩, modEvent i (fun e => { e with ChildInFamily := some fi }) st)
  else if l.Tag = "TYPE" then (none, modEvent i (fun e => { e with «Type» := l.Value }) st)
  else if l.Tag = "DATE" then (none, modEvent i (fun e => { e with Date := l.Value }) st)
  else if l.Tag = "PLAC" then
    (some ⟨.place i, l.Level⟩, modEvent i (fun e => { e with Place := { e.Place with Name := l.Value } }) st)
  else if l.Tag = "AGNC" then (none, modEvent i (fun e => { e with ResponsibleAgency := l.Value }) st)
  else if l.Tag = "RELI" then (none, modEvent i (fun e => { e with ReligiousAffiliation := l.Value }) st)
  else if l.Tag = "CAUS" then (none, modEvent i (fun e => { e with Cause := l.Value }) st)
  else if l.Tag = "RESN" then (none, modEvent i (fun e => { e with RestrictionNotice := l.Value }) st)
  else if l.Tag = "NOTE" then
    let (ni, st) := allocNote { Note := l.Value } st
    (some ⟨.note ni, l.Level⟩, modEvent i (fun e => { e with Note := e.Note ++ [ni] }) st)
  else if l.Tag = "SOUR" then
    let (si, st) := dSource (stripXref l.Value) st
    let (ci, st) := allocCitation { Source := some si } st
    (some ⟨.citation ci, l.Level⟩, modEvent i (fun e => { e with Citation := e.Citation ++ [ci] }) st)
  else if l.Tag = "OBJE" then
    let (mi, st) := allocMedia { Xref := stripXref l.Value } st
    (some ⟨.media mi, l.Level⟩, modEvent i (fun e => { e with Media := e.Media ++ [mi] }) st)
  else
    match tryAddressTags (.event i) l st with
    | some res => res
    | none =>
      captureUserDef l (fun k => modEvent i (fun e => { e with UserDefined := e.UserDefined ++ [k] })) st

/-- makeFamilyLinkParser. -/
def familyLinkHandle (i : Nat) (l : GLine) (st : DState) : Option NCtx × DState :=
  if l.Tag = "PEDI" then (none, modFamilyLink i (fun f => { f with «Type» := l.Value }) st)
  else if l.Tag = "NOTE" then
    let (ni, st) := allocNote { Note := l.Value } st
    (some ⟨.note ni, l.Level⟩, modFamilyLink i (fun f => { f with Note := f.Note ++ [ni] }) st)
  else (none, dUnhandled l st)

/-- makeAssociationParser. -/
def associationHandle (i : Nat) (l : GLine) (st : DState) : Option NCtx × DState :=
  if l.Tag = "RELA" then (none, modAssociation i (fun a => { a with Relation := l.Value }) st)
  else if l.Tag = "SOUR" then
    let (si, st) := dSource (stripXref l.Value) st
    let (ci, st) := allocCitation { Source := some si } st
    (some ⟨.citation ci, l.Level⟩, modAssociation i (fun a => { a with Citation := a.Citation ++ [ci] }) st)
  else if l.Tag = "NOTE" then
    let (ni, st) := allocNote { Note := l.Value } st
    (some ⟨.note ni, l.Level⟩, modAssociation i (fun a => { a with Note := a.Note ++ [ni] }) st)
  else (none, dUnhandled l st)

/-- makeMediaFileFormatParser. -/
def mediaFileFormatHandle (i : Nat) (l : GLine) (st : DState) : Option NCtx × DState :=
  if l.Tag = "TYPE" then (none, modFile i (fun f => { f with FormatType := l.Value }) st)
  else
    captureUserDef l (fun k => modFile i (fun f => { f with UserDefined := f.UserDefined ++ [k] })) st

/-- makeMediaFileParser. -/
def mediaFileHandle (i : Nat) (l : GLine) (st : DState) : Option NCtx × DState :=
  if l.Tag = "FORM" then
    (some ⟨.mediaFileFormat i, l.Level⟩, modFile i (fun f => { f with Format := l.Value }) st)
  else if l.Tag = "TITL" then
    (some ⟨.text (.fileTitle i), l.Level⟩, modFile i (fun f => { f with Title := l.Value }) st)
  else (none, dUnhandled l st)

/-- The select-or-allocate step shared by the FILE, FORM and TITL
cases of makeMediaParser: reuse the last FileRecord of the media
record, or create the first one. -/
def mediaLastFile (i : Nat) (st : DState) : Nat × DState :=
  let m := (st.medias.get? i).getD {}
  match m.File.getLast? with
  | some fi => (fi, st)
  | none =>
    let (fi, st) := allocFile {} st
    (fi, modMedia i (fun m => { m with File := m.File ++ [fi] }) st)

/-- makeMediaParser. -/
def mediaHandle (i : Nat) (l : GLine) (st : DState) : Option NCtx × DState :=
  if l.Tag = "FILE" then
    let (fi, st) := mediaLastFile i st
    (some ⟨.mediaFile fi, l.Level⟩, modFile fi (fun f => { f with Name := l.Value }) st)
  else if l.Tag = "FORM" then
    let (fi, st) := mediaLastFile i st
    (some ⟨.mediaFileFormat fi, l.Level⟩, modFile fi (fun f => { f with Format := l.Value }) st)
  else if l.Tag = "TITL" then
    let (fi, st) := mediaLastFile i st
    (some ⟨.text (.fileTitle fi), l.Level⟩, modFile fi (fun f => { f with Title := l.Value }) st)
  else if l.Tag = "RIN" then
    (none, modMedia i (fun m => { m with AutomatedRecordId := l.Value }) st)
  else if l.Tag = "REFN" then
    let (ui, st) := allocUserRef { Number := l.Value } st
    (some ⟨.userReference ui, l.Level⟩, modMedia i (fun m => { m with UserReference := m.UserReference ++ [ui] }) st)
  else if l.Tag = "NOTE" then
    let (ni, st) := allocNote { Note := l.Value } st
    (some ⟨.note ni, l.Level⟩, modMedia i (fun m => { m with Note := m.Note ++ [ni] }) st)
  else if l.Tag = "SOUR" then
    let (si, st) := dSource (stripXref l.Value) st
    let (ci, st) := allocCitation { Source := some si } st
    (some ⟨.citation ci, l.Level⟩, modMedia i (fun m => { m with Citation := m.Citation ++ [ci] }) st)
  else if l.Tag = "CHAN" then
    (some ⟨.change (.media i), l.Level⟩, st)
  else
    captureUserDef l (fun k => modMedia i (fun m => { m with UserDefined := m.UserDefined ++ [k] })) st

/-- makeIndividualParser. -/
def individualHandle (i : Nat) (l : GLine) (st : DState) : Option NCtx × DState :=
  if l.Tag = "NAME" then
    let (ni, st) := allocName { Name := l.Value } st
    (some ⟨.name ni, l.Level⟩, modInd i (fun r => { r with Name := r.Name ++ [ni] }) st)
  else if l.Tag = "SEX" then
    (none, modInd i (fun r => { r with Sex := l.Value }) st)
  else if l.Tag ∈ indiEventTags then
    let (ei, st) := allocEvent { Tag := l.Tag, Value := l.Value } st
    (some ⟨.event l.Tag ei, l.Level⟩, modInd i (fun r => { r with Event := r.Event ++ [ei] }) st)
  else if l.Tag ∈ indiAttrTags then
    let (ei, st) := allocEvent { Tag := l.Tag, Value := l.Value } st
    (some ⟨.event l.Tag ei, l.Level⟩, modInd i (fun r => { r with Attribute := r.Attribute ++ [ei] }) st)
  else if l.Tag = "FAMC" then
    let (fi, st) := dFamily (stripXref l.Value) st
    let (li, st) := allocFamilyLink { Family := some fi } st
    (some ⟨.familyLink li, l.Level⟩, modInd i (fun r => { r with Parents := r.Parents ++ [li] }) st)
  else if l.Tag = "SUBM" then
    let (si, st) := dSubmitter (stripXref l.Value) st
    (none, modInd i (fun r => { r with Submitter := r.Submitter ++ [si] }) st)
  else if l.Tag = "ASSO" then
    let (ai, st) := allocAssociation { Xref := stripXref l.Value } st
    (some ⟨.association ai, l.Level⟩, modInd i (fun r => { r with Association := r.Association ++ [ai] }) st)
  else if l.Tag = "ALIA" then
    -- ALIA support is broken in the wild; the value is used as an
    -- alternate name when the line has no xref and a value.
    if l.Xref = "" ∧ l.Value ≠ "" then
      let (ni, st) := allocName { Name := l.Value } st
      (none, modInd i (fun r => { r with Name := r.Name ++ [ni] }) st)
    else (none, st)
  else if l.Tag = "RFN" then
    (none, modInd i (fun r => { r with PermanentRecordFileNumber := l.Value }) st)
  else if l.Tag = "AFN" then
    (none, modInd i (fun r => { r with AncestralFileNumber := l.Value }) st)
  else if l.Tag = "FAMS" then
    let (fi, st) := dFamily (stripXref l.Value) st
    let (li, st) := allocFamilyLink { Family := some fi } st
    (some ⟨.familyLink li, l.Level⟩, modInd i (fun r => { r with Family := r.Family ++ [li] }) st)
  else if l.Tag = "REFN" then
    let (ui, st) := allocUserRef { Number := l.Value } st
    (some ⟨.userReference ui, l.Level⟩, modInd i (fun r => { r with UserReference := r.UserReference ++ [ui] }) st)
  else if l.Tag = "RIN" then
    (none, modInd i (fun r => { r with AutomatedRecordId := l.Value }) st)
  else if l.Tag = "CHAN" then
    (some ⟨.change (.individual i), l.Level⟩, st)
  else if l.Tag = "NOTE" then
    let (ni, st) := allocNote { Note := l.Value } st
    (some ⟨.note ni, l.Level⟩, modInd i (fun r => { r with Note := r.Note ++ [ni] }) st)
  else if l.Tag = "SOUR" then
    let (si, st) := dSource (stripXref l.Value) st
    let (ci, st) := allocCitation { Source := some si } st
    (some ⟨.citation ci, l.Level⟩, modInd i (fun r => { r with Citation := r.Citation ++ [ci] }) st)
  else if l.Tag = "OBJE" then
    let (mi, st) := allocMedia { Xref := stripXref l.Value } st
    (some ⟨.media mi, l.Level⟩, modInd i (fun r => { r with Media := r.Media ++ [mi] }) st)
  else
    captureUserDef l (fun k => modInd i (fun r => { r with UserDefined := r.UserDefined ++ [k] })) st

/-- makeFamilyParser. -/
def familyHandle (i : Nat) (l : GLine) (st : DState) : Option NCtx × DState :=
  if l.Tag = "HUSB" then
    let (hi, st) := dIndividual (stripXref l.Value) st
    (none, modFam i (fun f => { f with Husband := some hi }) st)
  else if l.Tag = "WIFE" then
    let (wi, st) := dIndividual (stripXref l.Value) st
    (none, modFam i (fun f => { f with Wife := some wi }) st)
  else if l.Tag = "CHIL" then
    let (ci, st) := dIndividual (stripXref l.Value) st
    (none, modFam i (fun f => { f with Child := f.Child ++ [ci] }) st)
  else if l.Tag ∈ famEventTags then
    let (ei, st) := allocEvent { Tag := l.Tag, Value := l.Value } st
    (some ⟨.event l.Tag ei, l.Level⟩, modFam i (fun f => { f with Event := f.Event ++ [ei] }) st)
  else if l.Tag = "NCHI" then
    (none, modFam i (fun f => { f with NumberOfChildren := l.Value }) st)
  else if l.Tag = "REFN" then
    let (ui, st) := allocUserRef { Number := l.Value } st
    (some ⟨.userReference ui, l.Level⟩, modFam i (fun f => { f with UserReference := f.UserReference ++ [ui] }) st)
  else if l.Tag = "RIN" then
    (none, modFam i (fun f => { f with AutomatedRecordId := l.Value }) st)
  else if l.Tag = "CHAN" then
    (some ⟨.change (.family i), l.Level⟩, st)
  else if l.Tag = "NOTE" then
    let (ni, st) := allocNote { Note := l.Value } st
    (some ⟨.note ni, l.Level⟩, modFam i (fun f => { f with Note := f.Note ++ [ni] }) st)
  else if l.Tag = "SOUR" then
    let (si, st) := dSource (stripXref l.Value) st
    let (ci, st) := allocCitation { Source := some si } st
    (some ⟨.citation ci, l.Level⟩, modFam i (fun f => { f with Citation := f.Citation ++ [ci] }) st)
  else if l.Tag = "OBJE" then
    let (mi, st) := allocMedia { Xref := stripXref l.Value } st
    (some ⟨.media mi, l.Level⟩, modFam i (fun f => { f with Media := f.Media ++ [mi] }) st)
  else
    captureUserDef l (fun k => modFam i (fun f => { f with UserDefined := f.UserDefined ++ [k] })) st

/-- makeRepositoryParser. -/
def repositoryHandle (i : Nat) (l : GLine) (st : DState) : Option NCtx × DState :=
  if l.Tag = "NAME" then
    (none, modRepo i (fun r => { r with Name := l.Value }) st)
  else if l.Tag = "NOTE" then
    let (ni, st) := allocNote { Note := l.Value } st
    (some ⟨.note ni, l.Level⟩, modRepo i (fun r => { r with Note := r.Note ++ [ni] }) st)
  else if l.Tag = "RIN" then
    (none, modRepo i (fun r => { r with AutomatedRecordId := l.Value }) st)
  else if l.Tag = "REFN" then
    let (ui, st) := allocUserRef { Number := l.Value } st
    (some ⟨.userReference ui, l.Level⟩, modRepo i (fun r => { r with UserReference := r.UserReference ++ [ui] }) st)
  else if l.Tag = "CHAN" then
    (some ⟨.change (.repository i), l.Level⟩, st)
  else
    match tryAddressTags (.repo i) l st with
    | some res => res
    | none =>
      captureUserDef l (fun k => modRepo i (fun r => { r with UserDefined := r.UserDefined ++ [k] })) st

/-- makeUserDefinedTagParser: every nested line becomes a child
UserDefinedTag with its own nested handler. -/
def userDefinedHandle (u : Nat) (l : GLine) (st : DState) : Option NCtx × DState :=
  captureUserDef l (fun k => modUserDef u (fun r => { r with UserDefined := r.UserDefined ++ [k] })) st

/-- makeHeaderTimeParser. -/
def headerTimeHandle (l : GLine) (st : DState) : Option NCtx × DState :=
  if l.Tag = "TIME" then (none, modHeader (fun h => { h with Time := l.Value }) st)
  else (none, dUnhandled l st)

/-- makeHeaderVersionParser. -/
def headerVersionHandle (l : GLine) (st : DState) : Option NCtx × DState :=
  if l.Tag = "VERS" then (none, modHeader (fun h => { h with Version := l.Value }) st)
  else if l.Tag = "FORM" then (none, modHeader (fun h => { h with Form := l.Value }) st)
  else (none, dUnhandled l st)

/-- makeHeaderCharacterSetVersionParser. -/
def headerCharSetHandle (l : GLine) (st : DState) : Option NCtx × DState :=
  if l.Tag = "VERS" then (none, modHeader (fun h => { h with CharacterSetVersion := l.Value }) st)
  else (none, dUnhandled l st)

/-- makeCorpParser: feeds every line to tryAddressTags and ignores
whether it matched. -/
def corpHandle (l : GLine) (st : DState) : Option NCtx × DState :=
  match tryAddressTags .system l st with
  | some res => res
  | none => (none, st)

/-- makeDataSourceParser. -/
def dataSourceHandle (l : GLine) (st : DState) : Option NCtx × DState :=
  if l.Tag = "DATE" then
    (none, modHeader (fun h => { h with SourceSystem := { h.SourceSystem with SourceDate := l.Value } }) st)
  else if l.Tag = "COPR" then
    (some ⟨.text .systemCopyright, l.Level⟩,
      modHeader (fun h => { h with SourceSystem := { h.SourceSystem with SourceCopyright := l.Value } }) st)
  else (none, dUnhandled l st)

/-- makeSystemParser. -/
def systemHandle (l : GLine) (st : DState) : Option NCtx × DState :=
  if l.Tag = "VERS" then
    (none, modHeader (fun h => { h with SourceSystem := { h.SourceSystem with Version := l.Value } }) st)
  else if l.Tag = "NAME" then
    (none, modHeader (fun h => { h with SourceSystem := { h.SourceSystem with ProductName := l.Value } }) st)
  else if l.Tag = "CORP" then
    (some ⟨.corp, l.Level⟩,
      modHeader (fun h => { h with SourceSystem := { h.SourceSystem with BusinessName := l.Value } }) st)
  else if l.Tag = "DATA" then
    (some ⟨.dataSource, l.Level⟩,
      modHeader (fun h => { h with SourceSystem := { h.SourceSystem with SourceName := l.Value } }) st)
  else
    captureUserDef l (fun k =>
      modHeader (fun h =>
        { h with SourceSystem := { h.SourceSystem with UserDefined := h.SourceSystem.UserDefined ++ [k] } })) st

/-- makeHeaderParser. -/
def headerHandle (l : GLine) (st : DState) : Option NCtx × DState :=
  if l.Tag = "SOUR" then
    (some ⟨.system, l.Level⟩,
      modHeader (fun h => { h with SourceSystem := { h.SourceSystem with Xref := l.Value } }) st)
  else if l.Tag = "DEST" then
    (none, modHeader (fun h => { h with Destination := l.Value }) st)
  else if l.Tag = "DATE" then
    (some ⟨.headerTime, l.Level⟩, modHeader (fun h => { h with Date := l.Value }) st)
  else if l.Tag = "FILE" then
    (none, modHeader (fun h => { h with Filename := l.Value }) st)
  else if l.Tag = "COPR" then
    (none, modHeader (fun h => { h with Copyright := l.Value }) st)
  else if l.Tag = "GEDC" then
    (some ⟨.headerVersion, l.Level⟩, st)
  else if l.Tag = "LANG" then
    (none, modHeader (fun h => { h with Language := l.Value }) st)
  else if l.Tag = "NOTE" then
    (some ⟨.text .headerNote, l.Level⟩, modHeader (fun h => { h with Note := l.Value }) st)
  else if l.Tag = "SUBM" then
    let (si, st) := dSubmitter (stripXref l.Value) st
    (none, modHeader (fun h => { h with Submitter := some si }) st)
  else if l.Tag = "SUBN" then
    let (si, st) := dSubmission (stripXref l.Value) st
    (none, modHeader (fun h => { h with Submission := some si }) st)
  else if l.Tag = "CHAR" then
    (some ⟨.headerCharSet, l.Level⟩, modHeader (fun h => { h with CharacterSet := l.Value }) st)
  else
    captureUserDef l (fun k => modHeader (fun h => { h with UserDefined := h.UserDefined ++ [k] })) st

/-- makeRootParser: only level-0 lines are interpreted; the root
parser never pops. -/
def rootHandle (l : GLine) (st : DState) : Option NCtx × DState :=
  if l.Level = 0 then
    if l.Tag = "HEAD" then
      (some ⟨.header, l.Level⟩, { st with header := some {} })
    else if l.Tag = "INDI" then
      let (i, st) := dIndividual l.Xref st
      (some ⟨.individual i, l.Level⟩, { st with gIndividual := st.gIndividual ++ [i] })
    else if l.Tag = "SUBM" then
      -- TODO in the source: submitters are not parsed; a fresh empty
      -- record is appended and no parser is pushed.
      let (si, st) := allocSubm {} st
      (none, { st with gSubmitter := st.gSubmitter ++ [si] })
    else if l.Tag = "FAM" then
      let (i, st) := dFamily l.Xref st
      (some ⟨.family i, l.Level⟩, { st with gFamily := st.gFamily ++ [i] })
    else if l.Tag = "SOUR" then
      let (i, st) := dSource l.Xref st
      (some ⟨.source i, l.Level⟩, { st with gSource := st.gSource ++ [i] })
    else if l.Tag = "REPO" then
      let (i, st) := dRepository l.Xref st
      (some ⟨.repository i, l.Level⟩, { st with gRepository := st.gRepository ++ [i] })
    else if l.Tag = "OBJE" then
      let (i, st) := dMedia l.Xref st
      (some ⟨.media i, l.Level⟩, { st with gMedia := st.gMedia ++ [i] })
    else
      captureUserDef l (fun k st => { st with gUserDefined := st.gUserDefined ++ [k] }) st
  else (none, st)

/-- Dispatch of one non-root parser on one line (the body of the
closure after the pop check). -/
def handleN (c : CtxKind) (l : GLine) (st : DState) : Option NCtx × DState :=
  match c with
  | .header => headerHandle l st
  | .headerTime => headerTimeHandle l st
  | .headerVersion => headerVersionHandle l st
  | .headerCharSet => headerCharSetHandle l st
  | .system => systemHandle l st
  | .corp => corpHandle l st
  | .dataSource => dataSourceHandle l st
  | .individual i => individualHandle i l st
  | .name i => nameHandle i l st
  | .variantName i => variantNameHandle i l st
  | .source i => sourceHandle i l st
  | .sourceData i => sourceDataHandle i l st
  | .sourceEvent i => sourceEventHandle i l st
  | .sourceRepository i => sourceRepositoryHandle i l st
  | .sourceCallNumber i => sourceCallNumberHandle i l st
  | .citation i => citationHandle i l st
  | .note i => noteHandle i l st
  | .text t => textHandle t l st
  | .publicationFacts i => publicationFactsHandle i l st
  | .data i => dataHandle i l st
  | .event p i => eventHandle p i l st
  | .eventAdopt i => eventAdoptHandle i l st
  | .place i => placeHandle i l st
  | .placeMap i => placeMapHandle i l st
  | .variantPlaceName i => variantPlaceNameHandle i l st
  | .familyLink i => familyLinkHandle i l st
  | .family i => familyHandle i l st
  | .media i => mediaHandle i l st
  | .mediaFile i => mediaFileHandle i l st
  | .mediaFileFormat i => mediaFileFormatHandle i l st
  | .userReference i => userReferenceHandle i l st
  | .addressDetail i => addressDetailHandle i l st
  | .change t => changeHandle t l st
  | .changeTime t => changeTimeHandle t l st
  | .repository i => repositoryHandle i l st
  | .association i => associationHandle i l st
  | .userDefined u => userDefinedHandle u l st

/-- One line through the parser stack (head of the list is the top of
the stack).  A non-root parser receiving a line at or below its
minLevel pops itself and re-dispatches the line to the parser beneath
(`popParser`); popping past the bottom of the stack is the
`popParser` panic, modelled as none. -/
def lineStep : List Ctx → GLine → DState → Option (List Ctx × DState)
  | [], _, _ => none
  | .root :: rest, l, st =>
    let (p, st) := rootHandle l st
    some ((p.map Ctx.n).toList ++ .root :: rest, st)
  | .n c :: rest, l, st =>
    if l.Level ≤ c.minLevel then lineStep rest l st
    else
      let (p, st) := handleN c.kind l st
      some ((p.map Ctx.n).toList ++ .n c :: rest, st)

/-- Feed a list of lines through the parser stack. -/
def runLines (stack : List Ctx) (st : DState) : List GLine → Option (List Ctx × DState)
  | [] => some (stack, st)
  | l :: ls =>
    match lineStep stack l st with
    | none => none
    | some (stack, st) => runLines stack st ls

/-- Decode a list of scanned lines starting from the initial decoder
state (`Decode` installs the root parser and empty refs). -/
def decodeLines (ls : List GLine) : Option DState :=
  (runLines [.root] {} ls).map (·.2)

/-- The observable result of `Decoder.Decode`. -/
inductive DecodeRes where
  | graph (g : DState)
  | scanError (e : ScanError)
  | panicked
  deriving Repr, DecidableEq

/-- Decoder.Decode: scan the input and feed every line to the parser
stack.  In the source scanning and parsing interleave; since a scan
error makes Decode return that error and discard the graph, and the
parsers never fail, scanning first is observationally identical. -/
def decodeChars (cs : List Char) : DecodeRes :=
  match scanChars cs with
  | .error e => .scanError e
  | .ok ls =>
    match decodeLines ls with
    | some g => .graph g
    | none => .panicked

/-- Decode a string. -/
def decodeString (s : String) : DecodeRes :=
  decodeChars s.data

/-- The graph of a successful decode (an arbitrary empty graph
otherwise; used to state concrete facts about decode results). -/
def theGraph : DecodeRes → DState
  | .graph g => g
  | _ => {}

/-!
## The encoder

The Go encoder writes strings to a buffered byte writer, measures
them with `len` and slices them with `[:]`, all of which operate on
UTF-8 bytes; the embedding therefore converts every written string to
its UTF-8 byte list and the output is a byte list.  Writes to the
underlying buffer cannot fail (the error branches of `WriteString`
model I/O failures, which a byte-list sink does not have), so the
only errors are the ones the encoder itself constructs.  Every
encoder method starts with the guard `if e.err != nil return`, which
makes the first error sticky.
-/

/-- UTF-8 encoding of one character, as the Go runtime produces it. -/
def charUtf8 (c : Char) : List Nat :=
  let n := c.toNat
  if n < 128 then [n]
  else if n < 2048 then [192 + n / 64, 128 + n % 64]
  else if n < 65536 then [224 + n / 4096, 128 + (n / 64) % 64, 128 + n % 64]
  else [240 + n / 262144, 128 + (n / 4096) % 64, 128 + (n / 64) % 64, 128 + n % 64]

/-- UTF-8 bytes of a string, the representation Go `len` and slicing
work on. -/
def strBytes (s : String) : List Nat :=
  s.data.foldr (fun c acc => charUtf8 c ++ acc) []

/-- strings.Split(value, newline) on the byte representation. -/
def splitNl : List Nat → List (List Nat)
  | [] => [[]]
  | b :: bs =>
    let r := splitNl bs
    if b = 10 then [] :: r
    else
      match r with
      | [] => [[b]]
      | x :: xs => (b :: x) :: xs

/-- The encoder state: the first error, and the bytes written so
far. -/
structure EncSt where
  err : Option String := none
  out : List Nat := []
  deriving Repr, DecidableEq

/-- Append bytes to the output. -/
def encWrite (bs : List Nat) (st : EncSt) : EncSt :=
  { st with out := st.out ++ bs }

/-- Record the first error (`e.err = ...`). -/
def encFail (msg : String) (st : EncSt) : EncSt :=
  { st with err := some msg }

/-- Encoder.tagWithID. -/
def encTagWithID (lvl : Nat) (tag : String) (id : String) (st : EncSt) : EncSt :=
  if st.err.isSome then st
  else if id = "" then encFail ("tag " ++ tag ++ " missing id") st
  else encWrite (strBytes (toString lvl ++ " @" ++ id ++ "@ " ++ tag) ++ [10]) st

/-- Encoder.tag. -/
def encTag (lvl : Nat) (tag : String) (value : List Nat) (st : EncSt) : EncSt :=
  if st.err.isSome then st
  else
    let st := encWrite (strBytes (toString lvl ++ " " ++ tag)) st
    let st := if value ≠ [] then encWrite (32 :: value) st else st
    encWrite [10] st

/-- Encoder.maybeTag. -/
def encMaybeTag (lvl : Nat) (tag : String) (value : List Nat) (st : EncSt) : EncSt :=
  if st.err.isSome then st
  else if value = [] then st
  else encTag lvl tag value st

/-- Encoder.tagWithPointer. -/
def encTagWithPointer (lvl : Nat) (tag : String) (xref : String) (st : EncSt) : EncSt :=
  if st.err.isSome then st
  else encWrite (strBytes (toString lvl ++ " " ++ tag ++ " @" ++ xref ++ "@") ++ [10]) st

/-- Encoder.tagWithOptionalPointer. -/
def encTagWithOptionalPointer (lvl : Nat) (tag : String) (xref : String) (st : EncSt) : EncSt :=
  if st.err.isSome then st
  else if xref ≠ "" then encTagWithPointer lvl tag xref st
  else encTag lvl tag [] st

/-- The loop of Encoder.textOneLine that emits CONC continuations of
at most 246 bytes; the fuel only bounds the iteration count (each
iteration shortens the value by 246 bytes, so one unit of fuel per
byte is always enough). -/
def encConcLoopF (lvl : Nat) : Nat → List Nat → EncSt → EncSt
  | 0, _, st => st
  | fuel + 1, value, st =>
    if value.length > 246 then
      let value2 := value.drop 246
      if value2.length ≤ 246 then encTag (lvl + 1) "CONC" value2 st
      else encConcLoopF lvl fuel value2 (encTag (lvl + 1) "CONC" (value2.take 246) st)
    else st

/-- The CONC loop of Encoder.textOneLine with sufficient fuel. -/
def encConcLoop (lvl : Nat) (value : List Nat) (st : EncSt) : EncSt :=
  encConcLoopF lvl value.length value st

/-- Encoder.textOneLine: a segment of at most 246 bytes goes on one
line; longer segments continue on CONC lines of at most 246 bytes. -/
def encTextOneLine (lvl : Nat) (tag : String) (value : List Nat) (st : EncSt) : EncSt :=
  if st.err.isSome then st
  else if value.length ≤ 246 then encTag lvl tag value st
  else encConcLoop lvl value (encTag lvl tag (value.take 246) st)

/-- Encoder.tagWithText: split on newlines, first segment with the
originating tag, later segments as CONT lines one level deeper. -/
def encTagWithText (lvl : Nat) (tag : String) (value : List Nat) (st : EncSt) : EncSt :=
  if st.err.isSome then st
  else
    match splitNl value with
    | [] => st
    | c0 :: rest =>
      let st := encTextOneLine lvl tag c0 st
      rest.foldl (fun st c => encTextOneLine (lvl + 1) "CONT" c st) st

/-- Encoder.maybeTagWithText. -/
def encMaybeTagWithText (lvl : Nat) (tag : String) (value : List Nat) (st : EncSt) : EncSt :=
  if st.err.isSome then st
  else if value = [] then st
  else encTagWithText lvl tag value st

/-- The bytes of one `lvl tag [value]` line as Encoder.tag writes
them: level and tag, a space and the value when the value is
non-empty, and the terminating line feed. -/
def tagLineBytes (lvl : Nat) (tag : String) (value : List Nat) : List Nat :=
  strBytes (toString lvl ++ " " ++ tag) ++ (if value = [] then [] else 32 :: value) ++ [10]

/-- The multibyte test value of claim C5: 246 characters of U+0100,
each two bytes in UTF-8. -/
def c5Val : List Nat :=
  strBytes ⟨List.replicate 246 (Char.ofNat 256)⟩

/-- Encoder.userDefined, with Encoder.userDefinedList for the
children inlined as a fold.  The children of a user-defined node are
arena indices; the fuel bounds the recursion depth and always
suffices for the tree-shaped values the Go code builds (their depth
is at most the arena size). -/
def encUserDefined (g : DState) : Nat → Nat → Nat → EncSt → EncSt
  | 0, _, _, st => st
  | fuel + 1, lvl, k, st =>
    if st.err.isSome then st
    else
      let r := (g.userDefs.get? k).getD {}
      let st :=
        if r.Xref ≠ "" then encTagWithPointer lvl r.Tag r.Xref st
        else encTag lvl r.Tag (strBytes r.Value) st
      r.UserDefined.foldl (fun st k2 => encUserDefined g fuel (lvl + 1) k2 st) st

/-- Encoder.userDefinedList.  The entry guard of the Go function is
omitted: when the error is already set every element call is a no-op,
so the plain fold is extensionally the same. -/
def encUserDefinedList (g : DState) (fuel lvl : Nat) (ks : List Nat) (st : EncSt) : EncSt :=
  ks.foldl (fun st k => encUserDefined g fuel lvl k st) st

/-- Fuel that always suffices for the user-defined trees of a
graph. -/
def udFuel (g : DState) : Nat :=
  g.userDefs.length + 1

/-- Encoder.addressDetail. -/
def encAddressDetail (g : DState) (lvl : Nat) (di : Nat) (st : EncSt) : EncSt :=
  if st.err.isSome then st
  else
    match g.addressDetails.get? di with
    | none => st
    | some r =>
      let st := encTagWithText lvl "ADDR" (strBytes r.Full) st
      let st := encMaybeTagWithText (lvl + 1) "ADR1" (strBytes r.Line1) st
      let st := encMaybeTagWithText (lvl + 1) "ADR2" (strBytes r.Line2) st
      let st := encMaybeTagWithText (lvl + 1) "ADR3" (strBytes r.Line3) st
      let st := encMaybeTagWithText (lvl + 1) "CITY" (strBytes r.City) st
      let st := encMaybeTagWithText (lvl + 1) "STAE" (strBytes r.State) st
      let st := encMaybeTagWithText (lvl + 1) "POST" (strBytes r.PostalCode) st
      encMaybeTagWithText (lvl + 1) "CTRY" (strBytes r.Country) st

/-- Encoder.address (addressDetailList inlined as a fold). -/
def encAddress (g : DState) (lvl : Nat) (a : AddressRecord) (st : EncSt) : EncSt :=
  if st.err.isSome then st
  else
    let st := a.Address.foldl (fun st di => encAddressDetail g lvl di st) st
    let st := a.Phone.foldl (fun st v => encMaybeTagWithText lvl "PHON" (strBytes v) st) st
    let st := a.Email.foldl (fun st v => encMaybeTagWithText lvl "EMAIL" (strBytes v) st) st
    let st := a.Fax.foldl (fun st v => encMaybeTagWithText lvl "FAX" (strBytes v) st) st
    a.WWW.foldl (fun st v => encMaybeTagWithText lvl "WWW" (strBytes v) st) st

/-- Encoder.note: writes a bare NOTE line (the note text is not
emitted by the source). -/
def encNote (g : DState) (lvl : Nat) (ni : Nat) (st : EncSt) : EncSt :=
  if st.err.isSome then st
  else
    match g.notes.get? ni with
    | none => st
    | some _ => encTagWithText lvl "NOTE" [] st

/-- Encoder.noteList: each note is written one level deeper than the
level passed in. -/
def encNoteList (g : DState) (lvl : Nat) (ns : List Nat) (st : EncSt) : EncSt :=
  ns.foldl (fun st ni => encNote g (lvl + 1) ni st) st

/-- Encoder.data. -/
def encData (g : DState) (lvl : Nat) (r : DataRecord) (st : EncSt) : EncSt :=
  if st.err.isSome then st
  else
    let st := encTag lvl "DATA" [] st
    let st := encMaybeTag (lvl + 1) "DATE" (strBytes r.Date) st
    let st := r.Text.foldl (fun st s => encMaybeTagWithText (lvl + 1) "TEXT" (strBytes s) st) st
    encUserDefinedList g (udFuel g) (lvl + 1) r.UserDefined st

/-- Encoder.mediaRef and Encoder.file for the inline case. -/
def encFile (g : DState) (lvl : Nat) (fi : Nat) (st : EncSt) : EncSt :=
  if st.err.isSome then st
  else
    match g.fileRecords.get? fi with
    | none => st
    | some r =>
      let st := encMaybeTagWithText lvl "FILE" (strBytes r.Name) st
      let st := encMaybeTagWithText (lvl + 1) "FORM" (strBytes r.Format) st
      let st := encMaybeTagWithText (lvl + 2) "TYPE" (strBytes r.FormatType) st
      let st := encMaybeTagWithText (lvl + 1) "TITL" (strBytes r.Title) st
      encUserDefinedList g (udFuel g) (lvl + 1) r.UserDefined st

/-- Encoder.mediaRef: a pointer line when the media record has an
xref, otherwise the inline form. -/
def encMediaRef (g : DState) (lvl : Nat) (mi : Nat) (st : EncSt) : EncSt :=
  if st.err.isSome then st
  else
    match g.medias.get? mi with
    | none => st
    | some r =>
      if r.Xref ≠ "" then encTagWithPointer lvl "OBJE" r.Xref st
      else
        let st := encTag lvl "OBJE" [] st
        let st := r.File.foldl (fun st fi => encFile g (lvl + 1) fi st) st
        encMaybeTagWithText (lvl + 1) "TITL" (strBytes r.Title) st

/-- Encoder.mediaRefList. -/
def encMediaRefList (g : DState) (lvl : Nat) (ms : List Nat) (st : EncSt) : EncSt :=
  ms.foldl (fun st mi => encMediaRef g lvl mi st) st

/-- Encoder.citation. -/
def encCitation (g : DState) (lvl : Nat) (ci : Nat) (st : EncSt) : EncSt :=
  if st.err.isSome then st
  else
    match g.citations.get? ci with
    | none => st
    | some r =>
      match r.Source with
      | none => encFail "source missing" st
      | some si =>
        let src := (g.sources.get? si).getD {}
        let st :=
          if src.Xref = "" then encTag lvl "SOUR" [] st
          else encTagWithPointer lvl "SOUR" src.Xref st
        let st := encMaybeTagWithText (lvl + 1) "PAGE" (strBytes r.Page) st
        let st := encMaybeTagWithText (lvl + 1) "QUAY" (strBytes r.Quay) st
        let st :=
          if r.Data.Date ≠ "" ∨ r.Data.Text ≠ [] ∨ r.Data.UserDefined ≠ [] then
            encData g (lvl + 1) r.Data st
          else st
        let st := encNoteList g (lvl + 1) r.Note st
        let st := encMediaRefList g (lvl + 1) r.Media st
        encUserDefinedList g (udFuel g) (lvl + 1) r.UserDefined st

/-- Encoder.citationList. -/
def encCitationList (g : DState) (lvl : Nat) (cs : List Nat) (st : EncSt) : EncSt :=
  cs.foldl (fun st ci => encCitation g lvl ci st) st

/-- Encoder.change for a ChangeRecord present by value. -/
def encChange (g : DState) (lvl : Nat) (c : ChangeRecord) (st : EncSt) : EncSt :=
  if st.err.isSome then st
  else
    let st := encTagWithText lvl "CHAN" [] st
    let st := encMaybeTagWithText (lvl + 1) "DATE" (strBytes c.Date) st
    let st := encMaybeTagWithText (lvl + 2) "TIME" (strBytes c.Time) st
    encNoteList g (lvl + 1) c.Note st

/-- Encoder.userReference. -/
def encUserReference (g : DState) (lvl : Nat) (ui : Nat) (st : EncSt) : EncSt :=
  if st.err.isSome then st
  else
    match g.userRefs.get? ui with
    | none => st
    | some r =>
      let st := encMaybeTagWithText lvl "REFN" (strBytes r.Number) st
      encMaybeTagWithText (lvl + 1) "TYPE" (strBytes r.«Type») st

/-- Encoder.userReferenceList: writes each reference one level deeper
than the level passed in. -/
def encUserReferenceList (g : DState) (lvl : Nat) (us : List Nat) (st : EncSt) : EncSt :=
  us.foldl (fun st ui => encUserReference g (lvl + 1) ui st) st

/-- Encoder.place, with its emptiness pre-check. -/
def encPlace (g : DState) (lvl : Nat) (r : PlaceRecord) (st : EncSt) : EncSt :=
  if st.err.isSome then st
  else if r.Name = "" ∧ r.Phonetic = [] ∧ r.Romanized = [] ∧ r.Latitude = "" ∧
      r.Longitude = "" ∧ r.Note = [] ∧ r.Citation = [] then st
  else
    let st := encTag lvl "PLAC" (strBytes r.Name) st
    let st := r.Phonetic.foldl (fun st vi =>
      let sr := (g.variantPlaceNames.get? vi).getD {}
      let st := encTag (lvl + 1) "FONE" (strBytes sr.Name) st
      encMaybeTag (lvl + 1) "TYPE" (strBytes sr.«Type») st) st
    let st := r.Romanized.foldl (fun st vi =>
      let sr := (g.variantPlaceNames.get? vi).getD {}
      let st := encTag (lvl + 1) "ROMN" (strBytes sr.Name) st
      encMaybeTag (lvl + 2) "TYPE" (strBytes sr.«Type») st) st
    let st :=
      if r.Latitude ≠ "" ∨ r.Longitude ≠ "" then
        let st := encTag (lvl + 1) "MAP" [] st
        let st := encMaybeTag (lvl + 2) "LATI" (strBytes r.Latitude) st
        encMaybeTag (lvl + 2) "LONG" (strBytes r.Longitude) st
      else st
    let st := encNoteList g (lvl + 1) r.Note st
    encCitationList g (lvl + 1) r.Citation st

/-- Encoder.familyRef. -/
def encFamilyRef (g : DState) (lvl : Nat) (tag : String) (fi : Option Nat) (st : EncSt) : EncSt :=
  if st.err.isSome then st
  else
    match fi with
    | none => st
    | some j =>
      let r := (g.families.get? j).getD {}
      if r.Xref = "" then encFail "family missing xref" st
      else encTagWithPointer lvl tag r.Xref st

/-- Encoder.event. -/
def encEvent (g : DState) (lvl : Nat) (ei : Nat) (st : EncSt) : EncSt :=
  if st.err.isSome then st
  else
    match g.events.get? ei with
    | none => encFail "event not specified" st
    | some r =>
      let st := encTag lvl r.Tag (strBytes r.Value) st
      let st := encMaybeTagWithText (lvl + 1) "TYPE" (strBytes r.«Type») st
      let st := encMaybeTagWithText (lvl + 1) "DATE" (strBytes r.Date) st
      let st := encAddress g (lvl + 1) r.Address st
      let st := encPlace g (lvl + 1) r.Place st
      let st := encMaybeTag (lvl + 1) "AGNC" (strBytes r.ResponsibleAgency) st
      let st := encMaybeTag (lvl + 1) "RELI" (strBytes r.ReligiousAffiliation) st
      let st := encMaybeTag (lvl + 1) "CAUS" (strBytes r.Cause) st
      let st := encMaybeTag (lvl + 1) "RESN" (strBytes r.RestrictionNotice) st
      let st :=
        match r.ChildInFamily with
        | none => st
        | some fi =>
          let st := encFamilyRef g (lvl + 1) "FAMC" (some fi) st
          if r.Tag = "ADOP" then encMaybeTag (lvl + 2) "ADOP" (strBytes r.AdoptedByParent) st
          else st
      let st := encNoteList g (lvl + 1) r.Note st
      let st := encCitationList g (lvl + 1) r.Citation st
      let st := encMediaRefList g (lvl + 1) r.Media st
      encUserDefinedList g (udFuel g) (lvl + 1) r.UserDefined st

/-- Encoder.eventList. -/
def encEventList (g : DState) (lvl : Nat) (es : List Nat) (st : EncSt) : EncSt :=
  es.foldl (fun st ei => encEvent g lvl ei st) st

/-- Encoder.familyLink. -/
def encFamilyLink (g : DState) (lvl : Nat) (tag : String) (li : Nat) (st : EncSt) : EncSt :=
  if st.err.isSome then st
  else
    match g.familyLinks.get? li with
    | none => st
    | some r =>
      match r.Family with
      | none => encFail "family missing" st
      | some fi =>
        let fam := (g.families.get? fi).getD {}
        if fam.Xref = "" then encFail "family missing xref" st
        else
          let st := encTagWithPointer lvl tag fam.Xref st
          let st := encMaybeTagWithText (lvl + 1) "PEDI" (strBytes r.«Type») st
          encNoteList g (lvl + 1) r.Note st

/-- Encoder.individualRef. -/
def encIndividualRef (g : DState) (lvl : Nat) (tag : String) (oi : Option Nat) (st : EncSt) : EncSt :=
  if st.err.isSome then st
  else
    match oi with
    | none => st
    | some i =>
      let r := (g.individuals.get? i).getD {}
      if r.Xref = "" then encFail ("individual missing xref for " ++ tag) st
      else encTagWithPointer lvl tag r.Xref st

/-- Encoder.name. -/
def encName (g : DState) (lvl : Nat) (ni : Nat) (st : EncSt) : EncSt :=
  if st.err.isSome then st
  else
    match g.names.get? ni with
    | none => st
    | some r =>
      let st := encMaybeTagWithText lvl "NAME" (strBytes r.Name) st
      let st := encMaybeTagWithText (lvl + 1) "TYPE" (strBytes r.«Type») st
      let st := encMaybeTagWithText (lvl + 1) "NPFX" (strBytes r.NamePieceNpfx) st
      let st := encMaybeTagWithText (lvl + 1) "GIVN" (strBytes r.NamePieceGiven) st
      let st := encMaybeTagWithText (lvl + 1) "NICK" (strBytes r.NamePieceNick) st
      let st := encMaybeTagWithText (lvl + 1) "SPFX" (strBytes r.NamePieceSpfx) st
      let st := encMaybeTagWithText (lvl + 1) "SURN" (strBytes r.NamePieceSurname) st
      let st := encMaybeTagWithText (lvl + 1) "NSFX" (strBytes r.NamePieceSuffix) st
      if r.Phonetic ≠ [] then encFail "not implemented: FONE" st
      else if r.Romanized ≠ [] then encFail "not implemented: ROMN" st
      else
        let st := encCitationList g (lvl + 1) r.Citation st
        let st := encNoteList g (lvl + 1) r.Note st
        encUserDefinedList g (udFuel g) (lvl + 1) r.UserDefined st

/-- Encoder.individual. -/
def encIndividual (g : DState) (i : Nat) (st : EncSt) : EncSt :=
  if st.err.isSome then st
  else
    match g.individuals.get? i with
    | none => st
    | some r =>
      let st := encTagWithID 0 "INDI" r.Xref st
      let st := r.Name.foldl (fun st ni => encName g 1 ni st) st
      let st := encMaybeTagWithText 1 "SEX" (strBytes r.Sex) st
      let st := encEventList g 1 r.Event st
      let st := encEventList g 1 r.Attribute st
      let st := r.Parents.foldl (fun st li => encFamilyLink g 1 "FAMC" li st) st
      let st := r.Family.foldl (fun st li => encFamilyLink g 1 "FAMS" li st) st
      if r.Submitter ≠ [] then encFail "not implemented: Submitter" st
      else if r.Association ≠ [] then encFail "not implemented: Association" st
      else
        let st := encMaybeTagWithText 1 "RFN" (strBytes r.PermanentRecordFileNumber) st
        let st := encMaybeTagWithText 1 "AFN" (strBytes r.AncestralFileNumber) st
        let st := encUserReferenceList g 1 r.UserReference st
        let st := encMaybeTagWithText 1 "RIN" (strBytes r.AutomatedRecordId) st
        let st := encChange g 1 r.Change st
        let st := encNoteList g 1 r.Note st
        let st := encCitationList g 1 r.Citation st
        let st := encMediaRefList g 1 r.Media st
        encUserDefinedList g (udFuel g) 1 r.UserDefined st

/-- Encoder.family. -/
def encFamily (g : DState) (fi : Nat) (st : EncSt) : EncSt :=
  if st.err.isSome then st
  else
    match g.families.get? fi with
    | none => st
    | some r =>
      let st := encTagWithID 0 "FAM" r.Xref st
      let st := encIndividualRef g 1 "HUSB" r.Husband st
      let st := encIndividualRef g 1 "WIFE" r.Wife st
      let st := r.Child.foldl (fun st ci => encIndividualRef g 1 "CHIL" (some ci) st) st
      let st := encEventList g 1 r.Event st
      let st := encMaybeTag 1 "NCHI" (strBytes r.NumberOfChildren) st
      let st := encUserReferenceList g 1 r.UserReference st
      let st := encMaybeTagWithText 1 "RIN" (strBytes r.AutomatedRecordId) st
      let st := encChange g 1 r.Change st
      let st := encNoteList g 1 r.Note st
      let st := encCitationList g 1 r.Citation st
      let st := encMediaRefList g 1 r.Media st
      encUserDefinedList g (udFuel g) 1 r.UserDefined st

/-- Encoder.media: a top-level media record requires an id; nested
ones fall back to a bare OBJE line. -/
def encMedia (g : DState) (lvl : Nat) (mi : Nat) (st : EncSt) : EncSt :=
  if st.err.isSome then st
  else
    match g.medias.get? mi with
    | none => st
    | some r =>
      let st :=
        if lvl = 0 then encTagWithID lvl "OBJE" r.Xref st
        else encTagWithOptionalPointer lvl "OBJE" r.Xref st
      let st := r.File.foldl (fun st fi => encFile g (lvl + 1) fi st) st
      let st := encUserReferenceList g (lvl + 1) r.UserReference st
      let st := encMaybeTagWithText (lvl + 1) "RIN" (strBytes r.AutomatedRecordId) st
      let st := encChange g (lvl + 1) r.Change st
      let st := encNoteList g (lvl + 1) r.Note st
      let st := encCitationList g (lvl + 1) r.Citation st
      encUserDefinedList g (udFuel g) (lvl + 1) r.UserDefined st

/-- Encoder.repository. -/
def encRepository (g : DState) (ri : Nat) (st : EncSt) : EncSt :=
  if st.err.isSome then st
  else
    match g.repositories.get? ri with
    | none => st
    | some r =>
      let st := encTagWithID 0 "REPO" r.Xref st
      let st := encMaybeTag 1 "NAME" (strBytes r.Name) st
      let st := encAddress g 1 r.Address st
      let st := encNoteList g 1 r.Note st
      let st := encUserReferenceList g 1 r.UserReference st
      let st := encMaybeTagWithText 1 "RIN" (strBytes r.AutomatedRecordId) st
      let st := encChange g 1 r.Change st
      encUserDefinedList g (udFuel g) 1 r.UserDefined st

/-- Encoder.source. -/
def encSource (g : DState) (si : Nat) (st : EncSt) : EncSt :=
  if st.err.isSome then st
  else
    match g.sources.get? si with
    | none => st
    | some r =>
      let st := encTagWithID 0 "SOUR" r.Xref st
      let st := encMaybeTagWithText 1 "TITL" (strBytes r.Title) st
      let st :=
        match r.Data with
        | none => st
        | some d =>
          let st := encTag 1 "DATA" [] st
          d.Event.foldl (fun st ei =>
            let sr := (g.sourceEvents.get? ei).getD {}
            let st := encTag 2 "EVEN" (strBytes sr.Kind) st
            let st := encMaybeTag 3 "DATE" (strBytes sr.Date) st
            encMaybeTag 3 "PLAC" (strBytes sr.Place) st) st
      let st := encMaybeTagWithText 1 "AUTH" (strBytes r.Originator) st
      let st := encMaybeTagWithText 1 "ABBR" (strBytes r.FiledBy) st
      let st := encMaybeTagWithText 1 "PUBL" (strBytes r.PublicationFacts) st
      let st := encMaybeTagWithText 1 "TEXT" (strBytes r.Text) st
      let st :=
        match r.Repository with
        | none => st
        | some rep =>
          match rep.Repository with
          | none => st
          | some rpi =>
            let rr := (g.repositories.get? rpi).getD {}
            if rr.Xref = "" then st
            else
              let st := encTagWithPointer 1 "REPO" rr.Xref st
              let st := encNoteList g 2 rep.Note st
              rep.CallNumber.foldl (fun st cni =>
                let sr := (g.callNumbers.get? cni).getD {}
                let st := encTag 2 "CALN" (strBytes sr.CallNumber) st
                encMaybeTag 3 "MEDI" (strBytes sr.MediaType) st) st
      let st := encUserReferenceList g 1 r.UserReference st
      let st := encMaybeTagWithText 1 "RIN" (strBytes r.AutomatedRecordId) st
      let st := encChange g 1 r.Change st
      let st := encNoteList g 1 r.Note st
      let st := encMediaRefList g 1 r.Media st
      encUserDefinedList g (udFuel g) 1 r.UserDefined st

/-- Encoder.submitter. -/
def encSubmitter (g : DState) (lvl : Nat) (si : Nat) (st : EncSt) : EncSt :=
  if st.err.isSome then st
  else
    match g.submitters.get? si with
    | none => st
    | some r =>
      let st := encTagWithID lvl "SUBM" r.Xref st
      let st := encMaybeTagWithText (lvl + 1) "NAME" (strBytes r.Name) st
      let st :=
        match r.Address with
        | none => st
        | some a => encAddress g (lvl + 1) a st
      let st := encMediaRefList g (lvl + 1) r.Media st
      let st := r.Language.foldl (fun st v => encMaybeTagWithText (lvl + 1) "LANG" (strBytes v) st) st
      let st := encMaybeTagWithText (lvl + 1) "RFN" (strBytes r.SubmitterRecordFileID) st
      let st := encMaybeTagWithText (lvl + 1) "RIN" (strBytes r.AutomatedRecordId) st
      let st := encNoteList g (lvl + 1) r.Note st
      match r.Change with
      | none => st
      | some c => encChange g (lvl + 1) c st

/-- Encoder.sourceSystem. -/
def encSourceSystem (g : DState) (lvl : Nat) (s : SystemRecord) (st : EncSt) : EncSt :=
  if st.err.isSome then st
  else
    let st := encTag (lvl + 1) "SOUR" (strBytes s.Xref) st
    let st := encMaybeTag (lvl + 2) "VERS" (strBytes s.Version) st
    let st := encMaybeTag (lvl + 2) "NAME" (strBytes s.ProductName) st
    let st := encMaybeTag (lvl + 2) "CORP" (strBytes s.BusinessName) st
    let st := encAddress g (lvl + 3) s.Address st
    let st := encMaybeTag (lvl + 2) "DATA" (strBytes s.SourceName) st
    let st := encMaybeTag (lvl + 3) "DATE" (strBytes s.SourceDate) st
    let st := encMaybeTag (lvl + 3) "COPR" (strBytes s.SourceCopyright) st
    encUserDefinedList g (udFuel g) 1 s.UserDefined st

/-- Encoder.header. -/
def encHeader (g : DState) (st : EncSt) : EncSt :=
  if st.err.isSome then st
  else
    match g.header with
    | none => st
    | some h =>
      let st := encTag 0 "HEAD" [] st
      let st := encMaybeTag 1 "CHAR" (strBytes h.CharacterSet) st
      let st := encMaybeTag 2 "VERS" (strBytes h.CharacterSetVersion) st
      let st := encSourceSystem g 0 h.SourceSystem st
      let st := encMaybeTag 1 "DEST" (strBytes h.Destination) st
      let st := encMaybeTag 1 "DATE" (strBytes h.Date) st
      let st := encMaybeTag 2 "TIME" (strBytes h.Time) st
      let st :=
        match h.Submitter with
        | none => st
        | some si => encTagWithPointer 1 "SUBM" ((g.submitters.get? si).getD {}).Xref st
      let st :=
        match h.Submission with
        | none => st
        | some si => encTagWithPointer 1 "SUBN" ((g.submissions.get? si).getD {}).Xref st
      let st := encMaybeTag 1 "FILE" (strBytes h.Filename) st
      let st := encMaybeTag 1 "COPR" (strBytes h.Copyright) st
      let st :=
        if h.Version ≠ "" ∨ h.Form ≠ "" then
          let st := encTag 1 "GEDC" [] st
          let st := if h.Version ≠ "" then encTag 2 "VERS" (strBytes h.Version) st else st
          if h.Form ≠ "" then encTag 2 "FORM" (strBytes h.Form) st else st
        else st
      let st := encMaybeTag 1 "LANG" (strBytes h.Language) st
      let st := encMaybeTagWithText 1 "NOTE" (strBytes h.Note) st
      encUserDefinedList g (udFuel g) 1 h.UserDefined st

/-- Encoder.Encode followed by Encoder.flush: emit the whole graph
and return the first error when one occurred, otherwise the bytes
written. -/
def encodeSt (g : DState) : EncSt :=
  let st : EncSt := {}
  let st := encHeader g st
  let st := g.gIndividual.foldl (fun st i => encIndividual g i st) st
  let st := g.gFamily.foldl (fun st i => encFamily g i st) st
  let st := g.gMedia.foldl (fun st i => encMedia g 0 i st) st
  let st := g.gRepository.foldl (fun st i => encRepository g i st) st
  let st := g.gSource.foldl (fun st i => encSource g i st) st
  let st := g.gSubmitter.foldl (fun st i => encSubmitter g 0 i st) st
  encUserDefinedList g (udFuel g) 0 g.gUserDefined st

/-- The observable result of Encode: flush returns the stored error
if any write failed, otherwise the output reaches the sink. -/
def encodeG (g : DState) : Except String (List Nat) :=
  let st := encodeSt g
  match st.err with
  | some e => .error e
  | none => .ok st.out

/-!
## Claims
-/

set_option maxRecDepth 40000

/-- The (Level, Tag, Value, Xref) quadruple of a line, used to state
scan results independently of the diagnostic position fields. -/
def lineCore (l : GLine) : Nat × String × String × String :=
  (l.Level, l.Tag, l.Value, l.Xref)

/-- The input of the round-trip counterexample of C1: a well-formed
file with one individual carrying one note. -/
def c1Input : String := "0 @I1@ INDI\n1 NOTE hello\n"

/-- The graph decoded from the C1 input. -/
def c1G : DState := theGraph (decodeString c1Input)

/-- The bytes the encoder produces for that graph: the INDI line, a
bare CHAN line, and a bare NOTE line nested two levels deep with the
note text dropped. -/
def c1Out : String := "0 @I1@ INDI\n1 CHAN\n2 NOTE\n"

/-- The graph decoded from the encoder output (all output bytes are
ASCII, so reading them back rune by rune is the byte-to-character
map). -/
def c1G2 : DState := theGraph (decodeChars ((strBytes c1Out).map Char.ofNat))

/-- Claim C1, failing evaluation: decoding the one-note file yields a
graph whose only note reads hello, but `Encoder.note` writes a bare
NOTE line (dropping the note text, and at level 2 because
`Encoder.noteList` adds another level), after the always-written bare
CHAN line.  Re-decoding the output therefore yields an individual
with no notes at all: the NOTE line nests under CHAN and carries
empty text, so decode(encode(G)) is not semantically equal to G. -/
theorem C1_roundtrip_note_text_lost :
    decodeString c1Input = .graph c1G
    ∧ c1G.individuals.map IndividualRecord.Note = [[0]]
    ∧ c1G.notes.map NoteRecord.Note = ["hello"]
    ∧ encodeG c1G = .ok (strBytes c1Out)
    ∧ decodeChars ((strBytes c1Out).map Char.ofNat) = .graph c1G2
    ∧ c1G2.individuals.map IndividualRecord.Note = [[]]
    ∧ c1G2.individuals.map (fun r => r.Change.Note) = [[0]]
    ∧ c1G2.notes.map NoteRecord.Note = [""] := by
  decide

/-- The failing input of C2: the xref S1 appears as a pointer in the
header and as a top-level SUBM definition; the xref M1 appears as a
top-level OBJE definition and as an OBJE pointer under an
individual. -/
def c2Input : String :=
  "0 HEAD\n1 SUBM @S1@\n0 @S1@ SUBM\n0 @M1@ OBJE\n0 @I1@ INDI\n1 OBJE @M1@\n"

/-- The graph decoded from the C2 input. -/
def c2G : DState := theGraph (decodeString c2Input)

/-- Claim C2, failing evaluation: the header pointer `1 SUBM @S1@`
resolves through the refs table to submitter instance 0 with xref S1,
but the definition `0 @S1@ SUBM` appends the distinct fresh instance
1 whose xref is not even recorded (the root parser has a TODO for
submitters).  Likewise the definition `0 @M1@ OBJE` creates media
instance 0 via the refs table while the pointer `1 OBJE @M1@` under
the individual creates the distinct instance 1, so two occurrences of
the same xref do not resolve to one object for submitters or for
media. -/
theorem C2_submitter_and_media_not_shared :
    decodeString c2Input = .graph c2G
    ∧ c2G.header.map Header.Submitter = some (some 0)
    ∧ (c2G.submitters.get? 0).map SubmitterRecord.Xref = some "S1"
    ∧ c2G.gSubmitter = [1]
    ∧ (c2G.submitters.get? 1).map SubmitterRecord.Xref = some ""
    ∧ c2G.gMedia = [0]
    ∧ c2G.individuals.map IndividualRecord.Media = [[1]]
    ∧ c2G.medias.map MediaRecord.Xref = ["M1", "M1"] := by
  decide

/-- The counterexample input of C3: an unrecognized tag nested under
a NAME structure. -/
def c3Input : String := "0 @I1@ INDI\n1 NAME John\n2 _FOO bar\n"

/-- The graph decoded from the C3 counterexample input. -/
def c3G : DState := theGraph (decodeString c3Input)

/-- Claim C3, counterexample: the name context does not preserve
unknown tags.  Decoding a file whose only unrecognized line sits
under NAME produces a graph with no user-defined node anywhere (the
arena of user-defined tags is empty and the name record holds none);
the line is only passed to the unhandledTag logger. -/
theorem C3_counterexample_name_context_drops :
    decodeString c3Input = .graph c3G
    ∧ c3G.userDefs = []
    ∧ c3G.names.map NameRecord.UserDefined = [[]]
    ∧ c3G.unhandled.map lineCore = [(2, "_FOO", "bar", "")] := by
  decide

/-- The counterexample input of C9: an ALIA line with no xref and no
value. -/
def c9Input : String := "0 @I1@ INDI\n1 ALIA\n"

/-- The graph decoded from the C9 counterexample input. -/
def c9G : DState := theGraph (decodeString c9Input)

/-- Claim C9, counterexample: an ALIA line under an individual with
no xref but also no value appends nothing: the individual has no name
records, although the claim as stated requires a name record carrying
the (empty) value to be appended for every ALIA line without an
xref. -/
theorem C9_counterexample_empty_value :
    decodeString c9Input = .graph c9G
    ∧ c9G.individuals.map IndividualRecord.Name = [[]]
    ∧ c9G.names = []
    ∧ c9G.associations = [] := by
  decide

/-- Claim C6, counterexample: a NOTE value followed by a physical
line that does not begin with a digit still produces a scan error
when that following line is not terminated: the fold happens, but the
input then ends mid-value and the scanner reports an unexpected end
of input, so the claim does not hold for every such input. -/
theorem C6_counterexample_unterminated_fold :
    scanString "1 NOTE a\nx" = .error ⟨.unexpectedEOF, 1, 10⟩ := by
  decide

/-- The concrete input of the continuation-semantics claim C4. -/
def c4Input : String := "0 @I1@ INDI\n1 NOTE line 1\n2 CONT line 2\n2 CONT line 3\n"

/-- The graph decoded from the C4 input. -/
def c4G : DState := theGraph (decodeString c4Input)

/-- Claim C4: in the note context, a CONT line appends a newline
followed by its value and a CONC line appends its value with no
separator (first two conjuncts, for every note context and line); and
decoding the given NOTE/CONT/CONT input under an individual produces
a single note whose text is exactly the three lines joined by
newlines. -/
theorem C4_note_continuation :
    (∀ (i : Nat) (l : GLine) (st : DState), l.Tag = "CONT" →
      noteHandle i l st =
        (none, modNote i (fun n => { n with Note := n.Note ++ "\n" ++ l.Value }) st))
    ∧ (∀ (i : Nat) (l : GLine) (st : DState), l.Tag = "CONC" →
      noteHandle i l st =
        (none, modNote i (fun n => { n with Note := n.Note ++ l.Value }) st))
    ∧ decodeString c4Input = .graph c4G
    ∧ c4G.individuals.map IndividualRecord.Note = [[0]]
    ∧ c4G.notes.map NoteRecord.Note = ["line 1\nline 2\nline 3"] := by
  refine ⟨?_, ?_, by decide, by decide, by decide⟩
  · intro i l st h
    simp [noteHandle, h]
  · intro i l st h
    simp [noteHandle, h]

/-- Witness for C4: the CONT conjunct applied to a concrete line and
state. -/
theorem C4_note_continuation_witness :
    noteHandle 0 ⟨2, "CONT", "x", "", 1, 0⟩ { notes := [{ Note := "a" }] } =
      (none, modNote 0 (fun n => { n with Note := n.Note ++ "\n" ++ "x" })
        { notes := [{ Note := "a" }] }) :=
  C4_note_continuation.1 0 ⟨2, "CONT", "x", "", 1, 0⟩ { notes := [{ Note := "a" }] } rfl

/-- Claim C9 as amended: an ALIA line under an individual with no
xref and a non-empty value appends a fresh name record carrying the
value to the individual name list, pushes no parser, and touches
nothing else (in particular no alias link record of any kind is
created). -/
theorem C9_amended_alia_alternate_name :
    ∀ (i : Nat) (l : GLine) (st : DState), l.Tag = "ALIA" → l.Xref = "" → l.Value ≠ "" →
      individualHandle i l st =
        (none, modInd i (fun r => { r with Name := r.Name ++ [st.names.length] })
          { st with names := st.names ++ [{ Name := l.Value }] }) := by
  intro i l st h1 h2 h3
  simp [individualHandle, h1, h2, h3, indiEventTags, indiAttrTags, allocName]

/-- Total UTF-8 byte length of a character list, the unit in which
the scanner counts its offsets. -/
def utf8Len (cs : List Char) : Nat :=
  (cs.map Char.utf8Size).sum

/-- Unfolding of one scanner iteration. -/
theorem scanRunF_cons (st : ScanSt) (acc : List GLine) (fuel : Nat) (c : Char) (cs : List Char) :
    scanRunF st acc (fuel + 1) (c :: cs) =
      match scanStep st c cs with
      | .cont st2 rest => scanRunF st2 acc fuel rest
      | .emit l rest => scanRunF (freshScan (st.line + 1)) (l :: acc) fuel rest
      | .fail e => .error e := rfl

/-- Unfolding of the scanner at end of input. -/
theorem scanRunF_nil (st : ScanSt) (acc : List GLine) (fuel : Nat) :
    scanRunF st acc (fuel + 1) [] =
      if st.state = .begin then .ok acc.reverse
      else .error ⟨.unexpectedEOF, st.line, st.offset⟩ := rfl

/-- In the level state, a run of digits is consumed into the buffer. -/
theorem scan_consume_level (ds : List Char) (h : ∀ c ∈ ds, isDigitChar c) :
    ∀ (line offset level : Nat) (buf : List Char) (tagv xrefv : String)
      (acc : List GLine) (fuel : Nat) (rest : List Char),
    scanRunF ⟨.level, line, offset, level, buf, tagv, xrefv⟩ acc (ds.length + fuel) (ds ++ rest) =
      scanRunF ⟨.level, line, offset + utf8Len ds, level, buf ++ ds, tagv, xrefv⟩ acc fuel rest := by
  induction ds with
  | nil => intro line offset level buf tagv xrefv acc fuel rest; simp [utf8Len]
  | cons c ds ih =>
    intro line offset level buf tagv xrefv acc fuel rest
    have hlen : (c :: ds).length + fuel = (ds.length + fuel) + 1 := by
      simp [Nat.add_right_comm]
    rw [hlen, List.cons_append, scanRunF_cons]
    have hc : isDigitChar c := h c (by simp)
    simp only [scanStep, hc, if_pos]
    rw [ih (fun c hc => h c (by simp [hc]))]
    simp [utf8Len, Nat.add_assoc]

/-- In the tag state, a run of tag characters is consumed into the
buffer. -/
theorem scan_consume_tag (ts : List Char) (h : ∀ c ∈ ts, isAlphaNum c) :
    ∀ (line offset level : Nat) (buf : List Char) (tagv xrefv : String)
      (acc : List GLine) (fuel : Nat) (rest : List Char),
    scanRunF ⟨.tag, line, offset, level, buf, tagv, xrefv⟩ acc (ts.length + fuel) (ts ++ rest) =
      scanRunF ⟨.tag, line, offset + utf8Len ts, level, buf ++ ts, tagv, xrefv⟩ acc fuel rest := by
  induction ts with
  | nil => intro line offset level buf tagv xrefv acc fuel rest; simp [utf8Len]
  | cons c ts ih =>
    intro line offset level buf tagv xrefv acc fuel rest
    have hlen : (c :: ts).length + fuel = (ts.length + fuel) + 1 := by
      simp [Nat.add_right_comm]
    rw [hlen, List.cons_append, scanRunF_cons]
    have hc : isAlphaNum c := h c (by simp)
    simp only [scanStep, hc, if_pos]
    rw [ih (fun c hc => h c (by simp [hc]))]
    simp [utf8Len, Nat.add_assoc]

/-- In the xref state, a run of xref characters is consumed into the
buffer. -/
theorem scan_consume_xref (ts : List Char) (h : ∀ c ∈ ts, isAlphaNum c) :
    ∀ (line offset level : Nat) (buf : List Char) (tagv xrefv : String)
      (acc : List GLine) (fuel : Nat) (rest : List Char),
    scanRunF ⟨.xref, line, offset, level, buf, tagv, xrefv⟩ acc (ts.length + fuel) (ts ++ rest) =
      scanRunF ⟨.xref, line, offset + utf8Len ts, level, buf ++ ts, tagv, xrefv⟩ acc fuel rest := by
  induction ts with
  | nil => intro line offset level buf tagv xrefv acc fuel rest; simp [utf8Len]
  | cons c ts ih =>
    intro line offset level buf tagv xrefv acc fuel rest
    have hlen : (c :: ts).length + fuel = (ts.length + fuel) + 1 := by
      simp [Nat.add_right_comm]
    rw [hlen, List.cons_append, scanRunF_cons]
    have hc : isAlphaNum c := h c (by simp)
    simp only [scanStep, hc, if_pos]
    rw [ih (fun c hc => h c (by simp [hc]))]
    simp [utf8Len, Nat.add_assoc]

/-- In the value state, characters other than CR and LF are consumed
into the buffer. -/
theorem scan_consume_value (vs : List Char) (h : ∀ c ∈ vs, c ≠ '\n' ∧ c ≠ '\r') :
    ∀ (line offset level : Nat) (buf : List Char) (tagv xrefv : String)
      (acc : List GLine) (fuel : Nat) (rest : List Char),
    scanRunF ⟨.value, line, offset, level, buf, tagv, xrefv⟩ acc (vs.length + fuel) (vs ++ rest) =
      scanRunF ⟨.value, line, offset + utf8Len vs, level, buf ++ vs, tagv, xrefv⟩ acc fuel rest := by
  induction vs with
  | nil => intro line offset level buf tagv xrefv acc fuel rest; simp [utf8Len]
  | cons c vs ih =>
    intro line offset level buf tagv xrefv acc fuel rest
    have hlen : (c :: vs).length + fuel = (vs.length + fuel) + 1 := by
      simp [Nat.add_right_comm]
    rw [hlen, List.cons_append, scanRunF_cons]
    have hc := h c (by simp)
    simp only [scanStep]
    rw [if_neg (by simp [hc.1, hc.2])]
    show scanRunF ⟨.value, line, offset + c.utf8Size, level, buf ++ [c], tagv, xrefv⟩
      acc (vs.length + fuel) (vs ++ rest) = _
    rw [ih (fun c hc => h c (by simp [hc]))]
    simp [utf8Len, Nat.add_assoc]

/-- Unfolding of the scanner at end of input, for any nonzero fuel. -/
theorem scanRunF_nil_pos (st : ScanSt) (acc : List GLine) (fuel : Nat) (h : fuel ≠ 0) :
    scanRunF st acc fuel [] =
      if st.state = .begin then .ok acc.reverse
      else .error ⟨.unexpectedEOF, st.line, st.offset⟩ := by
  cases fuel with
  | zero => exact absurd rfl h
  | succ n => rfl

/-- Claim C7: an input that ends in the middle of a line makes the
scanner report the unexpected end-of-input error with the line number
and offset.  The four conjuncts cover the states named by the claim:
mid-level (a bare run of digits), mid-tag, mid-xref, and an
unterminated value. -/
theorem C7_eof_mid_line_errors :
    (∀ ds : List Char, ds ≠ [] → (∀ c ∈ ds, isDigitChar c) →
      scanChars ds = .error ⟨.unexpectedEOF, 1, utf8Len ds⟩)
    ∧ (∀ t : List Char, t ≠ [] → (∀ c ∈ t, isAlphaNum c) →
      scanChars ('1' :: ' ' :: t) = .error ⟨.unexpectedEOF, 1, 2 + utf8Len t⟩)
    ∧ (∀ x : List Char, (∀ c ∈ x, isAlphaNum c) →
      scanChars ('1' :: ' ' :: '@' :: x) = .error ⟨.unexpectedEOF, 1, 3 + utf8Len x⟩)
    ∧ (∀ (t v : List Char), t ≠ [] → (∀ c ∈ t, isAlphaNum c) →
      v ≠ [] → (∀ c ∈ v, c ≠ '\n' ∧ c ≠ '\r') → v.head? ≠ some ' ' →
      scanChars ('1' :: ' ' :: t ++ ' ' :: v) =
        .error ⟨.unexpectedEOF, 1, 3 + utf8Len t + utf8Len v⟩) := by
  refine ⟨?_, ?_, ?_, ?_⟩
  · intro ds hne hd
    obtain ⟨d, ds, rfl⟩ := List.exists_cons_of_ne_nil hne
    show scanRunF (freshScan 1) [] ((d :: ds).length + 1) (d :: ds) = _
    have hf : (d :: ds).length + 1 = (ds.length + 1) + 1 := by simp
    rw [hf, scanRunF_cons]
    have hdd : isDigitChar d := hd d (by simp)
    simp only [freshScan, scanStep, hdd, if_pos]
    show scanRunF ⟨.level, 1, 0 + d.utf8Size, 0, [] ++ [d], "", ""⟩ [] (ds.length + 1) ds = _
    have hcons := scan_consume_level ds (fun c hc => hd c (by simp [hc]))
      1 (0 + d.utf8Size) 0 ([] ++ [d]) "" "" [] 1 []
    simp only [List.append_nil] at hcons
    rw [hcons, scanRunF_nil_pos _ _ _ (by omega), if_neg (by simp)]
    simp [utf8Len]
  · intro t hne ht
    obtain ⟨t0, t', rfl⟩ := List.exists_cons_of_ne_nil hne
    show scanRunF (freshScan 1) [] (('1' :: ' ' :: t0 :: t').length + 1) ('1' :: ' ' :: t0 :: t') = _
    have hf : ('1' :: ' ' :: t0 :: t').length + 1 = (((t'.length + 1) + 1) + 1) + 1 := by
      simp
    rw [hf, scanRunF_cons]
    simp only [freshScan, scanStep]
    rw [if_pos (by decide)]
    show scanRunF ⟨.level, 1, 0 + '1'.utf8Size, 0, [] ++ ['1'], "", ""⟩ []
      (((t'.length + 1) + 1) + 1) (' ' :: t0 :: t') = _
    rw [scanRunF_cons]
    simp only [scanStep]
    rw [if_neg (by decide), if_pos (by decide), if_pos (by decide)]
    show scanRunF ⟨.seekTagOrXref, 1, 0 + '1'.utf8Size + ' '.utf8Size,
      digitsToNat ([] ++ ['1']), [], "", ""⟩ [] ((t'.length + 1) + 1) (t0 :: t') = _
    rw [scanRunF_cons]
    have ht0 : isAlphaNum t0 := ht t0 (by simp)
    simp only [scanStep, ht0, if_pos]
    show scanRunF ⟨.tag, 1, 0 + '1'.utf8Size + ' '.utf8Size + t0.utf8Size,
      digitsToNat ([] ++ ['1']), [] ++ [t0], "", ""⟩ [] (t'.length + 1) t' = _
    have hcons := scan_consume_tag t' (fun c hc => ht c (by simp [hc]))
      1 (0 + '1'.utf8Size + ' '.utf8Size + t0.utf8Size) (digitsToNat ([] ++ ['1']))
      ([] ++ [t0]) "" "" [] 1 []
    simp only [List.append_nil] at hcons
    rw [hcons, scanRunF_nil_pos _ _ _ (by omega), if_neg (by simp)]
    have e1 : '1'.utf8Size = 1 := rfl
    have e2 : ' '.utf8Size = 1 := rfl
    simp [utf8Len, e1, e2]
    omega
  · intro x hx
    show scanRunF (freshScan 1) [] (('1' :: ' ' :: '@' :: x).length + 1) ('1' :: ' ' :: '@' :: x) = _
    have hf : ('1' :: ' ' :: '@' :: x).length + 1 = (((x.length + 1) + 1) + 1) + 1 := by
      simp
    rw [hf, scanRunF_cons]
    simp only [freshScan, scanStep]
    rw [if_pos (by decide)]
    show scanRunF ⟨.level, 1, 0 + '1'.utf8Size, 0, [] ++ ['1'], "", ""⟩ []
      (((x.length + 1) + 1) + 1) (' ' :: '@' :: x) = _
    rw [scanRunF_cons]
    simp only [scanStep]
    rw [if_neg (by decide), if_pos (by decide), if_pos (by decide)]
    show scanRunF ⟨.seekTagOrXref, 1, 0 + '1'.utf8Size + ' '.utf8Size,
      digitsToNat ([] ++ ['1']), [], "", ""⟩ [] ((x.length + 1) + 1) ('@' :: x) = _
    rw [scanRunF_cons]
    simp only [scanStep]
    rw [if_neg (by decide), if_pos (by decide)]
    show scanRunF ⟨.xref, 1, 0 + '1'.utf8Size + ' '.utf8Size + '@'.utf8Size,
      digitsToNat ([] ++ ['1']), [], "", ""⟩ [] (x.length + 1) x = _
    have hcons := scan_consume_xref x hx
      1 (0 + '1'.utf8Size + ' '.utf8Size + '@'.utf8Size) (digitsToNat ([] ++ ['1']))
      [] "" "" [] 1 []
    simp only [List.append_nil] at hcons
    rw [hcons, scanRunF_nil_pos _ _ _ (by omega), if_neg (by simp)]
    have e1 : '1'.utf8Size = 1 := rfl
    have e2 : ' '.utf8Size = 1 := rfl
    have e3 : '@'.utf8Size = 1 := rfl
    simp [utf8Len, e1, e2, e3]
  · intro t v hnet ht hnev hv hv0
    obtain ⟨t0, t', rfl⟩ := List.exists_cons_of_ne_nil hnet
    obtain ⟨v0, v', rfl⟩ := List.exists_cons_of_ne_nil hnev
    have hv0s : v0 ≠ ' ' := by
      intro h
      exact hv0 (by simp [h])
    show scanRunF (freshScan 1) [] (('1' :: ' ' :: (t0 :: t') ++ ' ' :: v0 :: v').length + 1)
      ('1' :: ' ' :: (t0 :: t') ++ ' ' :: v0 :: v') = _
    have hf : ('1' :: ' ' :: (t0 :: t') ++ ' ' :: v0 :: v').length + 1 =
        (((t'.length + (((v'.length + 1) + 1) + 1)) + 1) + 1) + 1 := by
      simp
      omega
    rw [hf]
    simp only [List.cons_append]
    rw [scanRunF_cons]
    simp only [freshScan, scanStep]
    rw [if_pos (by decide)]
    show scanRunF ⟨.level, 1, 0 + '1'.utf8Size, 0, [] ++ ['1'], "", ""⟩ []
      (((t'.length + (((v'.length + 1) + 1) + 1)) + 1) + 1)
      (' ' :: t0 :: (t' ++ ' ' :: v0 :: v')) = _
    rw [scanRunF_cons]
    simp only [scanStep]
    rw [if_neg (by decide), if_pos (by decide), if_pos (by decide)]
    show scanRunF ⟨.seekTagOrXref, 1, 0 + '1'.utf8Size + ' '.utf8Size,
      digitsToNat ([] ++ ['1']), [], "", ""⟩ []
      ((t'.length + (((v'.length + 1) + 1) + 1)) + 1) (t0 :: (t' ++ ' ' :: v0 :: v')) = _
    rw [scanRunF_cons]
    have ht0 : isAlphaNum t0 := ht t0 (by simp)
    simp only [scanStep, ht0, if_pos]
    show scanRunF ⟨.tag, 1, 0 + '1'.utf8Size + ' '.utf8Size + t0.utf8Size,
      digitsToNat ([] ++ ['1']), [] ++ [t0], "", ""⟩ []
      (t'.length + (((v'.length + 1) + 1) + 1)) (t' ++ ' ' :: v0 :: v') = _
    rw [scan_consume_tag t' (fun c hc => ht c (by simp [hc]))]
    rw [scanRunF_cons]
    simp only [scanStep]
    rw [if_neg (by decide), if_neg (by decide), if_pos (by decide)]
    show scanRunF ⟨.seekValue, 1,
      0 + '1'.utf8Size + ' '.utf8Size + t0.utf8Size + utf8Len t' + ' '.utf8Size,
      digitsToNat ([] ++ ['1']), [], ⟨[] ++ [t0] ++ t'⟩, ""⟩ []
      ((v'.length + 1) + 1) (v0 :: v') = _
    rw [scanRunF_cons]
    have hv00 := hv v0 (by simp)
    simp only [scanStep]
    rw [if_neg (by simp [hv00.1, hv00.2]), if_neg (by simp [hv0s])]
    show scanRunF ⟨.value, 1,
      0 + '1'.utf8Size + ' '.utf8Size + t0.utf8Size + utf8Len t' + ' '.utf8Size + v0.utf8Size,
      digitsToNat ([] ++ ['1']), [] ++ [v0], ⟨[] ++ [t0] ++ t'⟩, ""⟩ []
      (v'.length + 1) v' = _
    have hcons := scan_consume_value v' (fun c hc => hv c (by simp [hc]))
      1 (0 + '1'.utf8Size + ' '.utf8Size + t0.utf8Size + utf8Len t' + ' '.utf8Size + v0.utf8Size)
      (digitsToNat ([] ++ ['1'])) ([] ++ [v0]) ⟨[] ++ [t0] ++ t'⟩ "" [] 1 []
    simp only [List.append_nil] at hcons
    rw [hcons, scanRunF_nil_pos _ _ _ (by omega), if_neg (by simp)]
    have e1 : '1'.utf8Size = 1 := rfl
    have e2 : ' '.utf8Size = 1 := rfl
    simp [utf8Len, e1, e2]
    omega

/-- Witness for C7: each conjunct applied to a concrete truncated
input. -/
theorem C7_eof_mid_line_witness :
    scanChars "12".data = .error ⟨.unexpectedEOF, 1, utf8Len "12".data⟩
    ∧ scanChars ('1' :: ' ' :: "NOTE".data) = .error ⟨.unexpectedEOF, 1, 2 + utf8Len "NOTE".data⟩
    ∧ scanChars ('1' :: ' ' :: '@' :: "I1".data) =
        .error ⟨.unexpectedEOF, 1, 3 + utf8Len "I1".data⟩
    ∧ scanChars ('1' :: ' ' :: "SEX".data ++ ' ' :: "F".data) =
        .error ⟨.unexpectedEOF, 1, 3 + utf8Len "SEX".data + utf8Len "F".data⟩ :=
  ⟨C7_eof_mid_line_errors.1 _ (by decide) (by decide),
   C7_eof_mid_line_errors.2.1 _ (by decide) (by decide),
   C7_eof_mid_line_errors.2.2.1 _ (by decide),
   C7_eof_mid_line_errors.2.2.2 _ _ (by decide) (by decide) (by decide) (by decide) (by decide)⟩

/-- In the value state a bare LF either folds (malformed-NOTE
recovery) or emits the finished line, depending on the peek at the
remaining input. -/
theorem scanStep_value_lf (line offset level : Nat) (buf : List Char)
    (tagv xrefv : String) (cs : List Char) :
    scanStep ⟨.value, line, offset, level, buf, tagv, xrefv⟩ '\n' cs =
      if noteFoldable tagv cs then
        .cont ⟨.value, line, offset + 1, level, buf ++ ['\n'], tagv, xrefv⟩ cs
      else .emit ⟨level, tagv, ⟨buf⟩, xrefv, line, offset + 1⟩ cs := by
  have e : '\n'.utf8Size = 1 := rfl
  cases cs with
  | nil => simp [scanStep, e]
  | cons a l => simp [scanStep, e]

/-- Claim C6 as amended: a NOTE line whose value runs straight into a
following physical line that does not begin with a digit is folded
into the value with a line feed, provided that following line is
itself terminated: the scanner returns the single folded NOTE line
and no error. -/
theorem C6_amended_note_fold :
    ∀ (v : List Char) (w0 : Char) (w' : List Char),
      v ≠ [] → (∀ c ∈ v, c ≠ '\n' ∧ c ≠ '\r') → v.head? ≠ some ' ' →
      isDigitChar w0 = false → w0 ≠ '\n' → w0 ≠ '\r' →
      (∀ c ∈ w', c ≠ '\n' ∧ c ≠ '\r') →
      scanChars ('1' :: ' ' :: 'N' :: 'O' :: 'T' :: 'E' :: ' ' :: v ++ '\n' :: w0 :: w' ++ ['\n']) =
        .ok [⟨1, "NOTE", ⟨v ++ '\n' :: w0 :: w'⟩, "", 1,
          9 + utf8Len v + w0.utf8Size + utf8Len w'⟩] := by
  intro v w0 w' hnev hv hv0 hw0 hw0n hw0r hw
  obtain ⟨v0, v', rfl⟩ := List.exists_cons_of_ne_nil hnev
  have hv0s : v0 ≠ ' ' := by
    intro h
    exact hv0 (by simp [h])
  have hv00 := hv v0 (by simp)
  show scanRunF (freshScan 1) []
    (('1' :: ' ' :: 'N' :: 'O' :: 'T' :: 'E' :: ' ' :: (v0 :: v') ++ '\n' :: w0 :: w' ++ ['\n']).length + 1)
    ('1' :: ' ' :: 'N' :: 'O' :: 'T' :: 'E' :: ' ' :: (v0 :: v') ++ '\n' :: w0 :: w' ++ ['\n']) = _
  have hf : ('1' :: ' ' :: 'N' :: 'O' :: 'T' :: 'E' :: ' ' :: (v0 :: v') ++ '\n' :: w0 :: w' ++ ['\n']).length + 1 =
      ((((((((v'.length + (((w'.length + (1 + 1)) + 1) + 1)) + 1) + 1) + 1) + 1) + 1) + 1) + 1) + 1 := by
    simp
    omega
  rw [hf]
  simp only [List.cons_append, List.append_assoc]
  rw [scanRunF_cons]
  simp only [freshScan, scanStep]
  rw [if_pos (by decide)]
  show scanRunF ⟨.level, 1, 1, 0, ['1'], "", ""⟩ []
    ((((((((v'.length + (((w'.length + (1 + 1)) + 1) + 1)) + 1) + 1) + 1) + 1) + 1) + 1) + 1)
    (' ' :: 'N' :: 'O' :: 'T' :: 'E' :: ' ' :: v0 :: (v' ++ '\n' :: w0 :: (w' ++ ['\n']))) = _
  rw [scanRunF_cons]
  simp only [scanStep]
  rw [if_neg (by decide), if_pos (by decide), if_pos (by decide)]
  show scanRunF ⟨.seekTagOrXref, 1, 2, 1, [], "", ""⟩ []
    (((((((v'.length + (((w'.length + (1 + 1)) + 1) + 1)) + 1) + 1) + 1) + 1) + 1) + 1)
    ('N' :: 'O' :: 'T' :: 'E' :: ' ' :: v0 :: (v' ++ '\n' :: w0 :: (w' ++ ['\n']))) = _
  rw [scanRunF_cons]
  simp only [scanStep]
  rw [if_pos (by decide)]
  show scanRunF ⟨.tag, 1, 3, 1, ['N'], "", ""⟩ []
    ((((((v'.length + (((w'.length + (1 + 1)) + 1) + 1)) + 1) + 1) + 1) + 1) + 1)
    ('O' :: 'T' :: 'E' :: ' ' :: v0 :: (v' ++ '\n' :: w0 :: (w' ++ ['\n']))) = _
  rw [scanRunF_cons]
  simp only [scanStep]
  rw [if_pos (by decide)]
  show scanRunF ⟨.tag, 1, 4, 1, ['N', 'O'], "", ""⟩ []
    (((((v'.length + (((w'.length + (1 + 1)) + 1) + 1)) + 1) + 1) + 1) + 1)
    ('T' :: 'E' :: ' ' :: v0 :: (v' ++ '\n' :: w0 :: (w' ++ ['\n']))) = _
  rw [scanRunF_cons]
  simp only [scanStep]
  rw [if_pos (by decide)]
  show scanRunF ⟨.tag, 1, 5, 1, ['N', 'O', 'T'], "", ""⟩ []
    ((((v'.length + (((w'.length + (1 + 1)) + 1) + 1)) + 1) + 1) + 1)
    ('E' :: ' ' :: v0 :: (v' ++ '\n' :: w0 :: (w' ++ ['\n']))) = _
  rw [scanRunF_cons]
  simp only [scanStep]
  rw [if_pos (by decide)]
  show scanRunF ⟨.tag, 1, 6, 1, ['N', 'O', 'T', 'E'], "", ""⟩ []
    (((v'.length + (((w'.length + (1 + 1)) + 1) + 1)) + 1) + 1)
    (' ' :: v0 :: (v' ++ '\n' :: w0 :: (w' ++ ['\n']))) = _
  rw [scanRunF_cons]
  simp only [scanStep]
  rw [if_neg (by decide), if_neg (by decide), if_pos (by decide)]
  show scanRunF ⟨.seekValue, 1, 7, 1, [], "NOTE", ""⟩ []
    ((v'.length + (((w'.length + (1 + 1)) + 1) + 1)) + 1)
    (v0 :: (v' ++ '\n' :: w0 :: (w' ++ ['\n']))) = _
  rw [scanRunF_cons]
  simp only [scanStep]
  rw [if_neg (by simp [hv00.1, hv00.2]), if_neg (by simp [hv0s])]
  show scanRunF ⟨.value, 1, 7 + v0.utf8Size, 1, [v0], "NOTE", ""⟩ []
    (v'.length + (((w'.length + (1 + 1)) + 1) + 1))
    (v' ++ '\n' :: w0 :: (w' ++ ['\n'])) = _
  rw [scan_consume_value v' (fun c hc => hv c (by simp [hc]))]
  rw [scanRunF_cons, scanStep_value_lf]
  rw [if_pos (by simp [noteFoldable, hw0])]
  show scanRunF ⟨.value, 1, 7 + v0.utf8Size + utf8Len v' + 1, 1,
      ([v0] ++ v') ++ ['\n'], "NOTE", ""⟩ []
    ((w'.length + (1 + 1)) + 1) (w0 :: (w' ++ ['\n'])) = _
  rw [scanRunF_cons]
  simp only [scanStep]
  rw [if_neg (by simp [hw0n, hw0r])]
  show scanRunF ⟨.value, 1, 7 + v0.utf8Size + utf8Len v' + 1 + w0.utf8Size, 1,
      (([v0] ++ v') ++ ['\n']) ++ [w0], "NOTE", ""⟩ []
    (w'.length + (1 + 1)) (w' ++ ['\n']) = _
  rw [scan_consume_value w' (fun c hc => hw c (by simp [hc]))]
  rw [scanRunF_cons, scanStep_value_lf]
  rw [if_neg (by simp [noteFoldable])]
  show scanRunF (freshScan (1 + 1))
      [⟨1, "NOTE", ⟨[v0] ++ v' ++ ['\n'] ++ [w0] ++ w'⟩, "",
        1, 7 + v0.utf8Size + utf8Len v' + 1 + w0.utf8Size + utf8Len w' + 1⟩] 1 [] = _
  rw [scanRunF_nil_pos _ _ _ (by omega)]
  simp [freshScan, utf8Len]
  omega

/-- Witness for the amended C6: the malformed two-line NOTE input
"1 NOTE a", line break, "x", line break, scans to the single folded
line. -/
theorem C6_amended_witness :
    scanChars ('1' :: ' ' :: 'N' :: 'O' :: 'T' :: 'E' :: ' ' :: "a".data ++ '\n' :: 'x' :: [] ++ ['\n']) =
      .ok [⟨1, "NOTE", ⟨"a".data ++ '\n' :: 'x' :: []⟩, "", 1,
        9 + utf8Len "a".data + 'x'.utf8Size + utf8Len []⟩] :=
  C6_amended_note_fold "a".data 'x' [] (by decide) (by decide) (by decide)
    (by decide) (by decide) (by decide) (by decide)

/-- strings.Split leaves a newline-free value in one piece. -/
theorem splitNl_no_nl (v : List Nat) (h : 10 ∉ v) : splitNl v = [v] := by
  induction v with
  | nil => rfl
  | cons b bs ih =>
    have hb : b ≠ 10 := by
      intro hb
      exact h (by simp [hb])
    have hr := ih (fun hm => h (by simp [hm]))
    simp [splitNl, hb, hr]

/-- Encoder.tag on an error-free state appends exactly one line of
bytes. -/
theorem encTag_out (lvl : Nat) (tag : String) (value : List Nat) (st : EncSt)
    (h : st.err = none) :
    encTag lvl tag value st = { st with out := st.out ++ tagLineBytes lvl tag value } := by
  by_cases hv : value = []
  · simp [encTag, h, encWrite, tagLineBytes, hv]
  · simp [encTag, h, encWrite, tagLineBytes, hv]

/-- One unfolding of the CONC loop. -/
theorem encConcLoopF_succ (lvl fuel : Nat) (value : List Nat) (st : EncSt) :
    encConcLoopF lvl (fuel + 1) value st =
      if value.length > 246 then
        if (value.drop 246).length ≤ 246 then encTag (lvl + 1) "CONC" (value.drop 246) st
        else encConcLoopF lvl fuel (value.drop 246)
          (encTag (lvl + 1) "CONC" ((value.drop 246).take 246) st)
      else st := rfl

/-- Claim C5, counterexample: the wrap threshold counts UTF-8 bytes,
not characters.  A 246-character value of two-byte characters is 492
bytes long, and the encoder emits it as a tag line carrying the first
246 bytes plus one CONC line carrying the rest, not as a single
line. -/
theorem C5_counterexample_chars_not_bytes :
    (⟨List.replicate 246 (Char.ofNat 256)⟩ : String).data.length = 246 ∧
    c5Val.length = 492 ∧
    splitNl (encTagWithText 1 "NOTE" c5Val {}).out =
      [strBytes "1 NOTE " ++ c5Val.take 246, strBytes "2 CONC " ++ c5Val.drop 246, []] := by
  decide

/-- Claim C5 as amended: with the threshold measured in UTF-8 bytes,
a newline-free value of exactly 246 bytes is written as a single tag
line with no CONC, and a value of 256 bytes as the tag line carrying
the first 246 bytes followed by one CONC line one level deeper
carrying the remaining 10 bytes. -/
theorem C5_amended_byte_wrap (lvl : Nat) (tag : String) (v : List Nat) (st : EncSt)
    (h : st.err = none) (hnl : 10 ∉ v) :
    (v.length = 246 →
      encTagWithText lvl tag v st = { st with out := st.out ++ tagLineBytes lvl tag v }) ∧
    (v.length = 256 →
      encTagWithText lvl tag v st =
        { st with out := (st.out ++ tagLineBytes lvl tag (v.take 246)) ++
            tagLineBytes (lvl + 1) "CONC" (v.drop 246) }) := by
  have hs := splitNl_no_nl v hnl
  constructor
  · intro h246
    simp [encTagWithText, h, hs, encTextOneLine, h246, encTag_out lvl tag v st h]
  · intro h256
    have hlen2 : (v.drop 246).length = 10 := by
      simp [h256]
    have hst1 : (encTag lvl tag (v.take 246) st).err = none := by
      rw [encTag_out lvl tag (v.take 246) st h]
      exact h
    simp only [encTagWithText, h, hs, encTextOneLine, encConcLoop]
    rw [if_neg (by simp), if_neg (by simp), if_neg (by omega)]
    rw [h256, show (256 : Nat) = 255 + 1 from rfl, encConcLoopF_succ,
      if_pos (by omega : v.length > 246), if_pos (by omega : (v.drop 246).length ≤ 246)]
    rw [encTag_out (lvl + 1) "CONC" (v.drop 246) _ hst1,
      encTag_out lvl tag (v.take 246) st h]
    simp [h]

/-- Witness for the amended C5: a 246-byte and a 256-byte all-ASCII
value. -/
theorem C5_amended_witness :
    encTagWithText 1 "NOTE" (List.replicate 246 65) {} =
      { ({} : EncSt) with
        out := ({} : EncSt).out ++ tagLineBytes 1 "NOTE" (List.replicate 246 65) } ∧
    encTagWithText 1 "NOTE" (List.replicate 256 65) {} =
      { ({} : EncSt) with
        out := (({} : EncSt).out ++ tagLineBytes 1 "NOTE" ((List.replicate 256 65).take 246)) ++
          tagLineBytes (1 + 1) "CONC" ((List.replicate 256 65).drop 246) } :=
  ⟨(C5_amended_byte_wrap 1 "NOTE" (List.replicate 246 65) {} rfl (by decide)).1 (by decide),
   (C5_amended_byte_wrap 1 "NOTE" (List.replicate 256 65) {} rfl (by decide)).2 (by decide)⟩

/-- A family link that Encoder.familyLink rejects: the link record
exists but its family pointer is nil, or the target family has an
empty xref. -/
def badLink (g : DState) (li : Nat) : Prop :=
  ∃ r, g.familyLinks.get? li = some r ∧
    (r.Family = none ∨ ∃ fi, r.Family = some fi ∧ ((g.families.get? fi).getD {}).Xref = "")

/-- A fold of error-guarded writers is a no-op once the error is
set. -/
theorem foldl_sticky {α : Type} (f : EncSt → α → EncSt)
    (hf : ∀ st a, st.err.isSome = true → f st a = st) (l : List α) :
    ∀ st : EncSt, st.err.isSome = true → l.foldl f st = st := by
  induction l with
  | nil => intro st h; rfl
  | cons a t ih =>
    intro st h
    rw [List.foldl_cons, hf st a h]
    exact ih st h

/-- A fold of error-guarded writers keeps an error that is already
set. -/
theorem foldl_mono {α : Type} (f : EncSt → α → EncSt)
    (hf : ∀ st a, st.err.isSome = true → f st a = st) (l : List α)
    (st : EncSt) (h : st.err.isSome = true) : (l.foldl f st).err.isSome = true := by
  rw [foldl_sticky f hf l st h]
  exact h

/-- A fold of error-guarded writers whose body fails on some element
of the list ends with the error set, whatever the elements around it
do. -/
theorem foldl_hit {α : Type} (f : EncSt → α → EncSt)
    (hf : ∀ st a, st.err.isSome = true → f st a = st) (x : α)
    (hx : ∀ st, (f st x).err.isSome = true) :
    ∀ (l : List α) (st : EncSt), x ∈ l → (l.foldl f st).err.isSome = true := by
  intro l
  induction l with
  | nil => intro st hm; simp at hm
  | cons a t ih =>
    intro st hm
    rw [List.foldl_cons]
    rcases List.mem_cons.mp hm with rfl | hm
    · exact foldl_mono f hf t (f st x) (hx st)
    · exact ih (f st a) hm

theorem encTag_sticky (lvl : Nat) (tag : String) (value : List Nat) (st : EncSt)
    (h : st.err.isSome = true) : encTag lvl tag value st = st := by
  simp [encTag, h]

theorem encMaybeTag_sticky (lvl : Nat) (tag : String) (value : List Nat) (st : EncSt)
    (h : st.err.isSome = true) : encMaybeTag lvl tag value st = st := by
  simp [encMaybeTag, h]

theorem encTagWithID_sticky (lvl : Nat) (tag id : String) (st : EncSt)
    (h : st.err.isSome = true) : encTagWithID lvl tag id st = st := by
  simp [encTagWithID, h]

theorem encTagWithPointer_sticky (lvl : Nat) (tag xref : String) (st : EncSt)
    (h : st.err.isSome = true) : encTagWithPointer lvl tag xref st = st := by
  simp [encTagWithPointer, h]

theorem encMaybeTagWithText_sticky (lvl : Nat) (tag : String) (value : List Nat) (st : EncSt)
    (h : st.err.isSome = true) : encMaybeTagWithText lvl tag value st = st := by
  simp [encMaybeTagWithText, h]

theorem encUserDefined_sticky (g : DState) (fuel lvl k : Nat) (st : EncSt)
    (h : st.err.isSome = true) : encUserDefined g fuel lvl k st = st := by
  cases fuel with
  | zero => rfl
  | succ n => simp [encUserDefined, h]

theorem encUserDefinedList_sticky (g : DState) (fuel lvl : Nat) (ks : List Nat) (st : EncSt)
    (h : st.err.isSome = true) : encUserDefinedList g fuel lvl ks st = st :=
  foldl_sticky _ (fun st k hh => encUserDefined_sticky g fuel lvl k st hh) ks st h

theorem encAddress_sticky (g : DState) (lvl : Nat) (a : AddressRecord) (st : EncSt)
    (h : st.err.isSome = true) : encAddress g lvl a st = st := by
  simp [encAddress, h]

theorem encNote_sticky (g : DState) (lvl ni : Nat) (st : EncSt)
    (h : st.err.isSome = true) : encNote g lvl ni st = st := by
  simp [encNote, h]

theorem encNoteList_sticky (g : DState) (lvl : Nat) (ns : List Nat) (st : EncSt)
    (h : st.err.isSome = true) : encNoteList g lvl ns st = st :=
  foldl_sticky _ (fun st ni hh => encNote_sticky g (lvl + 1) ni st hh) ns st h

theorem encFile_sticky (g : DState) (lvl fi : Nat) (st : EncSt)
    (h : st.err.isSome = true) : encFile g lvl fi st = st := by
  simp [encFile, h]

theorem encMediaRef_sticky (g : DState) (lvl mi : Nat) (st : EncSt)
    (h : st.err.isSome = true) : encMediaRef g lvl mi st = st := by
  simp [encMediaRef, h]

theorem encMediaRefList_sticky (g : DState) (lvl : Nat) (ms : List Nat) (st : EncSt)
    (h : st.err.isSome = true) : encMediaRefList g lvl ms st = st :=
  foldl_sticky _ (fun st mi hh => encMediaRef_sticky g lvl mi st hh) ms st h

theorem encCitation_sticky (g : DState) (lvl ci : Nat) (st : EncSt)
    (h : st.err.isSome = true) : encCitation g lvl ci st = st := by
  simp [encCitation, h]

theorem encCitationList_sticky (g : DState) (lvl : Nat) (cs : List Nat) (st : EncSt)
    (h : st.err.isSome = true) : encCitationList g lvl cs st = st :=
  foldl_sticky _ (fun st ci hh => encCitation_sticky g lvl ci st hh) cs st h

theorem encChange_sticky (g : DState) (lvl : Nat) (c : ChangeRecord) (st : EncSt)
    (h : st.err.isSome = true) : encChange g lvl c st = st := by
  simp [encChange, h]

theorem encUserReference_sticky (g : DState) (lvl ui : Nat) (st : EncSt)
    (h : st.err.isSome = true) : encUserReference g lvl ui st = st := by
  simp [encUserReference, h]

theorem encUserReferenceList_sticky (g : DState) (lvl : Nat) (us : List Nat) (st : EncSt)
    (h : st.err.isSome = true) : encUserReferenceList g lvl us st = st :=
  foldl_sticky _ (fun st ui hh => encUserReference_sticky g (lvl + 1) ui st hh) us st h

theorem encEvent_sticky (g : DState) (lvl ei : Nat) (st : EncSt)
    (h : st.err.isSome = true) : encEvent g lvl ei st = st := by
  simp [encEvent, h]

theorem encEventList_sticky (g : DState) (lvl : Nat) (es : List Nat) (st : EncSt)
    (h : st.err.isSome = true) : encEventList g lvl es st = st :=
  foldl_sticky _ (fun st ei hh => encEvent_sticky g lvl ei st hh) es st h

theorem encFamilyLink_sticky (g : DState) (lvl : Nat) (tag : String) (li : Nat) (st : EncSt)
    (h : st.err.isSome = true) : encFamilyLink g lvl tag li st = st := by
  simp [encFamilyLink, h]

theorem encIndividualRef_sticky (g : DState) (lvl : Nat) (tag : String) (oi : Option Nat)
    (st : EncSt) (h : st.err.isSome = true) : encIndividualRef g lvl tag oi st = st := by
  simp [encIndividualRef, h]

theorem encName_sticky (g : DState) (lvl ni : Nat) (st : EncSt)
    (h : st.err.isSome = true) : encName g lvl ni st = st := by
  simp [encName, h]

theorem encIndividual_sticky (g : DState) (i : Nat) (st : EncSt)
    (h : st.err.isSome = true) : encIndividual g i st = st := by
  simp [encIndividual, h]

theorem encFamily_sticky (g : DState) (fi : Nat) (st : EncSt)
    (h : st.err.isSome = true) : encFamily g fi st = st := by
  simp [encFamily, h]

theorem encMedia_sticky (g : DState) (lvl mi : Nat) (st : EncSt)
    (h : st.err.isSome = true) : encMedia g lvl mi st = st := by
  simp [encMedia, h]

theorem encRepository_sticky (g : DState) (ri : Nat) (st : EncSt)
    (h : st.err.isSome = true) : encRepository g ri st = st := by
  simp [encRepository, h]

theorem encSource_sticky (g : DState) (si : Nat) (st : EncSt)
    (h : st.err.isSome = true) : encSource g si st = st := by
  simp [encSource, h]

theorem encSubmitter_sticky (g : DState) (lvl si : Nat) (st : EncSt)
    (h : st.err.isSome = true) : encSubmitter g lvl si st = st := by
  simp [encSubmitter, h]

theorem encTag_mono (lvl : Nat) (tag : String) (value : List Nat) (st : EncSt)
    (h : st.err.isSome = true) : (encTag lvl tag value st).err.isSome = true := by
  rw [encTag_sticky lvl tag value st h]; exact h

theorem encMaybeTag_mono (lvl : Nat) (tag : String) (value : List Nat) (st : EncSt)
    (h : st.err.isSome = true) : (encMaybeTag lvl tag value st).err.isSome = true := by
  rw [encMaybeTag_sticky lvl tag value st h]; exact h

theorem encTagWithPointer_mono (lvl : Nat) (tag xref : String) (st : EncSt)
    (h : st.err.isSome = true) : (encTagWithPointer lvl tag xref st).err.isSome = true := by
  rw [encTagWithPointer_sticky lvl tag xref st h]; exact h

theorem encMaybeTagWithText_mono (lvl : Nat) (tag : String) (value : List Nat) (st : EncSt)
    (h : st.err.isSome = true) : (encMaybeTagWithText lvl tag value st).err.isSome = true := by
  rw [encMaybeTagWithText_sticky lvl tag value st h]; exact h

theorem encUserDefinedList_mono (g : DState) (fuel lvl : Nat) (ks : List Nat) (st : EncSt)
    (h : st.err.isSome = true) : (encUserDefinedList g fuel lvl ks st).err.isSome = true := by
  rw [encUserDefinedList_sticky g fuel lvl ks st h]; exact h

theorem encAddress_mono (g : DState) (lvl : Nat) (a : AddressRecord) (st : EncSt)
    (h : st.err.isSome = true) : (encAddress g lvl a st).err.isSome = true := by
  rw [encAddress_sticky g lvl a st h]; exact h

theorem encNoteList_mono (g : DState) (lvl : Nat) (ns : List Nat) (st : EncSt)
    (h : st.err.isSome = true) : (encNoteList g lvl ns st).err.isSome = true := by
  rw [encNoteList_sticky g lvl ns st h]; exact h

theorem encMediaRefList_mono (g : DState) (lvl : Nat) (ms : List Nat) (st : EncSt)
    (h : st.err.isSome = true) : (encMediaRefList g lvl ms st).err.isSome = true := by
  rw [encMediaRefList_sticky g lvl ms st h]; exact h

theorem encCitationList_mono (g : DState) (lvl : Nat) (cs : List Nat) (st : EncSt)
    (h : st.err.isSome = true) : (encCitationList g lvl cs st).err.isSome = true := by
  rw [encCitationList_sticky g lvl cs st h]; exact h

theorem encChange_mono (g : DState) (lvl : Nat) (c : ChangeRecord) (st : EncSt)
    (h : st.err.isSome = true) : (encChange g lvl c st).err.isSome = true := by
  rw [encChange_sticky g lvl c st h]; exact h

theorem encUserReferenceList_mono (g : DState) (lvl : Nat) (us : List Nat) (st : EncSt)
    (h : st.err.isSome = true) : (encUserReferenceList g lvl us st).err.isSome = true := by
  rw [encUserReferenceList_sticky g lvl us st h]; exact h

theorem encEventList_mono (g : DState) (lvl : Nat) (es : List Nat) (st : EncSt)
    (h : st.err.isSome = true) : (encEventList g lvl es st).err.isSome = true := by
  rw [encEventList_sticky g lvl es st h]; exact h

theorem encIndividualRef_mono (g : DState) (lvl : Nat) (tag : String) (oi : Option Nat)
    (st : EncSt) (h : st.err.isSome = true) :
    (encIndividualRef g lvl tag oi st).err.isSome = true := by
  rw [encIndividualRef_sticky g lvl tag oi st h]; exact h

/-- Encoder.tagWithID with an empty id records the missing-id
error. -/
theorem encTagWithID_err (lvl : Nat) (tag : String) (st : EncSt) :
    (encTagWithID lvl tag "" st).err.isSome = true := by
  by_cases h : st.err.isSome = true
  · simp [encTagWithID, h]
  · simp [encTagWithID, h, encFail]

/-- Encoder.familyLink on a bad link records an error whatever the
incoming state is. -/
theorem encFamilyLink_err (g : DState) (lvl : Nat) (tag : String) (li : Nat)
    (hbad : badLink g li) (st : EncSt) : (encFamilyLink g lvl tag li st).err.isSome = true := by
  by_cases h : st.err.isSome = true
  · rw [encFamilyLink_sticky g lvl tag li st h]; exact h
  · obtain ⟨r, hr, hc⟩ := hbad
    rw [List.get?_eq_getElem?] at hr
    rcases hc with hn | ⟨fi, hf, hx⟩
    · simp [encFamilyLink, h, hr, hn, encFail]
    · rw [List.get?_eq_getElem?] at hx
      simp [encFamilyLink, h, hr, hf, hx, encFail]

/-- Encoder.individualRef to an individual with an empty xref records
an error whatever the incoming state is. -/
theorem encIndividualRef_err (g : DState) (lvl : Nat) (tag : String) (j : Nat)
    (hx : ((g.individuals.get? j).getD {}).Xref = "") (st : EncSt) :
    (encIndividualRef g lvl tag (some j) st).err.isSome = true := by
  by_cases h : st.err.isSome = true
  · rw [encIndividualRef_sticky g lvl tag (some j) st h]; exact h
  · rw [List.get?_eq_getElem?] at hx
    simp [encIndividualRef, h, hx, encFail]

/-- Encoder.individual ends with the error set when the record has a
bad FAMC or FAMS link or an empty xref. -/
theorem encIndividual_err (g : DState) (i : Nat) (r : IndividualRecord)
    (hr : g.individuals.get? i = some r)
    (hbad : (∃ li, (li ∈ r.Parents ∨ li ∈ r.Family) ∧ badLink g li) ∨ r.Xref = "") :
    ∀ st, (encIndividual g i st).err.isSome = true := by
  intro st
  by_cases h : st.err.isSome = true
  · rw [encIndividual_sticky g i st h]; exact h
  simp only [encIndividual, hr]
  rw [if_neg h]
  by_cases hS : r.Submitter = []
  · rw [if_neg (fun hC => hC hS)]
    by_cases hA : r.Association = []
    · rw [if_neg (fun hC => hC hA)]
      apply encUserDefinedList_mono
      apply encMediaRefList_mono
      apply encCitationList_mono
      apply encNoteList_mono
      apply encChange_mono
      apply encMaybeTagWithText_mono
      apply encUserReferenceList_mono
      apply encMaybeTagWithText_mono
      apply encMaybeTagWithText_mono
      rcases hbad with ⟨li, hmem, hbl⟩ | hx
      · rcases hmem with hP | hF
        · apply foldl_mono _ (fun st a hh => encFamilyLink_sticky g 1 "FAMS" a st hh)
          exact foldl_hit _ (fun st a hh => encFamilyLink_sticky g 1 "FAMC" a st hh) li
            (fun st => encFamilyLink_err g 1 "FAMC" li hbl st) r.Parents _ hP
        · exact foldl_hit _ (fun st a hh => encFamilyLink_sticky g 1 "FAMS" a st hh) li
            (fun st => encFamilyLink_err g 1 "FAMS" li hbl st) r.Family _ hF
      · apply foldl_mono _ (fun st a hh => encFamilyLink_sticky g 1 "FAMS" a st hh)
        apply foldl_mono _ (fun st a hh => encFamilyLink_sticky g 1 "FAMC" a st hh)
        apply encEventList_mono
        apply encEventList_mono
        apply encMaybeTagWithText_mono
        apply foldl_mono _ (fun st a hh => encName_sticky g 1 a st hh)
        rw [hx]
        exact encTagWithID_err 0 "INDI" st
    · rw [if_pos hA]
      simp [encFail]
  · rw [if_pos hS]
    simp [encFail]

/-- Encoder.family ends with the error set when the record has a
HUSB, WIFE or CHIL reference to an individual with an empty xref, or
itself has an empty xref. -/
theorem encFamily_err (g : DState) (fi : Nat) (r : FamilyRecord)
    (hr : g.families.get? fi = some r)
    (hbad : (∃ j, (r.Husband = some j ∨ r.Wife = some j ∨ j ∈ r.Child) ∧
        ((g.individuals.get? j).getD {}).Xref = "") ∨ r.Xref = "") :
    ∀ st, (encFamily g fi st).err.isSome = true := by
  intro st
  by_cases h : st.err.isSome = true
  · rw [encFamily_sticky g fi st h]; exact h
  simp only [encFamily, hr]
  rw [if_neg h]
  apply encUserDefinedList_mono
  apply encMediaRefList_mono
  apply encCitationList_mono
  apply encNoteList_mono
  apply encChange_mono
  apply encMaybeTagWithText_mono
  apply encUserReferenceList_mono
  apply encMaybeTag_mono
  apply encEventList_mono
  rcases hbad with ⟨j, hcase, hx⟩ | hxr
  · rcases hcase with hH | hW | hC
    · apply foldl_mono _ (fun st a hh => encIndividualRef_sticky g 1 "CHIL" (some a) st hh)
      apply encIndividualRef_mono
      rw [hH]
      exact encIndividualRef_err g 1 "HUSB" j hx _
    · apply foldl_mono _ (fun st a hh => encIndividualRef_sticky g 1 "CHIL" (some a) st hh)
      rw [hW]
      exact encIndividualRef_err g 1 "WIFE" j hx _
    · exact foldl_hit _ (fun st a hh => encIndividualRef_sticky g 1 "CHIL" (some a) st hh) j
        (fun st => encIndividualRef_err g 1 "CHIL" j hx st) r.Child _ hC
  · apply foldl_mono _ (fun st a hh => encIndividualRef_sticky g 1 "CHIL" (some a) st hh)
    apply encIndividualRef_mono
    apply encIndividualRef_mono
    rw [hxr]
    exact encTagWithID_err 0 "FAM" st

/-- Encoder.media at level 0 ends with the error set when the record
has an empty xref. -/
theorem encMedia_err (g : DState) (mi : Nat) (r : MediaRecord)
    (hr : g.medias.get? mi = some r) (hx : r.Xref = "") :
    ∀ st, (encMedia g 0 mi st).err.isSome = true := by
  intro st
  by_cases h : st.err.isSome = true
  · rw [encMedia_sticky g 0 mi st h]; exact h
  simp only [encMedia, hr]
  rw [if_neg h]
  apply encUserDefinedList_mono
  apply encCitationList_mono
  apply encNoteList_mono
  apply encChange_mono
  apply encMaybeTagWithText_mono
  apply encUserReferenceList_mono
  apply foldl_mono _ (fun st a hh => encFile_sticky g (0 + 1) a st hh)
  rw [if_pos trivial, hx]
  exact encTagWithID_err 0 "OBJE" st

/-- Encoder.repository ends with the error set when the record has an
empty xref. -/
theorem encRepository_err (g : DState) (ri : Nat) (r : RepositoryRecord)
    (hr : g.repositories.get? ri = some r) (hx : r.Xref = "") :
    ∀ st, (encRepository g ri st).err.isSome = true := by
  intro st
  by_cases h : st.err.isSome = true
  · rw [encRepository_sticky g ri st h]; exact h
  simp only [encRepository, hr]
  rw [if_neg h]
  apply encUserDefinedList_mono
  apply encChange_mono
  apply encMaybeTagWithText_mono
  apply encUserReferenceList_mono
  apply encNoteList_mono
  apply encAddress_mono
  apply encMaybeTag_mono
  rw [hx]
  exact encTagWithID_err 0 "REPO" st

/-- Encoder.source ends with the error set when the record has an
empty xref. -/
theorem encSource_err (g : DState) (si : Nat) (r : SourceRecord)
    (hr : g.sources.get? si = some r) (hx : r.Xref = "") :
    ∀ st, (encSource g si st).err.isSome = true := by
  intro st
  by_cases h : st.err.isSome = true
  · rw [encSource_sticky g si st h]; exact h
  simp only [encSource, hr]
  rw [if_neg h]
  apply encUserDefinedList_mono
  apply encMediaRefList_mono
  apply encNoteList_mono
  apply encChange_mono
  apply encMaybeTagWithText_mono
  apply encUserReferenceList_mono
  rcases hRep : r.Repository with _ | rep
  · simp only [hRep]
    apply encMaybeTagWithText_mono
    apply encMaybeTagWithText_mono
    apply encMaybeTagWithText_mono
    apply encMaybeTagWithText_mono
    rcases hD : r.Data with _ | d
    · simp only [hD]
      apply encMaybeTagWithText_mono
      rw [hx]
      exact encTagWithID_err 0 "SOUR" st
    · simp only [hD]
      apply foldl_mono _ (fun st a hh => by
        rw [encTag_sticky _ _ _ _ hh, encMaybeTag_sticky _ _ _ _ hh,
          encMaybeTag_sticky _ _ _ _ hh])
      apply encTag_mono
      apply encMaybeTagWithText_mono
      rw [hx]
      exact encTagWithID_err 0 "SOUR" st
  · rcases hRep2 : rep.Repository with _ | rpi
    · simp only [hRep, hRep2]
      apply encMaybeTagWithText_mono
      apply encMaybeTagWithText_mono
      apply encMaybeTagWithText_mono
      apply encMaybeTagWithText_mono
      rcases hD : r.Data with _ | d
      · simp only [hD]
        apply encMaybeTagWithText_mono
        rw [hx]
        exact encTagWithID_err 0 "SOUR" st
      · simp only [hD]
        apply foldl_mono _ (fun st a hh => by
          rw [encTag_sticky _ _ _ _ hh, encMaybeTag_sticky _ _ _ _ hh,
            encMaybeTag_sticky _ _ _ _ hh])
        apply encTag_mono
        apply encMaybeTagWithText_mono
        rw [hx]
        exact encTagWithID_err 0 "SOUR" st
    · simp only [hRep, hRep2]
      by_cases hXr : ((g.repositories.get? rpi).getD {}).Xref = ""
      · rw [if_pos hXr]
        apply encMaybeTagWithText_mono
        apply encMaybeTagWithText_mono
        apply encMaybeTagWithText_mono
        apply encMaybeTagWithText_mono
        rcases hD : r.Data with _ | d
        · simp only [hD]
          apply encMaybeTagWithText_mono
          rw [hx]
          exact encTagWithID_err 0 "SOUR" st
        · simp only [hD]
          apply foldl_mono _ (fun st a hh => by
            rw [encTag_sticky _ _ _ _ hh, encMaybeTag_sticky _ _ _ _ hh,
              encMaybeTag_sticky _ _ _ _ hh])
          apply encTag_mono
          apply encMaybeTagWithText_mono
          rw [hx]
          exact encTagWithID_err 0 "SOUR" st
      · rw [if_neg hXr]
        apply foldl_mono _ (fun st a hh => by
          rw [encTag_sticky _ _ _ _ hh, encMaybeTag_sticky _ _ _ _ hh])
        apply encNoteList_mono
        apply encTagWithPointer_mono
        apply encMaybeTagWithText_mono
        apply encMaybeTagWithText_mono
        apply encMaybeTagWithText_mono
        apply encMaybeTagWithText_mono
        rcases hD : r.Data with _ | d
        · simp only [hD]
          apply encMaybeTagWithText_mono
          rw [hx]
          exact encTagWithID_err 0 "SOUR" st
        · simp only [hD]
          apply foldl_mono _ (fun st a hh => by
            rw [encTag_sticky _ _ _ _ hh, encMaybeTag_sticky _ _ _ _ hh,
              encMaybeTag_sticky _ _ _ _ hh])
          apply encTag_mono
          apply encMaybeTagWithText_mono
          rw [hx]
          exact encTagWithID_err 0 "SOUR" st

/-- Encoder.submitter at level 0 ends with the error set when the
record has an empty xref. -/
theorem encSubmitter_err (g : DState) (si : Nat) (r : SubmitterRecord)
    (hr : g.submitters.get? si = some r) (hx : r.Xref = "") :
    ∀ st, (encSubmitter g 0 si st).err.isSome = true := by
  intro st
  by_cases h : st.err.isSome = true
  · rw [encSubmitter_sticky g 0 si st h]; exact h
  simp only [encSubmitter, hr]
  rw [if_neg h]
  rcases hC : r.Change with _ | c
  · simp only [hC]
    apply encNoteList_mono
    apply encMaybeTagWithText_mono
    apply encMaybeTagWithText_mono
    apply foldl_mono _ (fun st a hh => encMaybeTagWithText_sticky (0 + 1) "LANG" (strBytes a) st hh)
    apply encMediaRefList_mono
    rcases hA : r.Address with _ | a
    · simp only [hA]
      apply encMaybeTagWithText_mono
      rw [hx]
      exact encTagWithID_err 0 "SUBM" st
    · simp only [hA]
      apply encAddress_mono
      apply encMaybeTagWithText_mono
      rw [hx]
      exact encTagWithID_err 0 "SUBM" st
  · simp only [hC]
    apply encChange_mono
    apply encNoteList_mono
    apply encMaybeTagWithText_mono
    apply encMaybeTagWithText_mono
    apply foldl_mono _ (fun st a hh => encMaybeTagWithText_sticky (0 + 1) "LANG" (strBytes a) st hh)
    apply encMediaRefList_mono
    rcases hA : r.Address with _ | a
    · simp only [hA]
      apply encMaybeTagWithText_mono
      rw [hx]
      exact encTagWithID_err 0 "SUBM" st
    · simp only [hA]
      apply encAddress_mono
      apply encMaybeTagWithText_mono
      rw [hx]
      exact encTagWithID_err 0 "SUBM" st

/-- An individual record whose encoder always fails makes the whole
Encode fail. -/
theorem encodeSt_err_ind (g : DState) (i : Nat)
    (hx : ∀ st, (encIndividual g i st).err.isSome = true) (hi : i ∈ g.gIndividual) :
    (encodeSt g).err.isSome = true := by
  simp only [encodeSt]
  apply encUserDefinedList_mono
  apply foldl_mono _ (fun st a hh => encSubmitter_sticky g 0 a st hh)
  apply foldl_mono _ (fun st a hh => encSource_sticky g a st hh)
  apply foldl_mono _ (fun st a hh => encRepository_sticky g a st hh)
  apply foldl_mono _ (fun st a hh => encMedia_sticky g 0 a st hh)
  apply foldl_mono _ (fun st a hh => encFamily_sticky g a st hh)
  exact foldl_hit _ (fun st a hh => encIndividual_sticky g a st hh) i hx g.gIndividual _ hi

/-- A family record whose encoder always fails makes the whole Encode
fail. -/
theorem encodeSt_err_fam (g : DState) (i : Nat)
    (hx : ∀ st, (encFamily g i st).err.isSome = true) (hi : i ∈ g.gFamily) :
    (encodeSt g).err.isSome = true := by
  simp only [encodeSt]
  apply encUserDefinedList_mono
  apply foldl_mono _ (fun st a hh => encSubmitter_sticky g 0 a st hh)
  apply foldl_mono _ (fun st a hh => encSource_sticky g a st hh)
  apply foldl_mono _ (fun st a hh => encRepository_sticky g a st hh)
  apply foldl_mono _ (fun st a hh => encMedia_sticky g 0 a st hh)
  exact foldl_hit _ (fun st a hh => encFamily_sticky g a st hh) i hx g.gFamily _ hi

/-- A media record whose encoder always fails makes the whole Encode
fail. -/
theorem encodeSt_err_media (g : DState) (i : Nat)
    (hx : ∀ st, (encMedia g 0 i st).err.isSome = true) (hi : i ∈ g.gMedia) :
    (encodeSt g).err.isSome = true := by
  simp only [encodeSt]
  apply encUserDefinedList_mono
  apply foldl_mono _ (fun st a hh => encSubmitter_sticky g 0 a st hh)
  apply foldl_mono _ (fun st a hh => encSource_sticky g a st hh)
  apply foldl_mono _ (fun st a hh => encRepository_sticky g a st hh)
  exact foldl_hit _ (fun st a hh => encMedia_sticky g 0 a st hh) i hx g.gMedia _ hi

/-- A repository record whose encoder always fails makes the whole
Encode fail. -/
theorem encodeSt_err_repo (g : DState) (i : Nat)
    (hx : ∀ st, (encRepository g i st).err.isSome = true) (hi : i ∈ g.gRepository) :
    (encodeSt g).err.isSome = true := by
  simp only [encodeSt]
  apply encUserDefinedList_mono
  apply foldl_mono _ (fun st a hh => encSubmitter_sticky g 0 a st hh)
  apply foldl_mono _ (fun st a hh => encSource_sticky g a st hh)
  exact foldl_hit _ (fun st a hh => encRepository_sticky g a st hh) i hx g.gRepository _ hi

/-- A source record whose encoder always fails makes the whole Encode
fail. -/
theorem encodeSt_err_source (g : DState) (i : Nat)
    (hx : ∀ st, (encSource g i st).err.isSome = true) (hi : i ∈ g.gSource) :
    (encodeSt g).err.isSome = true := by
  simp only [encodeSt]
  apply encUserDefinedList_mono
  apply foldl_mono _ (fun st a hh => encSubmitter_sticky g 0 a st hh)
  exact foldl_hit _ (fun st a hh => encSource_sticky g a st hh) i hx g.gSource _ hi

/-- A submitter record whose encoder always fails makes the whole
Encode fail. -/
theorem encodeSt_err_subm (g : DState) (i : Nat)
    (hx : ∀ st, (encSubmitter g 0 i st).err.isSome = true) (hi : i ∈ g.gSubmitter) :
    (encodeSt g).err.isSome = true := by
  simp only [encodeSt]
  apply encUserDefinedList_mono
  exact foldl_hit _ (fun st a hh => encSubmitter_sticky g 0 a st hh) i hx g.gSubmitter _ hi

/-- A set error surfaces as the error result of Encode. -/
theorem encodeG_err_of (g : DState) (h : (encodeSt g).err.isSome = true) :
    ∃ e, encodeG g = .error e := by
  rcases hh : (encodeSt g).err with _ | e
  · rw [hh] at h
    simp at h
  · exact ⟨e, by simp [encodeG, hh]⟩

/-- Claim C8: encoding fails with an error whenever a structurally
required identity is missing — an individual with a FAMC or FAMS link
whose target family is nil or has an empty xref, a family with a
HUSB, WIFE or CHIL reference to an individual with an empty xref, or
a top-level record of any kind with an empty xref. -/
theorem C8_encode_missing_identity (g : DState) :
    (∀ i r li, i ∈ g.gIndividual → g.individuals.get? i = some r →
      (li ∈ r.Parents ∨ li ∈ r.Family) → badLink g li →
      ∃ e, encodeG g = .error e) ∧
    (∀ fi r j, fi ∈ g.gFamily → g.families.get? fi = some r →
      (r.Husband = some j ∨ r.Wife = some j ∨ j ∈ r.Child) →
      ((g.individuals.get? j).getD {}).Xref = "" →
      ∃ e, encodeG g = .error e) ∧
    ((∃ i r, i ∈ g.gIndividual ∧ g.individuals.get? i = some r ∧ r.Xref = "") ∨
      (∃ i r, i ∈ g.gFamily ∧ g.families.get? i = some r ∧ r.Xref = "") ∨
      (∃ i r, i ∈ g.gMedia ∧ g.medias.get? i = some r ∧ r.Xref = "") ∨
      (∃ i r, i ∈ g.gRepository ∧ g.repositories.get? i = some r ∧ r.Xref = "") ∨
      (∃ i r, i ∈ g.gSource ∧ g.sources.get? i = some r ∧ r.Xref = "") ∨
      (∃ i r, i ∈ g.gSubmitter ∧ g.submitters.get? i = some r ∧ r.Xref = "") →
      ∃ e, encodeG g = .error e) := by
  refine ⟨?_, ?_, ?_⟩
  · intro i r li hi hr hmem hbl
    exact encodeG_err_of g (encodeSt_err_ind g i
      (encIndividual_err g i r hr (Or.inl ⟨li, hmem, hbl⟩)) hi)
  · intro fi r j hf hr hcase hx
    exact encodeG_err_of g (encodeSt_err_fam g fi
      (encFamily_err g fi r hr (Or.inl ⟨j, hcase, hx⟩)) hf)
  · intro hd
    rcases hd with ⟨i, r, hi, hr, hx⟩ | ⟨i, r, hi, hr, hx⟩ | ⟨i, r, hi, hr, hx⟩ |
      ⟨i, r, hi, hr, hx⟩ | ⟨i, r, hi, hr, hx⟩ | ⟨i, r, hi, hr, hx⟩
    · exact encodeG_err_of g (encodeSt_err_ind g i
        (encIndividual_err g i r hr (Or.inr hx)) hi)
    · exact encodeG_err_of g (encodeSt_err_fam g i
        (encFamily_err g i r hr (Or.inr hx)) hi)
    · exact encodeG_err_of g (encodeSt_err_media g i (encMedia_err g i r hr hx) hi)
    · exact encodeG_err_of g (encodeSt_err_repo g i (encRepository_err g i r hr hx) hi)
    · exact encodeG_err_of g (encodeSt_err_source g i (encSource_err g i r hr hx) hi)
    · exact encodeG_err_of g (encodeSt_err_subm g i (encSubmitter_err g i r hr hx) hi)

/-- A graph with an individual whose FAMC link has a nil family. -/
def c8g1 : DState :=
  { individuals := [{ Xref := "I1", Parents := [0] }], familyLinks := [{}],
    gIndividual := [0] }

/-- A graph with a family whose HUSB points at an individual with no
xref. -/
def c8g2 : DState :=
  { individuals := [{}], families := [{ Xref := "F1", Husband := some 0 }],
    gFamily := [0] }

/-- A graph with a top-level submitter record with no xref. -/
def c8g3 : DState :=
  { submitters := [{}], gSubmitter := [0] }

/-- Witness for C8: the three families of hypotheses at concrete
graphs. -/
theorem C8_encode_missing_identity_witness :
    (∃ e, encodeG c8g1 = .error e) ∧ (∃ e, encodeG c8g2 = .error e) ∧
      (∃ e, encodeG c8g3 = .error e) :=
  ⟨(C8_encode_missing_identity c8g1).1 0 { Xref := "I1", Parents := [0] } 0 (by decide)
      (by decide) (Or.inl (by decide)) ⟨{}, by decide, Or.inl (by decide)⟩,
   (C8_encode_missing_identity c8g2).2.1 0 { Xref := "F1", Husband := some 0 } 0 (by decide)
      (by decide) (Or.inl (by decide)) (by decide),
   (C8_encode_missing_identity c8g3).2.2 (Or.inr (Or.inr (Or.inr (Or.inr (Or.inr
      ⟨0, {}, by decide, by decide, by decide⟩)))))⟩

/-- A well-formed parser stack: non-root parsers on top of the root parser that Decode installs at the bottom. -/
def stackOk (stack : List Ctx) : Prop :=
  ∃ cs : List NCtx, stack = cs.map Ctx.n ++ [Ctx.root]

/-- Dispatching one line on a well-formed stack never reaches the
popParser panic, and leaves a well-formed stack. -/
theorem lineStep_ok : ∀ (cs : List NCtx) (l : GLine) (st : DState),
    ∃ res, lineStep (cs.map Ctx.n ++ [Ctx.root]) l st = some res ∧ stackOk res.1 := by
  intro cs
  induction cs with
  | nil =>
    intro l st
    refine ⟨(((rootHandle l st).1.map Ctx.n).toList ++ [Ctx.root], (rootHandle l st).2), ?_, ?_⟩
    · simp [lineStep]
    · cases hp : (rootHandle l st).1 with
      | none => exact ⟨[], by simp [hp]⟩
      | some c2 => exact ⟨[c2], by simp [hp]⟩
  | cons c cs ih =>
    intro l st
    by_cases hl : l.Level ≤ c.minLevel
    · obtain ⟨res, h1, h2⟩ := ih l st
      exact ⟨res, by simpa [lineStep, hl] using h1, h2⟩
    · refine ⟨(((handleN c.kind l st).1.map Ctx.n).toList ++
          Ctx.n c :: (cs.map Ctx.n ++ [Ctx.root]), (handleN c.kind l st).2), ?_, ?_⟩
      · simp [lineStep, hl]
      · cases hp : (handleN c.kind l st).1 with
        | none => exact ⟨c :: cs, by simp [hp]⟩
        | some c2 => exact ⟨c2 :: c :: cs, by simp [hp]⟩

/-- Feeding any list of lines to a well-formed stack never panics. -/
theorem runLines_ok : ∀ (ls : List GLine) (stack : List Ctx) (st : DState), stackOk stack →
    ∃ res, runLines stack st ls = some res ∧ stackOk res.1 := by
  intro ls
  induction ls with
  | nil => intro stack st h; exact ⟨(stack, st), rfl, h⟩
  | cons l ls ih =>
    intro stack st h
    obtain ⟨cs, rfl⟩ := h
    obtain ⟨res, h1, h2⟩ := lineStep_ok cs l st
    obtain ⟨res2, h3, h4⟩ := ih res.1 res.2 h2
    exact ⟨res2, by simp [runLines, h1, h3], h4⟩

/-- Claim C10: the handler stack never empties, so the popParser
panic is unreachable for every line stream (first two conjuncts), and
Decode returns a scan error exactly when the scanner reports one
(last conjunct; the handlers themselves never produce an error, and
the scan loop discards their nil return value). -/
theorem C10_decode_no_panic_err_iff_scan :
    (∀ ls : List GLine, decodeLines ls ≠ none)
    ∧ (∀ cs : List Char, decodeChars cs ≠ .panicked)
    ∧ (∀ (cs : List Char) (e : ScanError), decodeChars cs = .scanError e ↔ scanChars cs = .error e) := by
  have hlines : ∀ ls : List GLine, decodeLines ls ≠ none := by
    intro ls
    obtain ⟨res, h1, _⟩ := runLines_ok ls [Ctx.root] {} ⟨[], rfl⟩
    simp [decodeLines, h1]
  refine ⟨hlines, ?_, ?_⟩
  · intro cs
    unfold decodeChars
    cases hscan : scanChars cs with
    | error e => simp
    | ok ls =>
      cases hdec : decodeLines ls with
      | none => exact absurd hdec (hlines ls)
      | some g => simp [hdec]
  · intro cs e
    unfold decodeChars
    cases hscan : scanChars cs with
    | error e2 => simp
    | ok ls =>
      cases hdec : decodeLines ls with
      | none => exact absurd hdec (hlines ls)
      | some g => simp [hdec]

/-- Tags the root context recognizes. -/
def rootKnownTags : List String := ["HEAD", "INDI", "SUBM", "FAM", "SOUR", "REPO", "OBJE"]

/-- Tags the header context recognizes. -/
def headerKnownTags : List String :=
  ["SOUR", "DEST", "DATE", "FILE", "COPR", "GEDC", "LANG", "NOTE", "SUBM", "SUBN", "CHAR"]

/-- Tags the header source-system context recognizes. -/
def systemKnownTags : List String := ["VERS", "NAME", "CORP", "DATA"]

/-- Tags the individual context recognizes. -/
def indiKnownTags : List String :=
  ["NAME", "SEX"] ++ indiEventTags ++ indiAttrTags ++
    ["FAMC", "SUBM", "ASSO", "ALIA", "RFN", "AFN", "FAMS", "REFN", "RIN", "CHAN",
     "NOTE", "SOUR", "OBJE"]

/-- Tags the family context recognizes. -/
def famKnownTags : List String :=
  ["HUSB", "WIFE", "CHIL"] ++ famEventTags ++
    ["NCHI", "REFN", "RIN", "CHAN", "NOTE", "SOUR", "OBJE"]

/-- Tags the source context recognizes. -/
def sourceKnownTags : List String :=
  ["DATA", "TITL", "ABBR", "AUTH", "PUBL", "TEXT", "REPO", "REFN", "RIN", "CHAN",
   "NOTE", "OBJE"]

/-- Tags the citation context recognizes. -/
def citationKnownTags : List String := ["PAGE", "QUAY", "NOTE", "DATA"]

/-- Tags the citation data context recognizes. -/
def dataKnownTags : List String := ["DATE", "TEXT"]

/-- Tags the event context recognizes (FAMC is special-cased per
parent tag; the address tags are recognized by the shared address
recognizer). -/
def eventKnownTags : List String :=
  ["FAMC", "TYPE", "DATE", "PLAC", "AGNC", "RELI", "CAUS", "RESN", "NOTE", "SOUR",
   "OBJE", "ADDR", "PHON", "EMAIL", "FAX", "WWW", "URL"]

/-- Tags the media context recognizes. -/
def mediaKnownTags : List String :=
  ["FILE", "FORM", "TITL", "RIN", "REFN", "NOTE", "SOUR", "CHAN"]

/-- Tags the media file format context recognizes. -/
def mediaFileFormatKnownTags : List String := ["TYPE"]

/-- Tags the repository context recognizes (address tags via the
shared address recognizer). -/
def repositoryKnownTags : List String :=
  ["NAME", "NOTE", "RIN", "REFN", "CHAN", "ADDR", "PHON", "EMAIL", "FAX", "WWW", "URL"]

/-- The user-defined node the unknown-tag handler builds for a
line. -/
def udNode (l : GLine) : UserDefinedTag :=
  { Tag := l.Tag, Value := l.Value, Xref := l.Xref, Level := l.Level }

/-- Claim C3 as amended: the contexts that collect user-defined tags
(root, header, header source system, individual, family, source,
citation, citation data, event, media, media file format and
repository) preserve every line whose tag they do not recognize as a
generic user-defined node carrying exactly the tag, value, xref and
level of the line, and push a nested unknown-tag handler for its
children; the unknown-tag handler itself preserves every further line
the same way, so unknown structure is preserved recursively.  (The
remaining contexts, such as the name and place contexts, only log the
line: see the counterexample.) -/
theorem C3_amended_unknown_tag_preservation :
    (∀ (l : GLine) (st : DState), l.Level = 0 → l.Tag ∉ rootKnownTags →
      rootHandle l st = (some ⟨.userDefined st.userDefs.length, l.Level⟩,
        { st with userDefs := st.userDefs ++ [udNode l],
                  gUserDefined := st.gUserDefined ++ [st.userDefs.length] }))
    ∧ (∀ (l : GLine) (st : DState), l.Tag ∉ headerKnownTags →
      headerHandle l st = (some ⟨.userDefined st.userDefs.length, l.Level⟩,
        modHeader (fun h => { h with UserDefined := h.UserDefined ++ [st.userDefs.length] })
          { st with userDefs := st.userDefs ++ [udNode l] }))
    ∧ (∀ (l : GLine) (st : DState), l.Tag ∉ systemKnownTags →
      systemHandle l st = (some ⟨.userDefined st.userDefs.length, l.Level⟩,
        modHeader (fun h => { h with SourceSystem :=
            { h.SourceSystem with UserDefined := h.SourceSystem.UserDefined ++ [st.userDefs.length] } })
          { st with userDefs := st.userDefs ++ [udNode l] }))
    ∧ (∀ (i : Nat) (l : GLine) (st : DState), l.Tag ∉ indiKnownTags →
      individualHandle i l st = (some ⟨.userDefined st.userDefs.length, l.Level⟩,
        modInd i (fun r => { r with UserDefined := r.UserDefined ++ [st.userDefs.length] })
          { st with userDefs := st.userDefs ++ [udNode l] }))
    ∧ (∀ (i : Nat) (l : GLine) (st : DState), l.Tag ∉ famKnownTags →
      familyHandle i l st = (some ⟨.userDefined st.userDefs.length, l.Level⟩,
        modFam i (fun r => { r with UserDefined := r.UserDefined ++ [st.userDefs.length] })
          { st with userDefs := st.userDefs ++ [udNode l] }))
    ∧ (∀ (i : Nat) (l : GLine) (st : DState), l.Tag ∉ sourceKnownTags →
      sourceHandle i l st = (some ⟨.userDefined st.userDefs.length, l.Level⟩,
        modSource i (fun r => { r with UserDefined := r.UserDefined ++ [st.userDefs.length] })
          { st with userDefs := st.userDefs ++ [udNode l] }))
    ∧ (∀ (i : Nat) (l : GLine) (st : DState), l.Tag ∉ citationKnownTags →
      citationHandle i l st = (some ⟨.userDefined st.userDefs.length, l.Level⟩,
        modCitation i (fun c => { c with UserDefined := c.UserDefined ++ [st.userDefs.length] })
          { st with userDefs := st.userDefs ++ [udNode l] }))
    ∧ (∀ (i : Nat) (l : GLine) (st : DState), l.Tag ∉ dataKnownTags →
      dataHandle i l st = (some ⟨.userDefined st.userDefs.length, l.Level⟩,
        modCitation i (fun c => { c with Data :=
            { c.Data with UserDefined := c.Data.UserDefined ++ [st.userDefs.length] } })
          { st with userDefs := st.userDefs ++ [udNode l] }))
    ∧ (∀ (p : String) (i : Nat) (l : GLine) (st : DState), l.Tag ∉ eventKnownTags →
      eventHandle p i l st = (some ⟨.userDefined st.userDefs.length, l.Level⟩,
        modEvent i (fun e => { e with UserDefined := e.UserDefined ++ [st.userDefs.length] })
          { st with userDefs := st.userDefs ++ [udNode l] }))
    ∧ (∀ (i : Nat) (l : GLine) (st : DState), l.Tag ∉ mediaKnownTags →
      mediaHandle i l st = (some ⟨.userDefined st.userDefs.length, l.Level⟩,
        modMedia i (fun m => { m with UserDefined := m.UserDefined ++ [st.userDefs.length] })
          { st with userDefs := st.userDefs ++ [udNode l] }))
    ∧ (∀ (i : Nat) (l : GLine) (st : DState), l.Tag ∉ mediaFileFormatKnownTags →
      mediaFileFormatHandle i l st = (some ⟨.userDefined st.userDefs.length, l.Level⟩,
        modFile i (fun f => { f with UserDefined := f.UserDefined ++ [st.userDefs.length] })
          { st with userDefs := st.userDefs ++ [udNode l] }))
    ∧ (∀ (i : Nat) (l : GLine) (st : DState), l.Tag ∉ repositoryKnownTags →
      repositoryHandle i l st = (some ⟨.userDefined st.userDefs.length, l.Level⟩,
        modRepo i (fun r => { r with UserDefined := r.UserDefined ++ [st.userDefs.length] })
          { st with userDefs := st.userDefs ++ [udNode l] }))
    ∧ (∀ (u : Nat) (l : GLine) (st : DState),
      userDefinedHandle u l st = (some ⟨.userDefined st.userDefs.length, l.Level⟩,
        modUserDef u (fun r => { r with UserDefined := r.UserDefined ++ [st.userDefs.length] })
          { st with userDefs := st.userDefs ++ [udNode l] })) := by
  refine ⟨?_, ?_, ?_, ?_, ?_, ?_, ?_, ?_, ?_, ?_, ?_, ?_, ?_⟩
  · intro l st h0 h
    simp only [rootKnownTags, List.mem_cons, List.mem_singleton, not_or] at h
    simp [rootHandle, captureUserDef, allocUserDef, udNode, h0, h]
  · intro l st h
    simp only [headerKnownTags, List.mem_cons, List.mem_singleton, not_or] at h
    simp [headerHandle, captureUserDef, allocUserDef, udNode, h]
  · intro l st h
    simp only [systemKnownTags, List.mem_cons, List.mem_singleton, not_or] at h
    simp [systemHandle, captureUserDef, allocUserDef, udNode, h]
  · intro i l st h
    simp only [indiKnownTags, List.mem_append, List.mem_cons, List.mem_singleton, not_or] at h
    simp [individualHandle, captureUserDef, allocUserDef, udNode, h]
  · intro i l st h
    simp only [famKnownTags, List.mem_append, List.mem_cons, List.mem_singleton, not_or] at h
    simp [familyHandle, captureUserDef, allocUserDef, udNode, h]
  · intro i l st h
    simp only [sourceKnownTags, List.mem_cons, List.mem_singleton, not_or] at h
    simp [sourceHandle, captureUserDef, allocUserDef, udNode, h]
  · intro i l st h
    simp only [citationKnownTags, List.mem_cons, List.mem_singleton, not_or] at h
    simp [citationHandle, captureUserDef, allocUserDef, udNode, h]
  · intro i l st h
    simp only [dataKnownTags, List.mem_cons, List.mem_singleton, not_or] at h
    simp [dataHandle, captureUserDef, allocUserDef, udNode, h]
  · intro p i l st h
    simp only [eventKnownTags, List.mem_cons, List.mem_singleton, not_or] at h
    simp [eventHandle, tryAddressTags, captureUserDef, allocUserDef, udNode, h]
  · intro i l st h
    simp only [mediaKnownTags, List.mem_cons, List.mem_singleton, not_or] at h
    simp [mediaHandle, captureUserDef, allocUserDef, udNode, h]
  · intro i l st h
    simp only [mediaFileFormatKnownTags, List.mem_cons, List.mem_singleton, not_or] at h
    simp [mediaFileFormatHandle, captureUserDef, allocUserDef, udNode, h]
  · intro i l st h
    simp only [repositoryKnownTags, List.mem_cons, List.mem_singleton, not_or] at h
    simp [repositoryHandle, tryAddressTags, captureUserDef, allocUserDef, udNode, h]
  · intro u l st
    simp [userDefinedHandle, captureUserDef, allocUserDef, udNode]

/-- Witness for C3: the individual conjunct applied to a concrete
unknown tag. -/
theorem C3_amended_witness :
    individualHandle 0 ⟨1, "_TREE", "v", "", 1, 0⟩ {} =
      (some ⟨.userDefined ({} : DState).userDefs.length, 1⟩,
        modInd 0 (fun r => { r with UserDefined := r.UserDefined ++ [({} : DState).userDefs.length] })
          { ({} : DState) with userDefs := ({} : DState).userDefs ++ [udNode ⟨1, "_TREE", "v", "", 1, 0⟩] }) :=
  C3_amended_unknown_tag_preservation.2.2.2.1 0 ⟨1, "_TREE", "v", "", 1, 0⟩ {} (by decide)

/-- Witness for C9: the amended theorem applied to a concrete ALIA
line. -/
theorem C9_amended_alia_witness :
    individualHandle 0 ⟨1, "ALIA", "Peggy", "", 1, 0⟩ {} =
      (none, modInd 0 (fun r => { r with Name := r.Name ++ [(({} : DState)).names.length] })
        { ({} : DState) with names := ({} : DState).names ++ [{ Name := "Peggy" }] }) :=
  C9_amended_alia_alternate_name 0 ⟨1, "ALIA", "Peggy", "", 1, 0⟩ {} rfl rfl (by decide)

end Gedcom
